import Mathlib

/-!
# Ralink driver layer of wpa_supplicant: embedding and verified properties

Shallow embedding of `src/drivers/driver_ralink.c`.

Conventions of the embedding

* Bytes are `Fin 256`; a C buffer together with its length argument is a `List u8`
  whose length is the length argument; a pointer that may be `NULL` is an `Option`.
* Pointers into a buffer are offsets (`Nat`) from its start.
* The singly linked PMKID list (`struct ndis_pmkid_entry`, field `next`) is a `List`,
  head first.
* The driver side of the control channel is an explicit environment (`Kernel`): it
  answers the k-th `ioctl` with success or failure.  Every `ioctl` issued is appended
  to the `calls` log of the state, so "what was sent" is a statement about that log.
* `os_malloc`, `os_zalloc` and `os_realloc` are taken to succeed.
* Multi-byte fields of wire records are read in little-endian byte order.
* A value that C leaves undefined (a shift of an `int` by 32 bits or more) is `none`.
* Constants, enumerations and structure layouts that come from headers outside this
  source file (`wireless_copy.h`, `driver.h`, `driver_ralink.h`, `ieee802_11_defs.h`)
  are either parameters (`Layout`, `NdisLayout`) or stated with their header values.
* The calls of `wpa_supplicant_event` a function makes are its result: a list of
  `wpa_event`, in call order.
* A read outside the memory a function may read is a `Fault`. For the two decoding loops,
  which copy a whole `struct iw_event` without a test, that memory is the object the
  buffer lies in (`mem`, of which the buffer is the first `len` bytes); for the other
  functions it is the buffer they were given. What a faulting read returned, and what is
  computed from it, is not determined; what the code does without using it (the stores
  into the handle after a parser has returned) is still modelled.
-/

namespace Ralink

/-! ## Bytes and buffers -/

/-- One octet (`u8`, `UCHAR`). -/
abbrev u8 := Fin 256

/-- A fixed-size byte array `u8 x[n]`. -/
abbrev Bytes (n : Nat) := { l : List u8 // l.length = n }

/-- Value of `ETH_ALEN`. -/
def ETH_ALEN : Nat := 6

/-- A MAC address, `u8 bssid[ETH_ALEN]`. -/
abbrev MacAddr := Bytes 6

/-- A PMKID, `u8 pmkid[16]`. -/
abbrev Pmkid := Bytes 16

/-- Why a run has no determined result in the model. -/
inductive Fault where
  /-- A copy read `len` source bytes from offset `off`, not all of them inside the memory it
  reads from. -/
  | out_of_bounds (off len : Nat)
  /-- The iteration budget of the model was used up. -/
  | out_of_fuel
  deriving DecidableEq, Repr

/-- Source side of `os_memcpy(dst, data + off, n)`: the `n` bytes at offsets
`off .. off + n - 1`, or a fault when one of them lies at an offset `>= data.length`. -/
def memread (data : List u8) (off n : Nat) : Except Fault (List u8) :=
  if off + n ≤ data.length then .ok ((data.drop off).take n)
  else .error (.out_of_bounds off n)

/-- Destination side of `os_memcpy(dst + off, src, src.length)`. -/
def blit (dst : List u8) (off : Nat) (src : List u8) : List u8 :=
  dst.take off ++ src ++ dst.drop (off + src.length)

/-- A 16-bit field stored at offset `off` of `b` (absent bytes read as 0). -/
def get_u16 (b : List u8) (off : Nat) : Nat :=
  (b.getD off 0).val + 256 * (b.getD (off + 1) 0).val

/-! ## Wireless-extension event records (`struct iw_event`) -/

/-- Sizes and offsets that `wireless_copy.h` derives from the platform layout of
`struct iw_event` and `struct iw_point`. The header is not part of the source file, so
the embedding takes them as a parameter. -/
structure Layout where
  /-- Value of `sizeof(struct iw_event)`. -/
  sizeof_iw_event : Nat
  /-- Value of `IW_EV_LCP_LEN`, the size of the `len`/`cmd` prefix with its padding. -/
  IW_EV_LCP_LEN : Nat
  /-- Value of `IW_EV_POINT_OFF`, the offset of `length` inside `struct iw_point`. -/
  IW_EV_POINT_OFF : Nat
  /-- Value of `IW_EV_POINT_LEN`. -/
  IW_EV_POINT_LEN : Nat
  deriving DecidableEq, Repr

/-- Layout on a 32-bit Linux target: 4-byte prefix, 16-byte union, 4-byte pointer. -/
def layout32 : Layout :=
  { sizeof_iw_event := 20, IW_EV_LCP_LEN := 4, IW_EV_POINT_OFF := 4, IW_EV_POINT_LEN := 8 }

/-- Layout on a 64-bit Linux target: 8-byte prefix, 16-byte union, 8-byte pointer. -/
def layout64 : Layout :=
  { sizeof_iw_event := 24, IW_EV_LCP_LEN := 8, IW_EV_POINT_OFF := 8, IW_EV_POINT_LEN := 16 }

/-- Offset of `u.data.length` inside `struct iw_event`, the `dlen` of the source:
the union starts after the prefix and `length` follows the pointer of `struct iw_point`. -/
def Layout.dlen (L : Layout) : Nat := L.IW_EV_LCP_LEN + L.IW_EV_POINT_OFF

/-- Field `iwe->len`. -/
def iwe_len (iwe_buf : List u8) : Nat := get_u16 iwe_buf 0

/-- Field `iwe->cmd`. -/
def iwe_cmd (iwe_buf : List u8) : Nat := get_u16 iwe_buf 2

/-- Field `iwe->u.data.length` (also `u.essid.length`). -/
def iwe_data_length (L : Layout) (iwe_buf : List u8) : Nat := get_u16 iwe_buf L.dlen

/-- Field `iwe->u.data.flags` (also `u.essid.flags`). -/
def iwe_data_flags (L : Layout) (iwe_buf : List u8) : Nat := get_u16 iwe_buf (L.dlen + 2)

/-- Command code `SIOCGIWESSID`. -/
def SIOCGIWESSID : Nat := 0x8B1B
/-- Command code `SIOCGIWENCODE`. -/
def SIOCGIWENCODE : Nat := 0x8B2B
/-- Command code `IWEVCUSTOM`. -/
def IWEVCUSTOM : Nat := 0x8C02
/-- Command code `IWEVGENIE`. -/
def IWEVGENIE : Nat := 0x8C05
/-- Value of `IW_ESSID_MAX_SIZE`. -/
def IW_ESSID_MAX_SIZE : Nat := 32

/-- What one iteration of a decoding loop hands to the dispatch code: the local copy
`iwe_buf`, the offset `custom` of the payload in the source buffer, and the payload
bytes the iteration copied out of the source buffer (empty when it copied none). -/
structure iw_record where
  /-- The aligned local copy `iwe_buf` after the header copies. -/
  iwe_buf : List u8
  /-- Offset of `custom` from the start of the buffer. -/
  custom : Nat
  /-- Bytes copied from `custom`. -/
  payload : List u8
  deriving DecidableEq, Repr

/-- Header copies of one loop iteration, shared by both decoding loops: after the
prefix has been copied, either the WE-19 path
`os_memcpy(dpos, pos + IW_EV_LCP_LEN, sizeof(struct iw_event) - dlen)` or the legacy
path `os_memcpy(&iwe_buf, pos, sizeof(struct iw_event)); custom += IW_EV_POINT_OFF`.
Returns the new `iwe_buf` and `custom`. -/
def iw_copy_event (L : Layout) (data : List u8) (pos : Nat) (iwe_buf : List u8)
    (we19 : Bool) : Except Fault (List u8 × Nat) :=
  if we19 then
    (memread data (pos + L.IW_EV_LCP_LEN) (L.sizeof_iw_event - L.dlen)).map
      fun bytes => (blit iwe_buf L.dlen bytes, pos + L.IW_EV_POINT_LEN)
  else
    (memread data pos L.sizeof_iw_event).map
      fun bytes => (blit iwe_buf 0 bytes, pos + L.IW_EV_POINT_LEN + L.IW_EV_POINT_OFF)

/-- The `while (pos + IW_EV_LCP_LEN <= end)` loop of `wpa_driver_ralink_event_wireless`
(lines 538-710) as far as it touches memory. The buffer `data` of the source is the first
`end_` bytes of `mem`, and `mem` holds all the bytes from `data` to the end of the memory
object the buffer lies in: the loop tests its cursor and the payload against `end`, and
what it copies it reads from the object, so a read is a fault only when it leaves `mem`.
The result lists the `IWEVCUSTOM` records that reach the dispatch on `u.data.flags`,
each with the copy `buf` of its payload. -/
def event_wireless_loop (L : Layout) (we_version_compiled : Int) (mem : List u8) (end_ : Nat) :
    Nat → Nat → List u8 → Except Fault (List iw_record)
  | 0, _, _ => .error .out_of_fuel
  | fuel + 1, pos, iwe_buf =>
    if pos + L.IW_EV_LCP_LEN ≤ end_ then
      (memread mem pos L.IW_EV_LCP_LEN).bind fun hdr =>
      let iwe1 := blit iwe_buf 0 hdr
      if iwe_len iwe1 ≤ L.IW_EV_LCP_LEN then .ok []
      else
        (iw_copy_event L mem pos iwe1
          (decide (we_version_compiled > 18) && decide (iwe_cmd iwe1 = IWEVCUSTOM))).bind
        fun (iwe2, custom) =>
        if iwe_cmd iwe2 = IWEVCUSTOM then
          if custom + iwe_data_length L iwe2 > end_ then .ok []
          else
            (memread mem custom (iwe_data_length L iwe2)).bind fun buf =>
            (event_wireless_loop L we_version_compiled mem end_ fuel (pos + iwe_len iwe2)
              iwe2).map
              fun rest => { iwe_buf := iwe2, custom := custom, payload := buf } :: rest
        else
          event_wireless_loop L we_version_compiled mem end_ fuel (pos + iwe_len iwe2) iwe2
    else .ok []

/-- Decoding part of `wpa_driver_ralink_event_wireless(drv, ctx, data, len)` for a buffer
of `len` bytes at the start of `mem`, the bytes from `data` to the end of its memory
object: the loop started at `pos = data`. Each iteration advances `pos` by more than
`IW_EV_LCP_LEN`, so `len + 1` iterations are the budget. The local `iwe_buf` starts
zeroed. -/
def wpa_driver_ralink_event_wireless_decode_within (L : Layout) (we_version_compiled : Int)
    (mem : List u8) (len : Nat) : Except Fault (List iw_record) :=
  event_wireless_loop L we_version_compiled mem len (len + 1) 0
    (List.replicate L.sizeof_iw_event 0)

/-- Decoding part of `wpa_driver_ralink_event_wireless(drv, ctx, data, len)` for a buffer
`data` that ends where its memory object ends (nothing behind the buffer may be read), so
that every read past `end` is a fault. -/
def wpa_driver_ralink_event_wireless_decode (L : Layout) (we_version_compiled : Int)
    (data : List u8) : Except Fault (List iw_record) :=
  wpa_driver_ralink_event_wireless_decode_within L we_version_compiled data data.length

/-- The test `ralink_19_iw_point(drv, cmd)`. -/
def ralink_19_iw_point (we_version_compiled : Int) (cmd : Nat) : Bool :=
  decide (we_version_compiled > 18) &&
    (decide (cmd = SIOCGIWESSID) || decide (cmd = SIOCGIWENCODE) ||
     decide (cmd = IWEVGENIE) || decide (cmd = IWEVCUSTOM))

/-- Source bytes copied by `ralink_get_scan_ssid(iwe, &data, custom, end)`, read from the
memory object `mem` of the scan buffer. -/
def ralink_get_scan_ssid_read (L : Layout) (mem : List u8) (end_ : Nat) (iwe_buf : List u8)
    (custom : Nat) : Except Fault (List u8) :=
  let ssid_len := iwe_data_length L iwe_buf
  if custom + ssid_len > end_ then .ok []
  else if iwe_data_flags L iwe_buf ≠ 0 ∧ ssid_len > 0 ∧ ssid_len ≤ IW_ESSID_MAX_SIZE then
    memread mem custom ssid_len
  else .ok []

/-- Source bytes copied by `ralink_get_scan_iwevgenie(iwe, &data, custom, end)`, read from
the memory object `mem` of the scan buffer. -/
def ralink_get_scan_iwevgenie_read (L : Layout) (mem : List u8) (end_ : Nat)
    (iwe_buf : List u8) (custom : Nat) : Except Fault (List u8) :=
  if iwe_data_length L iwe_buf = 0 then .ok []
  else if custom + iwe_data_length L iwe_buf > end_ then .ok []
  else memread mem custom (iwe_data_length L iwe_buf)

/-- The `while (pos + IW_EV_LCP_LEN <= end)` loop of
`wpa_driver_ralink_get_scan_results2` (lines 1294-1342) as far as it touches memory: one
`iw_record` per record that reaches the `switch (iwe->cmd)`. The scan buffer is the first
`end_` bytes of `mem`, and `mem` holds the whole allocation `res_buf`, which the loop
reads from. -/
def scan_results_loop (L : Layout) (we_version_compiled : Int) (mem : List u8) (end_ : Nat) :
    Nat → Nat → List u8 → Except Fault (List iw_record)
  | 0, _, _ => .error .out_of_fuel
  | fuel + 1, pos, iwe_buf =>
    if pos + L.IW_EV_LCP_LEN ≤ end_ then
      (memread mem pos L.IW_EV_LCP_LEN).bind fun hdr =>
      let iwe1 := blit iwe_buf 0 hdr
      if iwe_len iwe1 ≤ L.IW_EV_LCP_LEN then .ok []
      else
        (iw_copy_event L mem pos iwe1
          (ralink_19_iw_point we_version_compiled (iwe_cmd iwe1))).bind
        fun (iwe2, custom) =>
        (if iwe_cmd iwe2 = SIOCGIWESSID then ralink_get_scan_ssid_read L mem end_ iwe2 custom
         else if iwe_cmd iwe2 = IWEVGENIE then
           ralink_get_scan_iwevgenie_read L mem end_ iwe2 custom
         else .ok []).bind fun payload =>
        (scan_results_loop L we_version_compiled mem end_ fuel (pos + iwe_len iwe2) iwe2).map
          fun rest => { iwe_buf := iwe2, custom := custom, payload := payload } :: rest
    else .ok []

/-- Decoding part of `wpa_driver_ralink_get_scan_results2` on the allocation `res_buf`
whose first `len` bytes the scan query reported. -/
def wpa_driver_ralink_get_scan_results2_decode_within (L : Layout)
    (we_version_compiled : Int) (res_buf : List u8) (len : Nat) :
    Except Fault (List iw_record) :=
  scan_results_loop L we_version_compiled res_buf len (len + 1) 0
    (List.replicate L.sizeof_iw_event 0)

/-- Decoding part of `wpa_driver_ralink_get_scan_results2` on a buffer `res_buf` that the
scan query filled to its last byte, so that every read past `end` is a fault. -/
def wpa_driver_ralink_get_scan_results2_decode (L : Layout) (we_version_compiled : Int)
    (res_buf : List u8) : Except Fault (List iw_record) :=
  wpa_driver_ralink_get_scan_results2_decode_within L we_version_compiled res_buf
    res_buf.length

/-! ## Enumerations and constants of the control vocabulary -/

/-- Key algorithms `wpa_alg` of `driver.h`. -/
inductive wpa_alg where
  | WPA_ALG_NONE | WPA_ALG_WEP | WPA_ALG_TKIP | WPA_ALG_CCMP | WPA_ALG_IGTK | WPA_ALG_PMK
  deriving DecidableEq, Repr

/-- Cipher suites `wpa_cipher` of `driver.h`; `CIPHER_OTHER` stands for any value of the
C enumeration type that is none of the five named ones. -/
inductive wpa_cipher where
  | CIPHER_NONE | CIPHER_WEP40 | CIPHER_TKIP | CIPHER_CCMP | CIPHER_WEP104
  | CIPHER_OTHER (v : Nat)
  deriving DecidableEq, Repr

/-- Key-management suites `wpa_key_mgmt` of `driver.h`. -/
inductive wpa_key_mgmt where
  | KEY_MGMT_802_1X | KEY_MGMT_PSK | KEY_MGMT_NONE | KEY_MGMT_802_1X_NO_WPA
  | KEY_MGMT_WPA_NONE | KEY_MGMT_FT_802_1X | KEY_MGMT_FT_PSK | KEY_MGMT_802_1X_SHA256
  | KEY_MGMT_PSK_SHA256 | KEY_MGMT_WPS
  deriving DecidableEq, Repr

/-- Vendor constants `NDIS_802_11_AUTHENTICATION_MODE`. -/
inductive NDIS_802_11_AUTHENTICATION_MODE where
  | Ndis802_11AuthModeOpen | Ndis802_11AuthModeShared | Ndis802_11AuthModeAutoSwitch
  | Ndis802_11AuthModeWPA | Ndis802_11AuthModeWPAPSK | Ndis802_11AuthModeWPANone
  | Ndis802_11AuthModeWPA2 | Ndis802_11AuthModeWPA2PSK
  deriving DecidableEq, Repr

/-- Vendor constants `NDIS_802_11_WEP_STATUS` (encryption levels). -/
inductive NDIS_802_11_WEP_STATUS where
  | Ndis802_11EncryptionDisabled | Ndis802_11Encryption1Enabled
  | Ndis802_11Encryption2Enabled | Ndis802_11Encryption3Enabled
  deriving DecidableEq, Repr

/-- Vendor constants `NDIS_802_11_NETWORK_INFRASTRUCTURE`. -/
inductive NDIS_802_11_NETWORK_INFRASTRUCTURE where
  | Ndis802_11IBSS | Ndis802_11Infrastructure
  deriving DecidableEq, Repr

/-- Value of `AUTH_ALG_OPEN_SYSTEM`. -/
def AUTH_ALG_OPEN_SYSTEM : Nat := 0x01
/-- Value of `AUTH_ALG_SHARED_KEY`. -/
def AUTH_ALG_SHARED_KEY : Nat := 0x02
/-- Value of `WLAN_EID_RSN`. -/
def WLAN_EID_RSN : Nat := 48
/-- Value of `IEEE80211_MODE_IBSS`. -/
def IEEE80211_MODE_IBSS : Int := 1
/-- Value of `sizeof(BSSID_INFO)`: a 6-byte BSSID followed by a 16-byte PMKID. -/
def sizeof_BSSID_INFO : Nat := 22
/-- Value of `sizeof(NDIS_802_11_REMOVE_KEY)`: two 32-bit fields and a 6-byte BSSID,
padded to a multiple of 4. -/
def sizeof_NDIS_802_11_REMOVE_KEY : Nat := 16

/-! ## Vendor records -/

/-- One cache node `struct ndis_pmkid_entry` (its `next` pointer is the list structure). -/
structure ndis_pmkid_entry where
  /-- Field `bssid`. -/
  bssid : MacAddr
  /-- Field `pmkid`. -/
  pmkid : Pmkid
  deriving DecidableEq, Repr

/-- One pair `BSSID_INFO` of the PMKID record. -/
structure BSSID_INFO where
  /-- Field `BSSID`. -/
  BSSID : MacAddr
  /-- Field `PMKID`. -/
  PMKID : Pmkid
  deriving DecidableEq, Repr

/-- The full-replace record `NDIS_802_11_PMKID`. -/
structure NDIS_802_11_PMKID where
  /-- Field `Length`. -/
  Length : Nat
  /-- Field `BSSIDInfoCount`. -/
  BSSIDInfoCount : Nat
  /-- Array `BSSIDInfo`. -/
  BSSIDInfo : List BSSID_INFO
  deriving DecidableEq, Repr

/-- The record `NDIS_802_11_REMOVE_KEY`. -/
structure NDIS_802_11_REMOVE_KEY where
  /-- Field `Length`. -/
  Length : Nat
  /-- Field `KeyIndex` (32 bits). -/
  KeyIndex : Nat
  /-- Field `BSSID`. -/
  BSSID : MacAddr
  deriving DecidableEq, Repr

/-- The record `NDIS_802_11_WEP`. -/
structure NDIS_802_11_WEP where
  /-- Field `Length`. -/
  Length : Nat
  /-- Field `KeyIndex` (32 bits). -/
  KeyIndex : Nat
  /-- Field `KeyLength`. -/
  KeyLength : Nat
  /-- Array `KeyMaterial`. -/
  KeyMaterial : List u8
  deriving DecidableEq, Repr

/-- The record `NDIS_802_11_KEY`. -/
structure NDIS_802_11_KEY where
  /-- Field `Length`. -/
  Length : Nat
  /-- Field `KeyIndex` (32 bits). -/
  KeyIndex : Nat
  /-- Field `KeyLength`. -/
  KeyLength : Nat
  /-- Field `BSSID`. -/
  BSSID : MacAddr
  /-- Field `KeyRSC` (64 bits: the 8 in `len = 12 + 6 + 6 + 8 + key_len`); `none` when the
  C computation that fills it has no defined value. -/
  KeyRSC : Option Nat
  /-- Array `KeyMaterial`, `KeyLength` bytes. -/
  KeyMaterial : List u8
  deriving DecidableEq, Repr

/-- The record `NDIS_802_11_SSID`. -/
structure NDIS_802_11_SSID where
  /-- Field `SsidLength`. -/
  SsidLength : Nat
  /-- Array `Ssid[32]`. -/
  Ssid : List u8
  deriving DecidableEq, Repr

/-- One operation on the control channel: the `ioctl` request with the data it carries. -/
inductive Request where
  /-- Set `OID_802_11_PMKID`. -/
  | pmkid (p : NDIS_802_11_PMKID)
  /-- Set `OID_802_11_REMOVE_KEY`. -/
  | remove_key (rkey : NDIS_802_11_REMOVE_KEY)
  /-- Set `OID_802_11_ADD_WEP`. -/
  | add_wep (wep : NDIS_802_11_WEP)
  /-- Set `OID_802_11_ADD_KEY`. -/
  | add_key (nkey : NDIS_802_11_KEY)
  /-- Set `OID_802_11_INFRASTRUCTURE_MODE`. -/
  | infrastructure_mode (mode : NDIS_802_11_NETWORK_INFRASTRUCTURE)
  /-- Set `RT_OID_WPA_SUPPLICANT_SUPPORT`. -/
  | wpa_supplicant_support (enable : Nat)
  /-- Set `OID_802_11_AUTHENTICATION_MODE`. -/
  | authentication_mode (auth_mode : NDIS_802_11_AUTHENTICATION_MODE)
  /-- Set `OID_802_11_SET_IEEE8021X_REQUIRE_KEY`. -/
  | ieee8021x_require_key (required : Bool)
  /-- Set `OID_802_11_SET_IEEE8021X`. -/
  | ieee8021x (enabled : Bool)
  /-- Set `OID_802_11_WEP_STATUS`. -/
  | wep_status (encr : NDIS_802_11_WEP_STATUS)
  /-- Set `OID_802_11_DROP_UNENCRYPTED`. -/
  | drop_unencrypted (enabled : Int)
  /-- Set `OID_802_11_SSID`. -/
  | ssid (buf : NDIS_802_11_SSID)
  /-- The request `SIOCSIWGENIE`. -/
  | gen_ie (ie : List u8)
  /-- The request `SIOCGIWAP`. -/
  | get_ap
  /-- Set `RT_OID_WPS_PROBE_REQ_IE`. -/
  | probe_req_ie (ies : List u8)
  /-- The request `SIOCGIWSCAN` with a buffer of `res_buf_len` bytes. -/
  | giwscan (res_buf_len : Nat)
  /-- The request `SIOCSIWSCAN`. -/
  | siwscan
  /-- The request `SIOCGIWESSID`. -/
  | get_essid
  /-- Set `OID_SET_COUNTERMEASURES`. -/
  | countermeasures (enabled : Int)
  /-- Set `OID_802_11_DISASSOCIATE`. -/
  | disassociate
  /-- Set `OID_802_11_DEAUTHENTICATION` with the fields of `MLME_DEAUTH_REQ_STRUCT`. -/
  | deauthentication (reason : Int) (addr : MacAddr)
  /-- Query `RT_OID_NEW_DRIVER`. -/
  | get_new_driver
  deriving DecidableEq, Repr

/-! ## State and environment -/

/-- The handle `struct wpa_driver_ralink_data` (descriptors and the context pointer are
left out; they are never inspected by the modelled code). -/
structure wpa_driver_ralink_data where
  /-- Field `ifname`. -/
  ifname : List u8
  /-- Field `assoc_req_ies`. -/
  assoc_req_ies : Option (List u8)
  /-- Field `assoc_req_ies_len`. -/
  assoc_req_ies_len : Nat
  /-- Field `assoc_resp_ies`. -/
  assoc_resp_ies : Option (List u8)
  /-- Field `assoc_resp_ies_len`. -/
  assoc_resp_ies_len : Nat
  /-- Field `no_of_pmkid`, the capacity of the PMKID record. -/
  no_of_pmkid : Int
  /-- Field `pmkid`, the head of the linked list. -/
  pmkid : List ndis_pmkid_entry
  /-- Field `we_version_compiled`. -/
  we_version_compiled : Int
  /-- Field `ap_scan`. -/
  ap_scan : Int
  /-- Field `g_driver_down`. -/
  g_driver_down : u8
  deriving DecidableEq, Repr

/-- Program state: the handle, the global `bAddWepKey`, and the log of control-channel
operations issued so far (oldest first). -/
structure State where
  /-- The handle. -/
  drv : wpa_driver_ralink_data
  /-- The global `BOOLEAN bAddWepKey`. -/
  bAddWepKey : Bool
  /-- Operations issued so far. -/
  calls : List Request
  deriving DecidableEq, Repr

/-- The driver side of the control channel. -/
structure Kernel where
  /-- Whether the k-th operation (counted from 0 over the whole run) succeeds. -/
  ioctl_ok : Nat → Bool
  /-- The address the driver reports when the k-th operation is a successful `SIOCGIWAP`. -/
  ap_addr : Nat → MacAddr
  /-- Whether `errno` is `E2BIG` when the k-th operation fails. -/
  e2big : Nat → Bool
  /-- The bytes the driver writes into the caller's buffer when the k-th operation is a
  successful query (`SIOCGIWSCAN`, `SIOCGIWESSID`, `RT_OID_NEW_DRIVER`); their number is the
  length the driver reports. -/
  data : Nat → List u8

/-- The all-zero MAC address (what a zeroed `struct iwreq` holds). -/
def MacAddr.zero : MacAddr := ⟨List.replicate 6 0, rfl⟩

/-- The broadcast address `ff:ff:ff:ff:ff:ff`. -/
def MacAddr.broadcast : MacAddr := ⟨List.replicate 6 255, rfl⟩

/-- One `ioctl(drv->ioctl_sock, ...)`: logs the request; the result is `< 0` exactly when
the driver rejects it. -/
def ioctl (K : Kernel) (s : State) (r : Request) : State × Int :=
  ({ s with calls := s.calls ++ [r] }, if K.ioctl_ok s.calls.length then 0 else -1)

/-- The function `ralink_set_oid(drv, oid, data, len)`; `r` stands for the OID together
with the data buffer. -/
def ralink_set_oid (K : Kernel) (s : State) (r : Request) : State × Int :=
  let (s1, rc) := ioctl K s r
  if rc < 0 then (s1, -1) else (s1, 0)

/-- The function `wpa_driver_ralink_get_bssid(priv, bssid)`; `bssid` is the content of the
output buffer before the call, the third component its content afterwards. The copy out
of `iwr.u.ap_addr` is made whether or not the `ioctl` succeeded; a rejected `ioctl` leaves
the zeroed `iwr` as it is. -/
def wpa_driver_ralink_get_bssid (K : Kernel) (s : State) (bssid : MacAddr) :
    State × Int × MacAddr :=
  if s.drv.g_driver_down = 1 then (s, -1, bssid)
  else
    let (s1, rc) := ioctl K s .get_ap
    if rc < 0 then (s1, -1, MacAddr.zero) else (s1, 0, K.ap_addr s.calls.length)

/-- The function `wpa_driver_ralink_set_ssid(drv, ssid, ssid_len)`. -/
def wpa_driver_ralink_set_ssid (K : Kernel) (s : State) (ssid : List u8) : State × Int :=
  let buf : NDIS_802_11_SSID :=
    { SsidLength := ssid.length, Ssid := ssid ++ List.replicate (32 - ssid.length) 0 }
  let (s1, rc) := ioctl K s (.ssid buf)
  if rc < 0 then (s1, -1) else (s1, 0)

/-! ## PMKID cache -/

/-- The counting loop of `wpa_driver_ralink_set_pmkid`, entered with the running `count`:
`count++; if (count >= drv->no_of_pmkid) break; entry = entry->next`. -/
def set_pmkid_count (no_of_pmkid : Int) : List ndis_pmkid_entry → Nat → Nat
  | [], count => count
  | _ :: rest, count =>
    if ((count + 1 : Nat) : Int) ≥ no_of_pmkid then count + 1
    else set_pmkid_count no_of_pmkid rest (count + 1)

/-- The record that `wpa_driver_ralink_set_pmkid` builds from the list: `count` pairs
copied from the first `count` nodes. The list is never long enough for
`8 + count * sizeof(BSSID_INFO)` to leave the range of `int`. -/
def set_pmkid_record (no_of_pmkid : Int) (l : List ndis_pmkid_entry) : NDIS_802_11_PMKID :=
  let count := set_pmkid_count no_of_pmkid l 0
  { Length := 8 + count * sizeof_BSSID_INFO,
    BSSIDInfoCount := count,
    BSSIDInfo := (l.take count).map fun entry => { BSSID := entry.bssid, PMKID := entry.pmkid } }

/-- The function `wpa_driver_ralink_set_pmkid(drv)`. -/
def wpa_driver_ralink_set_pmkid (K : Kernel) (s : State) : State × Int :=
  ralink_set_oid K s (.pmkid (set_pmkid_record s.drv.no_of_pmkid s.drv.pmkid))

/-- The search loop of `wpa_driver_ralink_add_pmkid`: the nodes passed before the first
node whose BSSID equals `bssid` (the last of them is `prev`), and the list from that node
(`entry`) on, empty when the loop ends with `entry == NULL`. -/
def add_pmkid_search (bssid : MacAddr) :
    List ndis_pmkid_entry → List ndis_pmkid_entry × List ndis_pmkid_entry
  | [] => ([], [])
  | e :: rest =>
    if e.bssid = bssid then ([], e :: rest)
    else ((e :: (add_pmkid_search bssid rest).1), (add_pmkid_search bssid rest).2)

/-- List update of `wpa_driver_ralink_add_pmkid`: an existing node gets the new PMKID and
is relinked in front of the list (it already is in front when `prev == NULL`); otherwise
a new node is linked in front. -/
def add_pmkid_list (bssid : MacAddr) (pmkid : Pmkid) (l : List ndis_pmkid_entry) :
    List ndis_pmkid_entry :=
  match add_pmkid_search bssid l with
  | (before, entry :: after) => { entry with pmkid := pmkid } :: (before ++ after)
  | (_, []) => { bssid := bssid, pmkid := pmkid } :: l

/-- The function `wpa_driver_ralink_add_pmkid(priv, bssid, pmkid)`. -/
def wpa_driver_ralink_add_pmkid (K : Kernel) (s : State) (bssid : MacAddr) (pmkid : Pmkid) :
    State × Int :=
  if s.drv.g_driver_down = 1 then (s, -1)
  else if s.drv.no_of_pmkid = 0 then (s, 0)
  else
    wpa_driver_ralink_set_pmkid K
      { s with drv := { s.drv with pmkid := add_pmkid_list bssid pmkid s.drv.pmkid } }

/-- The loop of `wpa_driver_ralink_remove_pmkid`, run after `drv->pmkid = NULL`.
`head` is the current value of `drv->pmkid`, `prev` tells whether `prev != NULL`.
At the matching node the loop either stores `entry->next` into `drv->pmkid`
(`prev == NULL`) or into `prev->next`, which leaves `drv->pmkid` as it is. -/
def remove_pmkid_loop (bssid : MacAddr) (pmkid : Pmkid) :
    List ndis_pmkid_entry → Bool → List ndis_pmkid_entry → List ndis_pmkid_entry
  | [], _, head => head
  | entry :: next, prev, head =>
    if entry.bssid = bssid ∧ entry.pmkid = pmkid then
      if prev then head else next
    else remove_pmkid_loop bssid pmkid next true head

/-- The function `wpa_driver_ralink_remove_pmkid(priv, bssid, pmkid)`. -/
def wpa_driver_ralink_remove_pmkid (K : Kernel) (s : State) (bssid : MacAddr)
    (pmkid : Pmkid) : State × Int :=
  if s.drv.g_driver_down = 1 then (s, -1)
  else if s.drv.no_of_pmkid = 0 then (s, 0)
  else
    wpa_driver_ralink_set_pmkid K
      { s with drv := { s.drv with pmkid := remove_pmkid_loop bssid pmkid s.drv.pmkid false [] } }

/-- The function `wpa_driver_ralink_flush_pmkid(priv)`. -/
def wpa_driver_ralink_flush_pmkid (K : Kernel) (s : State) : State × Int :=
  if s.drv.g_driver_down = 1 then (s, -1)
  else if s.drv.no_of_pmkid = 0 then (s, 0)
  else
    ralink_set_oid K { s with drv := { s.drv with pmkid := [] } }
      (.pmkid { Length := 8, BSSIDInfoCount := 0, BSSIDInfo := [] })

/-! ## Key manager -/

/-- Conversion of an `int` to the 32-bit unsigned field it is stored in. -/
def to_u32 (v : Int) : Nat := (v % 2 ^ 32).toNat

/-- The function `wpa_driver_ralink_remove_key(drv, key_idx, addr, bssid, pairwise)`.
The legacy `OID_802_11_REMOVE_WEP` branch is disabled (`if (0)`), so `res2` is 0 and the
final test `res < 0 && res2 < 0` never holds. -/
def wpa_driver_ralink_remove_key (K : Kernel) (s : State) (key_idx : Int)
    (_addr : Option MacAddr) (bssid : MacAddr) (pairwise : Int) : State × Int :=
  let rkey : NDIS_802_11_REMOVE_KEY :=
    { Length := sizeof_NDIS_802_11_REMOVE_KEY,
      KeyIndex := if pairwise ≠ 0 then to_u32 key_idx ||| 2 ^ 30 else to_u32 key_idx,
      BSSID := bssid }
  let (s1, res) := ralink_set_oid K s (.remove_key rkey)
  let res2 : Int := 0
  if res < 0 ∧ res2 < 0 then (s1, res) else (s1, 0)

/-- The function `wpa_driver_ralink_add_wep(drv, pairwise, key_idx, set_tx, key, key_len)`. -/
def wpa_driver_ralink_add_wep (K : Kernel) (s : State) (_pairwise : Int) (key_idx : Int)
    (set_tx : Int) (key : List u8) : State × Int :=
  let wep : NDIS_802_11_WEP :=
    { Length := 12 + key.length,
      KeyIndex := if set_tx ≠ 0 then to_u32 key_idx ||| 0x80000000 else to_u32 key_idx,
      KeyLength := key.length,
      KeyMaterial := key }
  ralink_set_oid K s (.add_wep wep)

/-- The three copies of lines 1521-1523: `key[0..16)`, then `key[24..32)`, then
`key[16..24)`. -/
def tkip_key_material (key : List u8) : List u8 :=
  key.take 16 ++ (key.drop 24).take 8 ++ (key.drop 16).take 8

/-- Content of `nkey->KeyMaterial` (lines 1520-1526). -/
def set_key_material (alg : wpa_alg) (key : List u8) : List u8 :=
  if alg = .WPA_ALG_TKIP ∧ key.length = 32 then tkip_key_material key else key

/-- The term `seq[i] << (i * 8)` as it is or-ed into the 64-bit `KeyRSC`. The octet is
promoted to a 32-bit `int` before the shift. For a shift count below 32 the result is the
`int` with the bit pattern of the shifted value (two's complement), converted to the
64-bit unsigned type of `KeyRSC` by sign extension. For a shift count of 32 or more
(`i >= 4`) C defines no result: `none`. -/
def seq_shift (b : u8) (i : Nat) : Option Nat :=
  if i * 8 < 32 then
    let v := (b.val <<< (i * 8)) % 2 ^ 32
    some (if v < 2 ^ 31 then v else v + (2 ^ 64 - 2 ^ 32))
  else none

/-- The loop `for (i = 0; i < seq_len; i++) nkey->KeyRSC |= seq[i] << (i * 8)`, entered
at index `i` with the running value of `KeyRSC`. -/
def key_rsc_loop : List u8 → Nat → Nat → Option Nat
  | [], _, rsc => some rsc
  | b :: rest, i, rsc => (seq_shift b i).bind fun t => key_rsc_loop rest (i + 1) (rsc ||| t)

/-- The test `seq && seq_len`. -/
def seq_present (seq : Option (List u8)) : Bool :=
  match seq with
  | some q => decide (q.length ≠ 0)
  | none => false

/-- The general add-key record built at lines 1495-1526. -/
def set_key_record (alg : wpa_alg) (key_idx : Int) (set_tx : Int) (pairwise : Int)
    (bssid : MacAddr) (seq : Option (List u8)) (key : List u8) : NDIS_802_11_KEY :=
  let idx0 := to_u32 key_idx
  let idx1 := if set_tx ≠ 0 then idx0 ||| 2 ^ 31 else idx0
  let idx2 := if pairwise ≠ 0 then idx1 ||| 2 ^ 30 else idx1
  let idx3 := if seq_present seq then idx2 ||| 2 ^ 29 else idx2
  { Length := 12 + 6 + 6 + 8 + key.length,
    KeyIndex := idx3,
    KeyLength := key.length,
    BSSID := bssid,
    KeyRSC := if seq_present seq then key_rsc_loop (seq.getD []) 0 0 else some 0,
    KeyMaterial := set_key_material alg key }

/-- The test `addr == NULL || os_memcmp(addr, "\xff\xff\xff\xff\xff\xff", ETH_ALEN) == 0`
that selects the group-key branch. -/
def set_key_group (addr : Option MacAddr) : Bool :=
  decide (addr = none) || decide (addr = some MacAddr.broadcast)

/-- The function `wpa_driver_ralink_set_key(priv, alg, addr, key_idx, set_tx, seq, seq_len,
key, key_len)`; `seq_len` and `key_len` are the lengths of `seq` and `key`. -/
def wpa_driver_ralink_set_key (K : Kernel) (s : State) (alg : wpa_alg)
    (addr : Option MacAddr) (key_idx : Int) (set_tx : Int) (seq : Option (List u8))
    (key : List u8) : State × Int :=
  if s.drv.g_driver_down = 1 then (s, -1)
  else
    let s0 := { s with bAddWepKey := false }
    let group := set_key_group addr
    let got := wpa_driver_ralink_get_bssid K s0 MacAddr.zero
    let s1 := if group then got.1 else s0
    let pairwise : Int := if group then 0 else 1
    let bssid := if group then got.2.2 else addr.getD MacAddr.zero
    if alg = .WPA_ALG_NONE ∨ key.length = 0 then
      wpa_driver_ralink_remove_key K s1 key_idx addr bssid pairwise
    else if alg = .WPA_ALG_WEP then
      wpa_driver_ralink_add_wep K { s1 with bAddWepKey := true } pairwise key_idx set_tx key
    else
      ralink_set_oid K s1 (.add_key (set_key_record alg key_idx set_tx pairwise bssid seq key))

/-! ## Association controller -/

/-- The fields of `struct wpa_driver_associate_params` that the driver reads;
`ssid_len` and `wpa_ie_len` are the lengths of `ssid` and `wpa_ie`. -/
structure wpa_driver_associate_params where
  /-- Field `ssid`. -/
  ssid : List u8
  /-- Field `wpa_ie`. -/
  wpa_ie : Option (List u8)
  /-- Field `pairwise_suite`. -/
  pairwise_suite : wpa_cipher
  /-- Field `group_suite`. -/
  group_suite : wpa_cipher
  /-- Field `key_mgmt_suite`. -/
  key_mgmt_suite : wpa_key_mgmt
  /-- Field `auth_alg`, a bit mask of `AUTH_ALG_*`. -/
  auth_alg : Nat
  /-- Field `mode`. -/
  mode : Int
  deriving DecidableEq, Repr

/-- The function `ralink_set_auth_mode(drv, mode)`. -/
def ralink_set_auth_mode (K : Kernel) (s : State) (mode : NDIS_802_11_AUTHENTICATION_MODE) :
    State × Int :=
  let (s1, rc) := ralink_set_oid K s (.authentication_mode mode)
  if rc < 0 then (s1, -1) else (s1, 0)

/-- The function `ralink_set_encr_type(drv, encr_type)`. -/
def ralink_set_encr_type (K : Kernel) (s : State) (encr_type : NDIS_802_11_WEP_STATUS) :
    State × Int :=
  let (s1, rc) := ralink_set_oid K s (.wep_status encr_type)
  if rc < 0 then (s1, -1) else (s1, 0)

/-- The function `wpa_driver_ralink_set_gen_ie(priv, ie, ie_len)`. -/
def wpa_driver_ralink_set_gen_ie (K : Kernel) (s : State) (ie : List u8) : State × Int :=
  let (s1, rc) := ioctl K s (.gen_ie ie)
  if rc < 0 then (s1, -1) else (s1, 0)

/-- Choice of `auth_mode` at lines 1671-1691. -/
def associate_auth_mode (params : wpa_driver_associate_params) :
    NDIS_802_11_AUTHENTICATION_MODE :=
  match params.wpa_ie with
  | some (first :: _) =>
    if first.val = WLAN_EID_RSN then
      if params.key_mgmt_suite = .KEY_MGMT_PSK then .Ndis802_11AuthModeWPA2PSK
      else .Ndis802_11AuthModeWPA2
    else
      if params.key_mgmt_suite = .KEY_MGMT_WPA_NONE then .Ndis802_11AuthModeWPANone
      else if params.key_mgmt_suite = .KEY_MGMT_PSK then .Ndis802_11AuthModeWPAPSK
      else .Ndis802_11AuthModeWPA
  | _ =>
    if params.auth_alg &&& AUTH_ALG_SHARED_KEY ≠ 0 then
      if params.auth_alg &&& AUTH_ALG_OPEN_SYSTEM ≠ 0 then .Ndis802_11AuthModeAutoSwitch
      else .Ndis802_11AuthModeShared
    else .Ndis802_11AuthModeOpen

/-- Choice of `encr` by the `switch (params->pairwise_suite)` at lines 1693-1715. -/
def associate_encr (params : wpa_driver_associate_params) : NDIS_802_11_WEP_STATUS :=
  match params.pairwise_suite with
  | .CIPHER_CCMP => .Ndis802_11Encryption3Enabled
  | .CIPHER_TKIP => .Ndis802_11Encryption2Enabled
  | .CIPHER_WEP40 => .Ndis802_11Encryption1Enabled
  | .CIPHER_WEP104 => .Ndis802_11Encryption1Enabled
  | .CIPHER_NONE =>
    if params.group_suite = .CIPHER_CCMP then .Ndis802_11Encryption3Enabled
    else if params.group_suite = .CIPHER_TKIP then .Ndis802_11Encryption2Enabled
    else .Ndis802_11EncryptionDisabled
  | .CIPHER_OTHER _ => .Ndis802_11EncryptionDisabled

/-- Value of `ieee8021xMode` (lines 1720-1727). -/
def associate_ieee8021xMode (params : wpa_driver_associate_params) : Bool :=
  decide (params.key_mgmt_suite = .KEY_MGMT_802_1X_NO_WPA)

/-- Value of `ieee8021x_required_key` when it is sent: initialised to `TRUE` (line 1612),
cleared only inside the `KEY_MGMT_802_1X_NO_WPA` branch when `bAddWepKey` is set. -/
def associate_required_key (bAddWepKey : Bool) (params : wpa_driver_associate_params) :
    Bool :=
  if params.key_mgmt_suite = .KEY_MGMT_802_1X_NO_WPA then
    if bAddWepKey then false else true
  else true

/-- The function `wpa_driver_ralink_associate(priv, params)`. `CONFIG_WPS` tells whether
the build defines the macro of that name. Results of the operations before the final
`wpa_driver_ralink_set_ssid` are only logged by the source and are dropped here. -/
def wpa_driver_ralink_associate (CONFIG_WPS : Bool) (K : Kernel) (s : State)
    (params : wpa_driver_associate_params) : State × Int :=
  if s.drv.g_driver_down = 1 then (s, -1)
  else
    let mode : NDIS_802_11_NETWORK_INFRASTRUCTURE :=
      if params.mode = IEEE80211_MODE_IBSS then .Ndis802_11IBSS else .Ndis802_11Infrastructure
    let s1 := (ralink_set_oid K s (.infrastructure_mode mode)).1
    let s2 :=
      if CONFIG_WPS = true ∧ params.key_mgmt_suite = .KEY_MGMT_WPS then
        let a1 := (ralink_set_oid K s1 (.wpa_supplicant_support 0x80)).1
        let a2 := (wpa_driver_ralink_set_gen_ie K a1 (params.wpa_ie.getD [])).1
        let a3 := (ralink_set_auth_mode K a2 .Ndis802_11AuthModeOpen).1
        (ralink_set_encr_type K a3 .Ndis802_11EncryptionDisabled).1
      else
        let b0 :=
          if CONFIG_WPS = true then
            let enable_wpa_supplicant : Nat := if s1.drv.ap_scan = 1 then 0x01 else 0x02
            let w1 := (ralink_set_oid K s1 (.wpa_supplicant_support enable_wpa_supplicant)).1
            (wpa_driver_ralink_set_gen_ie K w1 []).1
          else s1
        let auth_mode := associate_auth_mode params
        let encr := associate_encr params
        let b1 := (ralink_set_auth_mode K b0 auth_mode).1
        let ieee8021xMode := associate_ieee8021xMode params
        let ieee8021x_required_key := associate_required_key b1.bAddWepKey params
        let b2 := (ralink_set_oid K b1 (.ieee8021x_require_key ieee8021x_required_key)).1
        let b3 := (ralink_set_oid K b2 (.ieee8021x ieee8021xMode)).1
        let b4 := (ralink_set_encr_type K b3 encr).1
        if ieee8021xMode = false ∧ encr = .Ndis802_11Encryption1Enabled then
          (ralink_set_oid K b4 (.drop_unencrypted 0)).1
        else b4
    wpa_driver_ralink_set_ssid K s2 params.ssid

/-! ## Other operations of the driver operation table -/

/-- Value of `IW_SCAN_MAX_DATA`. -/
def IW_SCAN_MAX_DATA : Nat := 4096

/-- The branch `iwe->u.data.flags == RT_INTERFACE_DOWN` of the custom-event dispatch in
`wpa_driver_ralink_event_wireless` (lines 670-671): `drv->g_driver_down = 1`. -/
def event_interface_down (s : State) : State :=
  { s with drv := { s.drv with g_driver_down := 1 } }

/-- The function `ralink_get_new_driver_flag(drv)`: 1 when the query succeeds and the
driver wrote the octet 1, otherwise 0. -/
def ralink_get_new_driver_flag (K : Kernel) (s : State) : State × Int :=
  let (s1, rc) := ioctl K s .get_new_driver
  if rc < 0 then (s1, 0)
  else (s1, if (K.data s.calls.length).head? = some 1 then 1 else 0)

/-- The function `wpa_driver_ralink_get_ssid(priv, ssid)`; the third component is what the
call wrote into `ssid`. The disabled (`#if 0`) parts are left out. -/
def wpa_driver_ralink_get_ssid (K : Kernel) (s : State) : State × Int × List u8 :=
  if s.drv.g_driver_down = 1 then (s, -1, [])
  else
    let (s1, rc) := ioctl K s .get_essid
    let ssid := if rc < 0 then [] else K.data s.calls.length
    let ret : Int := if rc < 0 then -1 else (ssid.length : Int)
    if ret ≤ 0 then (s1, ret, ssid)
    else if s1.drv.ap_scan = 0 then
      ((wpa_driver_ralink_get_bssid K s1 MacAddr.zero).1, ret, ssid)
    else (s1, ret, ssid)

/-- The function `wpa_driver_ralink_set_countermeasures(priv, enabled)`. -/
def wpa_driver_ralink_set_countermeasures (K : Kernel) (s : State) (enabled : Int) :
    State × Int :=
  if s.drv.g_driver_down = 1 then (s, -1)
  else ralink_set_oid K s (.countermeasures enabled)

/-- The function `wpa_driver_ralink_scan(priv, ssid, ssid_len)`. Cancelling and arming the
scan timeout touches no modelled state. -/
def wpa_driver_ralink_scan (K : Kernel) (s : State) (ssid : List u8) : State × Int :=
  if s.drv.g_driver_down = 1 then (s, -1)
  else if ssid.length > IW_ESSID_MAX_SIZE then (s, -1)
  else
    let (s1, rc) := ioctl K s .siwscan
    if rc < 0 then (s1, -1) else (s1, 0)

/-- The function `wpa_driver_ralink_disassociate(priv, addr, reason_code)`. -/
def wpa_driver_ralink_disassociate (K : Kernel) (s : State) (_addr : MacAddr)
    (_reason_code : Int) : State × Int :=
  if s.drv.g_driver_down = 1 then (s, -1)
  else ((ralink_set_oid K s .disassociate).1, 0)

/-- The function `wpa_driver_ralink_deauthenticate(priv, addr, reason_code)`. -/
def wpa_driver_ralink_deauthenticate (K : Kernel) (s : State) (addr : MacAddr)
    (reason_code : Int) : State × Int :=
  if s.drv.g_driver_down = 1 then (s, -1)
  else
    let (s1, flag) := ralink_get_new_driver_flag K s
    if flag = 0 then wpa_driver_ralink_disassociate K s1 addr reason_code
    else ralink_set_oid K s1 (.deauthentication reason_code addr)

/-- The function `wpa_driver_ralink_set_probe_req_ie(priv, ies, ies_len)`. It tests no
`g_driver_down` and has no `return` statement, so only its effect is modelled. -/
def wpa_driver_ralink_set_probe_req_ie (K : Kernel) (s : State) (ies : List u8) : State :=
  (ralink_set_oid K s (.probe_req_ie ies)).1

/-- The `for (;;)` loop of `wpa_driver_ralink_giwscan` with the test that follows it,
entered with the current `res_buf_len`. The outer `none` means that the iteration budget
of the model ran out; the inner `none` is the `NULL` result, `some buf` the buffer with
`*len = buf.length`. -/
def giwscan_loop (K : Kernel) : Nat → State → Nat → Option (State × Option (List u8))
  | 0, _, _ => none
  | fuel + 1, s, res_buf_len =>
    if (ioctl K s (.giwscan res_buf_len)).2 = 0 then
      if (K.data s.calls.length).length > res_buf_len then
        some ((ioctl K s (.giwscan res_buf_len)).1, none)
      else some ((ioctl K s (.giwscan res_buf_len)).1, some (K.data s.calls.length))
    else if K.e2big s.calls.length = true ∧ res_buf_len < 65535 then
      giwscan_loop K fuel (ioctl K s (.giwscan res_buf_len)).1
        (if res_buf_len * 2 > 65535 then 65535 else res_buf_len * 2)
    else some ((ioctl K s (.giwscan res_buf_len)).1, none)

/-- The function `wpa_driver_ralink_giwscan(drv, &len)`, started with
`res_buf_len = IW_SCAN_MAX_DATA`; the buffer size reaches 65535 after four doublings, so
six iterations are the budget. -/
def wpa_driver_ralink_giwscan (K : Kernel) (s : State) : Option (State × Option (List u8)) :=
  giwscan_loop K 6 s IW_SCAN_MAX_DATA

/-- Entry of `wpa_driver_ralink_get_scan_results2(priv)` (lines 1279-1291): the function
tests no `g_driver_down`, fetches the scan buffer and returns `NULL` exactly when the
fetch does; otherwise the buffer goes to the decoding loop and a result is returned. -/
def wpa_driver_ralink_get_scan_results2_fetch (K : Kernel) (s : State) :
    Option (State × Option (List u8)) :=
  wpa_driver_ralink_giwscan K s

/-! ## Reading the log -/

/-- The operations a call issued: what the log holds beyond its first `n` entries. -/
def issued (n : Nat) (s : State) : List Request := s.calls.drop n

/-- The authentication-mode constants sent by a list of operations, in order. -/
def auth_modes_sent : List Request → List NDIS_802_11_AUTHENTICATION_MODE
  | [] => []
  | .authentication_mode m :: rest => m :: auth_modes_sent rest
  | _ :: rest => auth_modes_sent rest

/-- The encryption levels sent by a list of operations, in order. -/
def encr_levels_sent : List Request → List NDIS_802_11_WEP_STATUS
  | [] => []
  | .wep_status e :: rest => e :: encr_levels_sent rest
  | _ :: rest => encr_levels_sent rest

/-- The require-key flags sent by a list of operations, in order. -/
def require_key_sent : List Request → List Bool
  | [] => []
  | .ieee8021x_require_key b :: rest => b :: require_key_sent rest
  | _ :: rest => require_key_sent rest

/-- The PMKID records sent by a list of operations, in order. -/
def pmkid_records_sent : List Request → List NDIS_802_11_PMKID
  | [] => []
  | .pmkid p :: rest => p :: pmkid_records_sent rest
  | _ :: rest => pmkid_records_sent rest

/-- The add-key records sent by a list of operations, in order. -/
def add_key_records_sent : List Request → List NDIS_802_11_KEY
  | [] => []
  | .add_key k :: rest => k :: add_key_records_sent rest
  | _ :: rest => add_key_records_sent rest

/-- The add-WEP records sent by a list of operations, in order. -/
def add_wep_records_sent : List Request → List NDIS_802_11_WEP
  | [] => []
  | .add_wep w :: rest => w :: add_wep_records_sent rest
  | _ :: rest => add_wep_records_sent rest

/-- The remove-key records sent by a list of operations, in order. -/
def remove_key_records_sent : List Request → List NDIS_802_11_REMOVE_KEY
  | [] => []
  | .remove_key r :: rest => r :: remove_key_records_sent rest
  | _ :: rest => remove_key_records_sent rest

/-- The 802.1X enable flags sent by a list of operations, in order. -/
def ieee8021x_sent : List Request → List Bool
  | [] => []
  | .ieee8021x b :: rest => b :: ieee8021x_sent rest
  | _ :: rest => ieee8021x_sent rest

/-- The values of the drop-unencrypted operations sent by a list of operations, in order. -/
def drop_unencrypted_sent : List Request → List Int
  | [] => []
  | .drop_unencrypted v :: rest => v :: drop_unencrypted_sent rest
  | _ :: rest => drop_unencrypted_sent rest

/-! ## Sample environment and states -/

/-- A driver that accepts every operation and reports the all-zero BSSID. -/
def kernel_ok : Kernel :=
  { ioctl_ok := fun _ => true, ap_addr := fun _ => MacAddr.zero, e2big := fun _ => false,
    data := fun _ => [] }

/-- A driver that rejects every operation. -/
def kernel_fail : Kernel :=
  { ioctl_ok := fun _ => false, ap_addr := fun _ => MacAddr.zero, e2big := fun _ => false,
    data := fun _ => [] }

/-- The handle as `wpa_driver_ralink_init` leaves it: driver up, capacity 4, empty cache. -/
def drv_init : wpa_driver_ralink_data :=
  { ifname := [], assoc_req_ies := none, assoc_req_ies_len := 0, assoc_resp_ies := none,
    assoc_resp_ies_len := 0, no_of_pmkid := 4, pmkid := [], we_version_compiled := 19,
    ap_scan := 1, g_driver_down := 0 }

/-- Initial program state: fresh handle, `bAddWepKey = FALSE`, empty log. -/
def state_init : State := { drv := drv_init, bAddWepKey := false, calls := [] }

/-- The MAC address `02:00:00:00:00:n`. -/
def mac (n : u8) : MacAddr := ⟨[2, 0, 0, 0, 0, n], rfl⟩

/-- The PMKID whose 16 octets all equal `n`. -/
def pmk (n : u8) : Pmkid := ⟨List.replicate 16 n, rfl⟩

/-! ## Specification-side notions for the PMKID cache -/

/-- The pair of the PMKID record that a cache node is serialized to. -/
def ndis_pmkid_entry.info (entry : ndis_pmkid_entry) : BSSID_INFO :=
  { BSSID := entry.bssid, PMKID := entry.pmkid }

/-- The full-replace record for a cache and a capacity, as specified: the count field is
`min(n, c)` for a cache of `n` entries, the length field is `8 + count * 22`, and the
i-th pair is the i-th cache entry. -/
def is_full_replace_record (c : Int) (cache : List ndis_pmkid_entry)
    (p : NDIS_802_11_PMKID) : Prop :=
  (p.BSSIDInfoCount : Int) = min (cache.length : Int) c ∧
  p.Length = 8 + p.BSSIDInfoCount * 22 ∧
  p.BSSIDInfo.length = p.BSSIDInfoCount ∧
  ∀ i, i < p.BSSIDInfoCount → p.BSSIDInfo[i]? = (cache[i]?).map ndis_pmkid_entry.info

/-- One cache operation of the driver operation table. -/
inductive pmkid_op where
  /-- Call of `add_pmkid`. -/
  | add (bssid : MacAddr) (pmkid : Pmkid)
  /-- Call of `remove_pmkid`. -/
  | remove (bssid : MacAddr) (pmkid : Pmkid)
  /-- Call of `flush_pmkid`. -/
  | flush
  deriving DecidableEq, Repr

/-- State after one cache operation. -/
def pmkid_step (K : Kernel) (s : State) : pmkid_op → State
  | .add bssid pmkid => (wpa_driver_ralink_add_pmkid K s bssid pmkid).1
  | .remove bssid pmkid => (wpa_driver_ralink_remove_pmkid K s bssid pmkid).1
  | .flush => (wpa_driver_ralink_flush_pmkid K s).1

/-- State after a sequence of cache operations, first operation first. -/
def pmkid_run (K : Kernel) (s : State) : List pmkid_op → State
  | [] => s
  | op :: rest => pmkid_run K (pmkid_step K s op) rest

/-- The cache after one cache operation on an up driver with non-zero capacity. -/
def pmkid_step_list : pmkid_op → List ndis_pmkid_entry → List ndis_pmkid_entry
  | .add bssid pmkid, l => add_pmkid_list bssid pmkid l
  | .remove bssid pmkid, l => remove_pmkid_loop bssid pmkid l false []
  | .flush, _ => []

/-- The cache after a sequence of cache operations. -/
def pmkid_run_list : List ndis_pmkid_entry → List pmkid_op → List ndis_pmkid_entry
  | l, [] => l
  | l, op :: rest => pmkid_run_list (pmkid_step_list op l) rest

/-- The records pushed by a sequence of cache operations, one per operation. -/
def pmkid_run_records (c : Int) :
    List ndis_pmkid_entry → List pmkid_op → List NDIS_802_11_PMKID
  | _, [] => []
  | l, op :: rest =>
    set_pmkid_record c (pmkid_step_list op l) :: pmkid_run_records c (pmkid_step_list op l) rest

/-- A sample 32-byte TKIP key `A || B || C` with `A` = 16 octets 0xAA, `B` = 8 octets 0xBB,
`C` = 8 octets 0xCC. -/
def sample_tkip_key : List u8 :=
  List.replicate 16 0xAA ++ List.replicate 8 0xBB ++ List.replicate 8 0xCC

/-! ## Scan results -/

/-- A 32-bit field stored at offset `off` of `b` (absent bytes read as 0). -/
def get_u32 (b : List u8) (off : Nat) : Nat :=
  get_u16 b off + 65536 * get_u16 b (off + 2)

/-- The value of a 16-bit field read as `__s16`. -/
def to_s16 (n : Nat) : Int := if n < 2 ^ 15 then (n : Int) else (n : Int) - 2 ^ 16

/-- The value of a 32-bit field read as `__s32`. -/
def to_s32 (n : Nat) : Int := if n < 2 ^ 31 then (n : Int) else (n : Int) - 2 ^ 32

/-- The conversion of an integer to `u8` made by a store into a `u8` object. -/
def to_u8 (v : Int) : u8 := ⟨(v % 256).toNat, by omega⟩

/-- Field `iwe->u.freq.m` (`__s32`). -/
def iwe_freq_m (L : Layout) (iwe_buf : List u8) : Int :=
  to_s32 (get_u32 iwe_buf L.IW_EV_LCP_LEN)

/-- Field `iwe->u.freq.e` (`__s16`, after `m`). -/
def iwe_freq_e (L : Layout) (iwe_buf : List u8) : Int :=
  to_s16 (get_u16 iwe_buf (L.IW_EV_LCP_LEN + 4))

/-- Value of `WLAN_EID_SSID`. -/
def WLAN_EID_SSID : Nat := 0
/-- Value of `WLAN_EID_SUPP_RATES`. -/
def WLAN_EID_SUPP_RATES : Nat := 1
/-- Value of `WLAN_EID_EXT_SUPP_RATES`. -/
def WLAN_EID_EXT_SUPP_RATES : Nat := 50

/-- One scan result `struct wpa_scan_res` of `driver.h`, with the `ie_len` octets that
follow the structure in its allocation as the field `ie`. -/
structure wpa_scan_res where
  /-- Field `bssid`. -/
  bssid : MacAddr
  /-- Field `freq`. -/
  freq : Int
  /-- Field `beacon_int`. -/
  beacon_int : Nat
  /-- Field `caps`. -/
  caps : Nat
  /-- Field `qual`. -/
  qual : Int
  /-- Field `noise`. -/
  noise : Int
  /-- Field `level`. -/
  level : Int
  /-- Field `tsf`. -/
  tsf : Nat
  /-- Field `ie_len`. -/
  ie_len : Nat
  /-- The octets that follow the structure. -/
  ie : List u8
  deriving DecidableEq, Repr

/-- The collector `struct ralink_scan_data` (lines 1071-1078). The buffer `ie` with its
length `ie_len` is one list (`NULL` when empty), and so is `ssid` with `ssid_len`. -/
structure ralink_scan_data where
  /-- Field `res`. -/
  res : wpa_scan_res
  /-- Fields `ie` and `ie_len`. -/
  ie : List u8
  /-- Fields `ssid` and `ssid_len`. -/
  ssid : List u8
  /-- Field `maxrate`. -/
  maxrate : Int
  deriving DecidableEq, Repr

/-- The collector after `os_memset(&data, 0, sizeof(data))`. -/
def ralink_scan_data_zero : ralink_scan_data :=
  { res := { bssid := MacAddr.zero, freq := 0, beacon_int := 0, caps := 0, qual := 0,
             noise := 0, level := 0, tsf := 0, ie_len := 0, ie := [] },
    ie := [], ssid := [], maxrate := 0 }

/-- The loop `for (i = 0; i < iwe->u.freq.e; i++) divi /= 10;`. -/
def scan_freq_divi : Nat → Int → Int
  | 0, divi => divi
  | e + 1, divi => scan_freq_divi e (Int.tdiv divi 10)

/-- The function `ralink_get_scan_freq(iwe, res)` (lines 1107-1145). -/
def ralink_get_scan_freq (L : Layout) (iwe_buf : List u8) (res : ralink_scan_data) :
    ralink_scan_data :=
  let m := iwe_freq_m L iwe_buf
  let e := iwe_freq_e L iwe_buf
  if e = 0 ∧ res.res.freq ≠ 0 then res
  else if e = 0 ∧ (m ≥ 1 ∧ m ≤ 13) then
    { res with res := { res.res with freq := 2407 + 5 * m } }
  else if e = 0 ∧ m = 14 then
    { res with res := { res.res with freq := 2484 } }
  else if e > 6 then res
  else { res with res := { res.res with freq := Int.tdiv m (scan_freq_divi e.toNat 1000000) } }

/-- The loop `while (pos && pos + 1 < end)` of `wpa_driver_ralink_add_scan_entry`
(lines 1198-1210) over the buffer `ie`; `pos`, `ssid_ie` and `rate_ie` are offsets into
`ie`, `none` for `NULL`. Every iteration advances `pos` by at least 2, so `ie.length`
iterations are the budget. -/
def add_scan_entry_loop (ie : List u8) : Nat → Nat → Option Nat → Option Nat →
    Option Nat × Option Nat
  | 0, _, ssid_ie, rate_ie => (ssid_ie, rate_ie)
  | fuel + 1, pos, ssid_ie, rate_ie =>
    if pos + 1 < ie.length then
      if pos + 2 + (ie.getD (pos + 1) 0).val > ie.length then (ssid_ie, rate_ie)
      else if (ie.getD pos 0).val = WLAN_EID_SSID then
        add_scan_entry_loop ie fuel (pos + 2 + (ie.getD (pos + 1) 0).val) (some pos) rate_ie
      else if (ie.getD pos 0).val = WLAN_EID_SUPP_RATES then
        add_scan_entry_loop ie fuel (pos + 2 + (ie.getD (pos + 1) 0).val) ssid_ie (some pos)
      else if (ie.getD pos 0).val = WLAN_EID_EXT_SUPP_RATES then
        add_scan_entry_loop ie fuel (pos + 2 + (ie.getD (pos + 1) 0).val) ssid_ie (some pos)
      else
        add_scan_entry_loop ie fuel (pos + 2 + (ie.getD (pos + 1) 0).val) ssid_ie rate_ie
    else (ssid_ie, rate_ie)

/-- The scan result `r` that `wpa_driver_ralink_add_scan_entry(res, data)` builds
(lines 1197-1244). -/
def add_scan_entry_result (data : ralink_scan_data) : wpa_scan_res :=
  let found := add_scan_entry_loop data.ie data.ie.length 0 none none
  let ssid_ie := found.1
  let rate_ie := found.2
  let extra_len := (if ssid_ie = none then 2 + data.ssid.length else 0) +
    (if rate_ie = none ∧ data.maxrate ≠ 0 then 3 else 0)
  { data.res with
    ie_len := extra_len + data.ie.length,
    ie := (if ssid_ie = none then
              [to_u8 WLAN_EID_SSID, to_u8 data.ssid.length] ++ data.ssid else []) ++
          (if rate_ie = none ∧ data.maxrate ≠ 0 then
              [to_u8 WLAN_EID_SUPP_RATES, 1, to_u8 data.maxrate] else []) ++
          data.ie }

/-- The function `wpa_driver_ralink_add_scan_entry(res, data)`: the new entry is appended
to the array `res->res`. -/
def wpa_driver_ralink_add_scan_entry (res : List wpa_scan_res) (data : ralink_scan_data) :
    List wpa_scan_res :=
  res ++ [add_scan_entry_result data]

/-- Modelled from the spec: the tag-length-value elements of the well-formed prefix of a
buffer, as pairs of tag and value; the first argument bounds the number of elements. -/
def tlv_elements_aux : Nat → List u8 → List (u8 × List u8)
  | fuel + 1, tag :: len :: rest =>
    if len.val ≤ rest.length then
      (tag, rest.take len.val) :: tlv_elements_aux fuel (rest.drop len.val)
    else []
  | _, _ => []

/-- Modelled from the spec: the elements of the well-formed prefix of `raw`. Every element
takes at least two bytes, so `raw.length` bounds their number. -/
def tlv_elements (raw : List u8) : List (u8 × List u8) := tlv_elements_aux raw.length raw

/-- Modelled from the spec: `raw` is a well-formed concatenation of tag-length-value
elements. -/
inductive tlv_well_formed : List u8 → Prop
  | nil : tlv_well_formed []
  | cons (tag len : u8) (value rest : List u8) :
      value.length = len.val → tlv_well_formed rest →
      tlv_well_formed (tag :: len :: (value ++ rest))

/-- The kinds `ievent` of an interface-status event (`driver.h`). -/
inductive interface_ievent where
  | EVENT_INTERFACE_ADDED | EVENT_INTERFACE_REMOVED
  deriving DecidableEq, Repr

/-- One call `wpa_supplicant_event(ctx, event, data)` made by this file, with the members
of `union wpa_event_data` the caller filled in; the events without argument are the calls
with `data == NULL`. -/
inductive wpa_event where
  /-- The event `EVENT_ASSOC`. -/
  | EVENT_ASSOC
  /-- The event `EVENT_DISASSOC`. -/
  | EVENT_DISASSOC
  /-- The event `EVENT_MICHAEL_MIC_FAILURE` with `michael_mic_failure.unicast`. -/
  | EVENT_MICHAEL_MIC_FAILURE (unicast : Int)
  /-- The event `EVENT_ASSOCINFO` with `assoc_info.req_ies` and `assoc_info.resp_ies`. -/
  | EVENT_ASSOCINFO (req_ies : List u8) (resp_ies : Option (List u8))
  /-- The event `EVENT_PMKID_CANDIDATE` with the members of `pmkid_candidate`. -/
  | EVENT_PMKID_CANDIDATE (bssid : MacAddr) (index : Nat) (preauth : Nat)
  /-- The event `EVENT_INTERFACE_STATUS` with the members of `interface_status`. -/
  | EVENT_INTERFACE_STATUS (ifname : List u8) (ievent : interface_ievent)
  deriving DecidableEq, Repr

/-- Flag value `RT_ASSOC_EVENT_FLAG`. -/
def RT_ASSOC_EVENT_FLAG : Nat := 0x0101
/-- Flag value `RT_DISASSOC_EVENT_FLAG`. -/
def RT_DISASSOC_EVENT_FLAG : Nat := 0x0102
/-- Flag value `RT_REQIE_EVENT_FLAG`. -/
def RT_REQIE_EVENT_FLAG : Nat := 0x0103
/-- Flag value `RT_RESPIE_EVENT_FLAG`. -/
def RT_RESPIE_EVENT_FLAG : Nat := 0x0104
/-- Flag value `RT_ASSOCINFO_EVENT_FLAG`. -/
def RT_ASSOCINFO_EVENT_FLAG : Nat := 0x0105
/-- Flag value `RT_PMKIDCAND_FLAG`. -/
def RT_PMKIDCAND_FLAG : Nat := 0x0106
/-- Flag value `RT_INTERFACE_DOWN`. -/
def RT_INTERFACE_DOWN : Nat := 0x0107
/-- Flag value `RT_INTERFACE_UP`. -/
def RT_INTERFACE_UP : Nat := 0x0108
/-- Value of `NDIS_802_11_PMKID_CANDIDATE_PREAUTH_ENABLED`. -/
def NDIS_802_11_PMKID_CANDIDATE_PREAUTH_ENABLED : Nat := 0x01

/-- What the target and `driver_ralink.h` fix for `wpa_driver_ralink_event_pmkid`: the
width of `size_t`, in which the length test is computed, and the layout of
`PMKID_CANDIDATE` (a 6-byte `BSSID` at offset 0 and the 32-bit `Flags`). The fields
`Version` and `NumCandidates` of the list header are 32 bits wide, as the length test
`data_len < 8` of the source presumes. -/
structure NdisLayout where
  /-- Number of value bits of `size_t`. -/
  size_t_bits : Nat
  /-- Value of `sizeof(PMKID_CANDIDATE)`. -/
  sizeof_PMKID_CANDIDATE : Nat
  /-- Offset of the field `Flags` in `PMKID_CANDIDATE`. -/
  Flags_offset : Nat
  deriving DecidableEq, Repr

/-- A 32-bit target: `Flags` is aligned to 4 bytes, 12 bytes per candidate. -/
def ndis_layout32 : NdisLayout :=
  { size_t_bits := 32, sizeof_PMKID_CANDIDATE := 12, Flags_offset := 8 }

/-- A 64-bit target with the same structure layout. -/
def ndis_layout64 : NdisLayout :=
  { size_t_bits := 64, sizeof_PMKID_CANDIDATE := 12, Flags_offset := 8 }

/-- The six bytes at offset `off` of `data` (absent bytes read as 0). -/
def mac_at (data : List u8) (off : Nat) : MacAddr :=
  ⟨(List.range 6).map fun i => data.getD (off + i) 0, by simp⟩

/-- The loop `for (i = 0; i < pmkid->NumCandidates; i++)` of
`wpa_driver_ralink_event_pmkid` (lines 291-302); the first argument counts the iterations
still to run. The result lists the events emitted, and holds a fault when the loop
stopped at a candidate that does not lie inside the `data_len` bytes of `data`. -/
def event_pmkid_loop (A : NdisLayout) (data : List u8) : Nat → Nat → List wpa_event × Option Fault
  | 0, _ => ([], none)
  | remaining + 1, i =>
    if 8 + i * A.sizeof_PMKID_CANDIDATE + ETH_ALEN > data.length then
      ([], some (.out_of_bounds (8 + i * A.sizeof_PMKID_CANDIDATE) ETH_ALEN))
    else if 8 + i * A.sizeof_PMKID_CANDIDATE + A.Flags_offset + 4 > data.length then
      ([], some (.out_of_bounds (8 + i * A.sizeof_PMKID_CANDIDATE + A.Flags_offset) 4))
    else
      (.EVENT_PMKID_CANDIDATE (mac_at data (8 + i * A.sizeof_PMKID_CANDIDATE)) i
          (get_u32 data (8 + i * A.sizeof_PMKID_CANDIDATE + A.Flags_offset) &&&
            NDIS_802_11_PMKID_CANDIDATE_PREAUTH_ENABLED) ::
        (event_pmkid_loop A data remaining (i + 1)).1,
       (event_pmkid_loop A data remaining (i + 1)).2)

/-- The function `wpa_driver_ralink_event_pmkid(drv, data, data_len)` (lines 256-303);
`data_len` is `data.length`. The test of line 281 is computed in `size_t`. -/
def wpa_driver_ralink_event_pmkid (A : NdisLayout) (data : List u8) :
    List wpa_event × Option Fault :=
  if data.length < 8 then ([], none)
  else if get_u32 data 0 ≠ 1 then ([], none)
  else if data.length < (8 + get_u32 data 4 * A.sizeof_PMKID_CANDIDATE) % 2 ^ A.size_t_bits then
    ([], none)
  else event_pmkid_loop A data (get_u32 data 4) 0

/-- The bytes of a C string literal, without the terminating NUL. -/
def c_str (s : String) : List u8 := s.toList.map fun c => to_u8 c.toNat

/-- The test `os_strncmp(buf + off, lit, n) == 0` for a literal `lit` of `n` non-NUL
characters: bytes are read from offset `off` on until one differs or `n` have matched. -/
def os_strncmp_eq (buf : List u8) : Nat → List u8 → Except Fault Bool
  | _, [] => .ok true
  | off, c :: lit =>
    if off < buf.length then
      if buf.getD off 0 = c then os_strncmp_eq buf (off + 1) lit else .ok false
    else .error (.out_of_bounds off 1)

/-- The value `os_strlen(buf + off)`; a fault when `buf` holds no NUL from `off` on. -/
def os_strlen (buf : List u8) (off : Nat) : Except Fault Nat :=
  if (0 : u8) ∈ buf.drop off then .ok ((buf.drop off).takeWhile (fun b => b ≠ 0)).length
  else .error (.out_of_bounds buf.length 1)

/-- The test `os_strstr(buf, lit) != NULL`; a fault when `buf` holds no NUL. -/
def os_strstr_found (buf : List u8) (lit : List u8) : Except Fault Bool :=
  if (0 : u8) ∈ buf then .ok (decide (lit <:+: buf.takeWhile (fun b => b ≠ 0)))
  else .error (.out_of_bounds buf.length 1)

/-- The function `wpa_driver_ralink_event_wireless_custom(drv, ctx, custom)` (lines
450-520) on the buffer `custom` points to; the result lists the events emitted. -/
def wpa_driver_ralink_event_wireless_custom (drv : wpa_driver_ralink_data)
    (custom : List u8) : Except Fault (List wpa_event) :=
  (os_strncmp_eq custom 0 (c_str "MLME-MICHAELMICFAILURE.indication")).bind fun mic =>
  if mic then
    (os_strstr_found custom (c_str " unicast")).map fun found =>
      [.EVENT_MICHAEL_MIC_FAILURE (if found then 1 else 0)]
  else
    (os_strncmp_eq custom 0 (c_str "ASSOCINFO_ReqIEs=")).bind fun assoc =>
    if assoc then
      (memread custom 17 drv.assoc_req_ies_len).bind fun req_ies =>
      (os_strncmp_eq custom (17 + drv.assoc_req_ies_len + 1) (c_str " RespIEs=")).bind
      fun resp =>
      if resp then
        (os_strlen custom (17 + drv.assoc_req_ies_len + 1 + 9)).bind fun bytes =>
        if bytes = 0 then .ok []
        else
          (memread custom (17 + drv.assoc_req_ies_len + 1 + 9) bytes).map fun resp_ies =>
            [.EVENT_ASSOCINFO req_ies (some resp_ies)]
      else .ok [.EVENT_ASSOCINFO req_ies none]
    else .ok []

/-- The buffer `assoc_info_buf` of lines 624-650: zeroed, then the stashed request and
response elements copied in, then the terminating NUL stored. -/
def assoc_info_buf (drv : wpa_driver_ralink_data) : Except Fault (List u8) :=
  let zeroed : List u8 :=
    List.replicate (drv.assoc_req_ies_len + drv.assoc_resp_ies_len + 1) 0
  (match drv.assoc_req_ies with
   | none => (.ok zeroed : Except Fault (List u8))
   | some req => (memread req 0 drv.assoc_req_ies_len).map fun bytes => blit zeroed 0 bytes).bind
  fun with_req =>
  (match drv.assoc_resp_ies with
   | none => (.ok with_req : Except Fault (List u8))
   | some resp => (memread resp 0 drv.assoc_resp_ies_len).map
      fun bytes => blit with_req drv.assoc_req_ies_len bytes).map
  fun with_resp => blit with_resp (drv.assoc_req_ies_len + drv.assoc_resp_ies_len) [0]

/-- The body of `case IWEVCUSTOM` of `wpa_driver_ralink_event_wireless` (lines 564-706)
on one decoded record: `buf` is the copy of the payload with its terminating NUL, and
`custom_handler` is the function called at lines 651 and 702, which is
`wpa_driver_ralink_event_wireless_custom`. Returns the handle after the body and the
events emitted; no path of the body leaves the decoding loop when allocations succeed.
A fault in the second component says that a read of the body left its buffer, so that
the events are not determined. The handle after the body is determined all the same:
nothing the body stores in it comes from such a read, and lines 652-655 release both
stashed buffers after the call of line 651 whatever that call read or returned. The name
copied into the interface-status event is the handle's `ifname`. -/
def event_wireless_iwevcustom_step
    (custom_handler : wpa_driver_ralink_data → List u8 → Except Fault (List wpa_event))
    (A : NdisLayout) (L : Layout) (K : Kernel) (s : State) (r : iw_record) :
    State × Except Fault (List wpa_event) :=
  let buf := r.payload ++ [0]
  if iwe_data_flags L r.iwe_buf = RT_ASSOC_EVENT_FLAG then (s, .ok [.EVENT_ASSOC])
  else if iwe_data_flags L r.iwe_buf = RT_REQIE_EVENT_FLAG then
    ({ s with drv := { s.drv with assoc_req_ies := some r.payload,
                                  assoc_req_ies_len := iwe_data_length L r.iwe_buf } }, .ok [])
  else if iwe_data_flags L r.iwe_buf = RT_RESPIE_EVENT_FLAG then
    ({ s with drv := { s.drv with assoc_resp_ies := some r.payload,
                                  assoc_resp_ies_len := iwe_data_length L r.iwe_buf } }, .ok [])
  else if iwe_data_flags L r.iwe_buf = RT_ASSOCINFO_EVENT_FLAG then
    ({ s with drv := { s.drv with assoc_req_ies := none, assoc_resp_ies := none } },
     (assoc_info_buf s.drv).bind fun info => custom_handler s.drv info)
  else if iwe_data_flags L r.iwe_buf = RT_DISASSOC_EVENT_FLAG then (s, .ok [.EVENT_DISASSOC])
  else if iwe_data_flags L r.iwe_buf = RT_PMKIDCAND_FLAG then
    (s, match (wpa_driver_ralink_event_pmkid A r.payload).2 with
        | none => .ok (wpa_driver_ralink_event_pmkid A r.payload).1
        | some f => .error f)
  else if iwe_data_flags L r.iwe_buf = RT_INTERFACE_DOWN then (event_interface_down s, .ok [])
  else if iwe_data_flags L r.iwe_buf = RT_INTERFACE_UP then
    ((ralink_set_oid K { s with drv := { s.drv with g_driver_down := 0 } }
        (.wpa_supplicant_support (if s.drv.ap_scan = 1 then 1 else 2))).1,
     .ok [.EVENT_INTERFACE_STATUS s.drv.ifname .EVENT_INTERFACE_ADDED])
  else (s, custom_handler s.drv buf)

/-- The body of `case IWEVCUSTOM` as one outcome: the handle after the body together with
the events, or the fault when a read of the body left its buffer. -/
def event_wireless_iwevcustom
    (custom_handler : wpa_driver_ralink_data → List u8 → Except Fault (List wpa_event))
    (A : NdisLayout) (L : Layout) (K : Kernel) (s : State) (r : iw_record) :
    Except Fault (State × List wpa_event) :=
  (event_wireless_iwevcustom_step custom_handler A L K s r).2.map fun events =>
    ((event_wireless_iwevcustom_step custom_handler A L K s r).1, events)

/-- The custom records of one buffer dispatched in order: state after the last one and
all events emitted. -/
def event_wireless_run
    (custom_handler : wpa_driver_ralink_data → List u8 → Except Fault (List wpa_event))
    (A : NdisLayout) (L : Layout) (K : Kernel) :
    State → List iw_record → Except Fault (State × List wpa_event)
  | s, [] => .ok (s, [])
  | s, r :: rest =>
    (event_wireless_iwevcustom custom_handler A L K s r).bind fun first =>
    (event_wireless_run custom_handler A L K first.1 rest).map fun more =>
      (more.1, first.2 ++ more.2)

/-- The function `wpa_driver_ralink_event_wireless(drv, ctx, data, len)`: the decoding
loop hands its `IWEVCUSTOM` records to the dispatch in order. A fault means that some
read left its buffer. -/
def wpa_driver_ralink_event_wireless (A : NdisLayout) (L : Layout) (K : Kernel) (s : State)
    (data : List u8) : Except Fault (State × List wpa_event) :=
  (wpa_driver_ralink_event_wireless_decode L s.drv.we_version_compiled data).bind
    (event_wireless_run wpa_driver_ralink_event_wireless_custom A L K s)

/-- A decoded custom record for `layout32` with the given flag value and payload: the
fields `u.data.length` and `u.data.flags` sit at offsets 8 and 10 of `iwe_buf`, and the
bytes of `iwe_buf` that the dispatch does not read are 0. -/
def sample_custom_record (flags : Nat) (payload : List u8) : iw_record :=
  { iwe_buf := [to_u8 (8 + payload.length), 0, 0x02, 0x8C, 0, 0, 0, 0,
                to_u8 payload.length, 0, to_u8 (flags % 256), to_u8 (flags / 256),
                0, 0, 0, 0, 0, 0, 0, 0],
    custom := 8,
    payload := payload }

/-! ## The ProcessCredentials property (`wpa_supplicant/ctrl_iface_dbus_handlers_wps.c`) -/

/-- The configuration `struct wpa_config` (`wpa_s->conf`) as far as the two handlers of
the property touch it. -/
structure wpa_config where
  /-- Field `wps_cred_processing`. -/
  wps_cred_processing : Int
  deriving DecidableEq, Repr

/-- An incoming D-Bus message as far as the setter inspects it. -/
structure DBusMessage where
  /-- What `dbus_message_get_args(message, NULL, DBUS_TYPE_BOOLEAN, &process_credentials,
  DBUS_TYPE_INVALID)` does: `none` when it returns false, otherwise the `dbus_bool_t` it
  stores (1 for true, 0 for false). -/
  boolean_arg : Option Nat
  deriving DecidableEq, Repr

/-- The replies the two handlers return. -/
inductive DBusReply where
  /-- The method return with the appended boolean `process`. -/
  | method_return_boolean (process : Nat)
  /-- The error `DBUS_ERROR_NO_MEMORY`. -/
  | error_no_memory
  /-- The reply of `wpas_dbus_new_invalid_opts_error(message, NULL)`. -/
  | invalid_opts_error
  /-- The reply of `wpas_dbus_new_success_reply(message)`. -/
  | success_reply
  deriving DecidableEq, Repr

/-- The function `wpas_dbus_iface_wps_get_process_credentials(message, wpa_s)` (lines
176-196); `reply_allocated` tells whether `dbus_message_new_method_return` returned a
message. -/
def wpas_dbus_iface_wps_get_process_credentials (reply_allocated : Bool)
    (conf : wpa_config) : DBusReply :=
  let process : Nat := if conf.wps_cred_processing ≠ 1 then 1 else 0
  if reply_allocated then .method_return_boolean process else .error_no_memory

/-- The function `wpas_dbus_iface_wps_set_process_credentials(message, wpa_s)` (lines
208-223): the configuration afterwards and the reply. -/
def wpas_dbus_iface_wps_set_process_credentials (message : DBusMessage)
    (conf : wpa_config) : wpa_config × DBusReply :=
  match message.boolean_arg with
  | none => (conf, .invalid_opts_error)
  | some process_credentials =>
    ({ conf with wps_cred_processing := if process_credentials ≠ 0 then 2 else 1 },
     .success_reply)

/-! ## Netlink messages -/

/-- Value of `sizeof(struct nlmsghdr)` (`nlmsg_len`, `nlmsg_type`, `nlmsg_flags`,
`nlmsg_seq`, `nlmsg_pid`); `NLMSG_DATA(h)` is `h` plus the same 16 bytes. -/
def sizeof_nlmsghdr : Nat := 16
/-- Value of `sizeof(struct ifinfomsg)`. -/
def sizeof_ifinfomsg : Nat := 16
/-- Value of `sizeof(struct rtattr)` (`rta_len`, `rta_type`). -/
def sizeof_rtattr : Nat := 4
/-- Message type `RTM_NEWLINK`. -/
def RTM_NEWLINK : Nat := 16
/-- Attribute type `IFLA_WIRELESS`. -/
def IFLA_WIRELESS : Nat := 11

/-- The macro `NLMSG_ALIGN(len)`, `(len + 3) & ~3`, on an `int`. -/
def NLMSG_ALIGN (len : Int) : Int := (len + 3) / 4 * 4

/-- The macro `RTA_ALIGN(len)`, `(len + 3) & ~3`, on an unsigned length. -/
def RTA_ALIGN (len : Nat) : Nat := (len + 3) / 4 * 4

/-- One attribute the loop of `wpa_driver_ralink_event_rtm_newlink` visits. -/
structure rtattr where
  /-- Offset of the attribute in the receive buffer. -/
  attr : Nat
  /-- Field `rta_len`. -/
  rta_len : Nat
  /-- Field `rta_type`. -/
  rta_type : Nat
  deriving DecidableEq, Repr

/-- The loop `while (RTA_OK(attr, attrlen))` of `wpa_driver_ralink_event_rtm_newlink`
(lines 740-751) over the receive buffer `buf`: the attributes it visits, in order. Every
iteration takes at least 4 off `attrlen`, which bounds the iterations. -/
def rtm_newlink_loop (buf : List u8) : Nat → Nat → Int → Except Fault (List rtattr)
  | 0, _, _ => .error .out_of_fuel
  | fuel + 1, attr, attrlen =>
    if attrlen ≥ (sizeof_rtattr : Int) then
      (memread buf attr 2).bind fun len_bytes =>
      if get_u16 len_bytes 0 ≥ sizeof_rtattr ∧ (get_u16 len_bytes 0 : Int) ≤ attrlen then
        (memread buf (attr + 2) 2).bind fun type_bytes =>
        (rtm_newlink_loop buf fuel (attr + RTA_ALIGN (get_u16 len_bytes 0))
            (attrlen - (RTA_ALIGN (get_u16 len_bytes 0) : Int))).map
          fun rest =>
            { attr := attr, rta_len := get_u16 len_bytes 0, rta_type := get_u16 type_bytes 0 }
              :: rest
      else .ok []
    else .ok []

/-- The value `attrlen` of line 731, `h->nlmsg_len - nlmsg_len`: unsigned 32-bit
arithmetic on the length field of the message header, stored into an `int`. -/
def rtm_newlink_attrlen (nlmsg_len : Nat) : Int :=
  to_s32 ((nlmsg_len + 2 ^ 32 - (NLMSG_ALIGN sizeof_ifinfomsg).toNat) % 2 ^ 32)

/-- The attributes that `wpa_driver_ralink_event_rtm_newlink(drv, ctx, h, len)` (lines
713-752) visits; `h` is the offset of the message header in `buf`. The payload of every
visited attribute of type `IFLA_WIRELESS`, the `rta_len - 4` bytes from offset `attr + 4`
on, is passed to `wpa_driver_ralink_event_wireless`. -/
def wpa_driver_ralink_event_rtm_newlink_attrs (buf : List u8) (h : Nat) (len : Int) :
    Except Fault (List rtattr) :=
  if len < (sizeof_ifinfomsg : Int) then .ok []
  else
    (memread buf h 4).bind fun len_bytes =>
    if rtm_newlink_attrlen (get_u32 len_bytes 0) < 0 then .ok []
    else
      rtm_newlink_loop buf ((rtm_newlink_attrlen (get_u32 len_bytes 0)).toNat + 1)
        (h + sizeof_nlmsghdr + (NLMSG_ALIGN sizeof_ifinfomsg).toNat)
        (rtm_newlink_attrlen (get_u32 len_bytes 0))

/-- The calls of `wpa_driver_ralink_event_wireless` for the visited attributes of type
`IFLA_WIRELESS`, in order. -/
def rtm_newlink_wireless (A : NdisLayout) (L : Layout) (K : Kernel) (buf : List u8) :
    State → List rtattr → Except Fault (State × List wpa_event)
  | s, [] => .ok (s, [])
  | s, a :: rest =>
    if a.rta_type = IFLA_WIRELESS then
      (memread buf (a.attr + sizeof_rtattr) (a.rta_len - sizeof_rtattr)).bind fun data =>
      (wpa_driver_ralink_event_wireless A L K s data).bind fun first =>
      (rtm_newlink_wireless A L K buf first.1 rest).map fun more =>
        (more.1, first.2 ++ more.2)
    else rtm_newlink_wireless A L K buf s rest

/-- The function `wpa_driver_ralink_event_rtm_newlink(drv, ctx, h, len)`. -/
def wpa_driver_ralink_event_rtm_newlink (A : NdisLayout) (L : Layout) (K : Kernel)
    (s : State) (buf : List u8) (h : Nat) (len : Int) : Except Fault (State × List wpa_event) :=
  (wpa_driver_ralink_event_rtm_newlink_attrs buf h len).bind
    (rtm_newlink_wireless A L K buf s)

/-- The loop `while (left >= (int) sizeof(*h))` of `wpa_driver_ralink_event_receive`
(lines 778-799) over the receive buffer `buf`, of which `recvfrom` filled the first `left`
bytes: for every message it accepts, the offset of the message, its `nlmsg_len`, and the
attributes visited for it when it is an `RTM_NEWLINK` message. Every accepted message
with a length field below `2 ^ 31` takes at least 16 off `left`; a larger length field
reads as a negative `len` and moves `h` backwards, and a cursor before the start of the
buffer is a fault. -/
def event_receive_loop (buf : List u8) :
    Nat → Nat → Int → Except Fault (List (Nat × Nat × List rtattr))
  | 0, _, _ => .error .out_of_fuel
  | fuel + 1, h, left =>
    if left ≥ (sizeof_nlmsghdr : Int) then
      (memread buf h 4).bind fun len_bytes =>
      let len := to_s32 (get_u32 len_bytes 0)
      let plen := to_s32 ((get_u32 len_bytes 0 + 2 ^ 32 - sizeof_nlmsghdr) % 2 ^ 32)
      if len > left ∨ plen < 0 then .ok []
      else
        (memread buf (h + 4) 2).bind fun type_bytes =>
        (if get_u16 type_bytes 0 = RTM_NEWLINK then
            wpa_driver_ralink_event_rtm_newlink_attrs buf h plen
          else .ok []).bind fun attrs =>
        if (h : Int) + NLMSG_ALIGN len < 0 then .error (.out_of_bounds 0 0)
        else
          (event_receive_loop buf fuel ((h : Int) + NLMSG_ALIGN len).toNat
              (left - NLMSG_ALIGN len)).map
            fun rest => (h, get_u32 len_bytes 0, attrs) :: rest
    else .ok []

/-- The messages that `wpa_driver_ralink_event_receive` accepts from a datagram of `left`
bytes received into `buf`, with the attributes visited for each. -/
def wpa_driver_ralink_event_receive_attrs (buf : List u8) (left : Int) :
    Except Fault (List (Nat × Nat × List rtattr)) :=
  if left < 0 then .ok [] else event_receive_loop buf (left.toNat + 1) 0 left

/-- A datagram of two messages: an `RTM_NEWLINK` message of 32 bytes, which is a header
and an interface-info header without any attribute, and the 16-byte header of a second
message. -/
def sample_netlink_datagram : List u8 :=
  [32, 0, 0, 0, 16, 0, 0, 0, 0, 0, 0, 0, 0, 0, 0, 0] ++
  [0, 0, 1, 0, 2, 0, 0, 0, 0, 0, 0, 0, 0, 0, 0, 0] ++
  [16, 0, 11, 0, 16, 0, 0, 0, 1, 0, 0, 0, 0, 0, 0, 0]

/-! ## Buffers of self-contained records -/

/-- Modelled from the spec: the buffer `data` is a sequence of records, walked by the loop
of `wpa_driver_ralink_event_wireless` from the cursor `pos`, such that no record declares a
length of at most the header size, every byte the loop reads for a record (header,
structure copy, payload of a custom record) lies inside `data`, no payload test cuts a
record off, and the cursor ends exactly at the end of `data`. -/
def event_wireless_inside (L : Layout) (we_version_compiled : Int) (data : List u8) :
    Nat → Nat → List u8 → Bool
  | 0, _, _ => false
  | fuel + 1, pos, iwe_buf =>
    if pos + L.IW_EV_LCP_LEN ≤ data.length then
      match memread data pos L.IW_EV_LCP_LEN with
      | .error _ => false
      | .ok hdr =>
        if iwe_len (blit iwe_buf 0 hdr) ≤ L.IW_EV_LCP_LEN then false
        else
          match iw_copy_event L data pos (blit iwe_buf 0 hdr)
              (decide (we_version_compiled > 18) &&
                decide (iwe_cmd (blit iwe_buf 0 hdr) = IWEVCUSTOM)) with
          | .error _ => false
          | .ok (iwe2, custom) =>
            (if iwe_cmd iwe2 = IWEVCUSTOM then
                decide (custom + iwe_data_length L iwe2 ≤ data.length) else true) &&
              event_wireless_inside L we_version_compiled data fuel (pos + iwe_len iwe2) iwe2
    else decide (pos = data.length)

/-- Modelled from the spec: the same for the loop of
`wpa_driver_ralink_get_scan_results2`, where the payloads are those of the SSID and
generic-IE records. -/
def scan_results_inside (L : Layout) (we_version_compiled : Int) (data : List u8) :
    Nat → Nat → List u8 → Bool
  | 0, _, _ => false
  | fuel + 1, pos, iwe_buf =>
    if pos + L.IW_EV_LCP_LEN ≤ data.length then
      match memread data pos L.IW_EV_LCP_LEN with
      | .error _ => false
      | .ok hdr =>
        if iwe_len (blit iwe_buf 0 hdr) ≤ L.IW_EV_LCP_LEN then false
        else
          match iw_copy_event L data pos (blit iwe_buf 0 hdr)
              (ralink_19_iw_point we_version_compiled (iwe_cmd (blit iwe_buf 0 hdr))) with
          | .error _ => false
          | .ok (iwe2, custom) =>
            (if iwe_cmd iwe2 = SIOCGIWESSID ∨ iwe_cmd iwe2 = IWEVGENIE then
                decide (custom + iwe_data_length L iwe2 ≤ data.length) else true) &&
              scan_results_inside L we_version_compiled data fuel (pos + iwe_len iwe2) iwe2
    else decide (pos = data.length)

/-- Modelled from the spec: the first `p` bytes of the buffer at the start of `mem` are a
sequence of records, walked by the loop of `wpa_driver_ralink_event_wireless` from the
cursor `pos`, such that no record declares a length of at most the header size, the
payload of every custom record ends inside the first `p` bytes, and the cursor arrives at
offset `p` exactly. A read that leaves `mem` ends the walk. -/
def event_wireless_ends_at (L : Layout) (we_version_compiled : Int) (mem : List u8)
    (p : Nat) : Nat → Nat → List u8 → Bool
  | 0, _, _ => false
  | fuel + 1, pos, iwe_buf =>
    if pos + L.IW_EV_LCP_LEN ≤ p then
      match memread mem pos L.IW_EV_LCP_LEN with
      | .error _ => true
      | .ok hdr =>
        if iwe_len (blit iwe_buf 0 hdr) ≤ L.IW_EV_LCP_LEN then false
        else
          match iw_copy_event L mem pos (blit iwe_buf 0 hdr)
              (decide (we_version_compiled > 18) &&
                decide (iwe_cmd (blit iwe_buf 0 hdr) = IWEVCUSTOM)) with
          | .error _ => true
          | .ok (iwe2, custom) =>
            (if iwe_cmd iwe2 = IWEVCUSTOM then
                decide (custom + iwe_data_length L iwe2 ≤ p) else true) &&
              event_wireless_ends_at L we_version_compiled mem p fuel (pos + iwe_len iwe2) iwe2
    else decide (pos = p)

/-- Modelled from the spec: the same for the loop of
`wpa_driver_ralink_get_scan_results2`, where the payloads are those of the SSID and
generic-IE records. -/
def scan_results_ends_at (L : Layout) (we_version_compiled : Int) (mem : List u8)
    (p : Nat) : Nat → Nat → List u8 → Bool
  | 0, _, _ => false
  | fuel + 1, pos, iwe_buf =>
    if pos + L.IW_EV_LCP_LEN ≤ p then
      match memread mem pos L.IW_EV_LCP_LEN with
      | .error _ => true
      | .ok hdr =>
        if iwe_len (blit iwe_buf 0 hdr) ≤ L.IW_EV_LCP_LEN then false
        else
          match iw_copy_event L mem pos (blit iwe_buf 0 hdr)
              (ralink_19_iw_point we_version_compiled (iwe_cmd (blit iwe_buf 0 hdr))) with
          | .error _ => true
          | .ok (iwe2, custom) =>
            (if iwe_cmd iwe2 = SIOCGIWESSID ∨ iwe_cmd iwe2 = IWEVGENIE then
                decide (custom + iwe_data_length L iwe2 ≤ p) else true) &&
              scan_results_ends_at L we_version_compiled mem p fuel (pos + iwe_len iwe2) iwe2
    else decide (pos = p)

/-- An event buffer for `layout32` with WE-19: one custom record that declares a total
length of 16 and a payload of 30 bytes, then at offset 16 a record that declares the
length 0, 38 bytes in all. -/
def sample_overlong_custom : List u8 :=
  [16, 0, 0x02, 0x8C, 30, 0, 0, 0, 1, 2, 3, 4, 5, 6, 7, 8] ++
  [0, 0, 0, 0, 9, 10, 11, 12, 13, 14, 15, 16, 17, 18, 19, 20, 21, 22, 23, 24, 25, 26]

/-- A scan buffer for `layout32` with WE-19: one SSID record that declares a total length
of 16 and an SSID of 20 bytes, then at offset 16 a record that declares the length 0, 28
bytes in all. -/
def sample_overlong_essid : List u8 :=
  [16, 0, 0x1B, 0x8B, 20, 0, 1, 0, 97, 98, 99, 100, 101, 102, 103, 104] ++
  [0, 0, 0, 0, 105, 106, 107, 108, 109, 110, 111, 112]

/-! ## Well-formed scan buffers -/

end Ralink

namespace Ralink

/-! ## Theorems -/

/-! ### Auxiliary lemmas -/

/-- State after one `ioctl`: the request is appended to the log. -/
theorem ioctl_fst (K : Kernel) (s : State) (r : Request) :
    (ioctl K s r).1 = { s with calls := s.calls ++ [r] } := rfl

/-- State after `ralink_set_oid`: the request is appended to the log. -/
theorem ralink_set_oid_fst (K : Kernel) (s : State) (r : Request) :
    (ralink_set_oid K s r).1 = { s with calls := s.calls ++ [r] } := by
  unfold ralink_set_oid ioctl
  dsimp only
  split <;> rfl

/-- Result of `ralink_set_oid`: 0 when the driver accepts the request, -1 otherwise. -/
theorem ralink_set_oid_snd (K : Kernel) (s : State) (r : Request) :
    (ralink_set_oid K s r).2 = if K.ioctl_ok s.calls.length then 0 else -1 := by
  unfold ralink_set_oid ioctl
  dsimp only
  cases K.ioctl_ok s.calls.length <;> simp

/-- The operations issued beyond a log prefix of known length. -/
theorem issued_mk (n : Nat) (d : wpa_driver_ralink_data) (w : Bool) (pre xs : List Request)
    (h : pre.length = n) :
    issued n { drv := d, bAddWepKey := w, calls := pre ++ xs } = xs := by
  subst h
  simp [issued]

/-- State after `get_bssid` on an up driver: one `SIOCGIWAP` request is logged. -/
theorem get_bssid_fst (K : Kernel) (s : State) (b : MacAddr) (hup : s.drv.g_driver_down ≠ 1) :
    (wpa_driver_ralink_get_bssid K s b).1 = { s with calls := s.calls ++ [.get_ap] } := by
  unfold wpa_driver_ralink_get_bssid ioctl
  rw [if_neg hup]
  dsimp only
  split <;> rfl

/-- Operations issued by `set_key` on the general add-key path. -/
theorem set_key_add_key_issued (K : Kernel) (s : State) (alg : wpa_alg) (addr : Option MacAddr)
    (key_idx set_tx : Int) (seq : Option (List u8)) (key : List u8)
    (hup : s.drv.g_driver_down ≠ 1) (hnone : alg ≠ .WPA_ALG_NONE) (hwep : alg ≠ .WPA_ALG_WEP)
    (hlen : key.length ≠ 0) :
    issued s.calls.length (wpa_driver_ralink_set_key K s alg addr key_idx set_tx seq key).1 =
      (if set_key_group addr then [Request.get_ap] else []) ++
        [.add_key (set_key_record alg key_idx set_tx (if set_key_group addr then 0 else 1)
          (if set_key_group addr then
            (wpa_driver_ralink_get_bssid K { s with bAddWepKey := false } MacAddr.zero).2.2
           else addr.getD MacAddr.zero) seq key)] := by
  unfold wpa_driver_ralink_set_key
  rw [if_neg hup]
  have h1 : ¬ (alg = .WPA_ALG_NONE ∨ key.length = 0) := by tauto
  simp only [h1, hwep, if_false]
  cases hg : set_key_group addr
  · simp [ralink_set_oid_fst, issued]
  · simp only [if_true, ralink_set_oid_fst]
    rw [get_bssid_fst K { drv := s.drv, bAddWepKey := false, calls := s.calls } MacAddr.zero hup]
    simp [issued]

/-- The add-key records of a concatenated log. -/
theorem add_key_records_sent_append (xs ys : List Request) :
    add_key_records_sent (xs ++ ys) = add_key_records_sent xs ++ add_key_records_sent ys := by
  induction xs with
  | nil => rfl
  | cons x xs ih => cases x <;> simp [add_key_records_sent, ih]

/-- Operations issued by `set_key` on the WEP path. -/
theorem set_key_add_wep_issued (K : Kernel) (s : State) (addr : Option MacAddr)
    (key_idx set_tx : Int) (seq : Option (List u8)) (key : List u8)
    (hup : s.drv.g_driver_down ≠ 1) (hlen : key.length ≠ 0) :
    issued s.calls.length
        (wpa_driver_ralink_set_key K s .WPA_ALG_WEP addr key_idx set_tx seq key).1 =
      (if set_key_group addr then [Request.get_ap] else []) ++
        [.add_wep { Length := 12 + key.length,
                    KeyIndex := if set_tx ≠ 0 then to_u32 key_idx ||| 0x80000000
                                else to_u32 key_idx,
                    KeyLength := key.length,
                    KeyMaterial := key }] := by
  unfold wpa_driver_ralink_set_key wpa_driver_ralink_add_wep
  rw [if_neg hup]
  have h1 : ¬ (wpa_alg.WPA_ALG_WEP = .WPA_ALG_NONE ∨ key.length = 0) := by
    intro h; rcases h with h | h
    · exact absurd h (by decide)
    · exact hlen h
  simp only [h1, if_false, if_true]
  cases hg : set_key_group addr
  · simp [ralink_set_oid_fst, issued]
  · simp only [if_true, ralink_set_oid_fst]
    rw [get_bssid_fst K { drv := s.drv, bAddWepKey := false, calls := s.calls } MacAddr.zero hup]
    simp [issued]

/-- The three copies of the TKIP branch map `A || B || C` to `A || C || B`. -/
theorem tkip_key_material_abc (A B C : List u8) (hA : A.length = 16) (hB : B.length = 8)
    (hC : C.length = 8) : tkip_key_material (A ++ B ++ C) = A ++ C ++ B := by
  unfold tkip_key_material
  have h1 : (A ++ B ++ C).take 16 = A := by
    rw [List.append_assoc]; exact List.take_left' hA
  have h2 : (A ++ B ++ C).drop 24 = C := by
    apply List.drop_left'; simp [hA, hB]
  have h3 : (A ++ B ++ C).drop 16 = B ++ C := by
    rw [List.append_assoc]; exact List.drop_left' hA
  rw [h1, h2, h3, List.take_left' hB, List.take_of_length_le (by omega)]

/-- Every 32-byte key splits as `A(16) || B(8) || C(8)`. -/
theorem tkip_key_material_split (K : List u8) (h : K.length = 32) :
    ∃ A B C : List u8, A.length = 16 ∧ B.length = 8 ∧ C.length = 8 ∧ K = A ++ B ++ C := by
  refine ⟨K.take 16, (K.drop 16).take 8, K.drop 24, ?_, ?_, ?_, ?_⟩
  · simp [h]
  · simp [h]
  · simp [h]
  · rw [List.append_assoc]
    have : K.drop 24 = (K.drop 16).drop 8 := by simp
    rw [this, List.take_append_drop, List.take_append_drop]

/-- The counting loop stops at the capacity or at the end of the list. -/
theorem set_pmkid_count_eq (c : Int) (l : List ndis_pmkid_entry) (k : Nat) (hk : (k : Int) < c) :
    ((set_pmkid_count c l k : Nat) : Int) = min ((k + l.length : Nat) : Int) c := by
  induction l generalizing k with
  | nil => simp [set_pmkid_count]; omega
  | cons e rest ih =>
    unfold set_pmkid_count
    by_cases h : ((k + 1 : Nat) : Int) ≥ c
    · rw [if_pos h]; simp only [List.length_cons]; push_cast at h ⊢; omega
    · rw [if_neg h, ih (k + 1) (by omega)]; simp only [List.length_cons]; push_cast; omega

/-- With a positive capacity the record built by `set_pmkid` is the full-replace record. -/
theorem set_pmkid_record_full (c : Int) (l : List ndis_pmkid_entry) (hc : 0 < c) :
    is_full_replace_record c l (set_pmkid_record c l) := by
  have hcount := set_pmkid_count_eq c l 0 (by simpa using hc)
  simp only [Nat.zero_add] at hcount
  have hle : set_pmkid_count c l 0 ≤ l.length := by omega
  refine ⟨hcount, ?_, ?_, ?_⟩
  · simp [set_pmkid_record, sizeof_BSSID_INFO]
  · simp [set_pmkid_record, hle]
  · intro i hi
    simp only [set_pmkid_record] at hi ⊢
    rw [List.getElem?_map, List.getElem?_take_of_lt hi]
    rfl

/-- State after `add_pmkid` on an up driver with non-zero capacity. -/
theorem add_pmkid_fst (K : Kernel) (s : State) (b : MacAddr) (p : Pmkid)
    (hup : s.drv.g_driver_down ≠ 1) (hc : s.drv.no_of_pmkid ≠ 0) :
    (wpa_driver_ralink_add_pmkid K s b p).1 =
      { s with drv := { s.drv with pmkid := add_pmkid_list b p s.drv.pmkid },
               calls := s.calls ++
                 [.pmkid (set_pmkid_record s.drv.no_of_pmkid (add_pmkid_list b p s.drv.pmkid))] } := by
  unfold wpa_driver_ralink_add_pmkid wpa_driver_ralink_set_pmkid
  rw [if_neg hup, if_neg hc, ralink_set_oid_fst]

/-- State after `remove_pmkid` on an up driver with non-zero capacity. -/
theorem remove_pmkid_fst (K : Kernel) (s : State) (b : MacAddr) (p : Pmkid)
    (hup : s.drv.g_driver_down ≠ 1) (hc : s.drv.no_of_pmkid ≠ 0) :
    (wpa_driver_ralink_remove_pmkid K s b p).1 =
      { s with drv := { s.drv with pmkid := remove_pmkid_loop b p s.drv.pmkid false [] },
               calls := s.calls ++
                 [.pmkid (set_pmkid_record s.drv.no_of_pmkid
                   (remove_pmkid_loop b p s.drv.pmkid false []))] } := by
  unfold wpa_driver_ralink_remove_pmkid wpa_driver_ralink_set_pmkid
  rw [if_neg hup, if_neg hc, ralink_set_oid_fst]

/-- State after `flush_pmkid` on an up driver with non-zero capacity. -/
theorem flush_pmkid_fst (K : Kernel) (s : State)
    (hup : s.drv.g_driver_down ≠ 1) (hc : s.drv.no_of_pmkid ≠ 0) :
    (wpa_driver_ralink_flush_pmkid K s).1 =
      { s with drv := { s.drv with pmkid := [] },
               calls := s.calls ++
                 [.pmkid { Length := 8, BSSIDInfoCount := 0, BSSIDInfo := [] }] } := by
  unfold wpa_driver_ralink_flush_pmkid
  rw [if_neg hup, if_neg hc, ralink_set_oid_fst]

/-- The search loop runs to the end when no node has the BSSID. -/
theorem add_pmkid_search_absent (b : MacAddr) (l : List ndis_pmkid_entry)
    (h : ∀ e ∈ l, e.bssid ≠ b) : add_pmkid_search b l = (l, []) := by
  induction l with
  | nil => rfl
  | cons e rest ih =>
    have he : e.bssid ≠ b := h e (List.mem_cons_self _ _)
    have hr := ih (fun x hx => h x (List.mem_cons_of_mem _ hx))
    simp [add_pmkid_search, he, hr]

/-- The search loop stops at the first node with the BSSID. -/
theorem add_pmkid_search_present (b : MacAddr) (l : List ndis_pmkid_entry)
    (h : ∃ e ∈ l, e.bssid = b) :
    ∃ before entry after, add_pmkid_search b l = (before, entry :: after) ∧ entry.bssid = b ∧
      l.eraseP (fun e => decide (e.bssid = b)) = before ++ after := by
  induction l with
  | nil => simp at h
  | cons e rest ih =>
    by_cases he : e.bssid = b
    · exact ⟨[], e, rest, by simp [add_pmkid_search, he], he, by simp [he]⟩
    · have hrest : ∃ x ∈ rest, x.bssid = b := by
        obtain ⟨x, hx, hxb⟩ := h
        rcases List.mem_cons.mp hx with rfl | hx
        · exact absurd hxb he
        · exact ⟨x, hx, hxb⟩
      obtain ⟨before, entry, after, hs, hb, her⟩ := ih hrest
      refine ⟨e :: before, entry, after, ?_, hb, ?_⟩
      · simp [add_pmkid_search, he, hs]
      · simp [List.eraseP_cons, he, her]

/-- A BSSID that is not cached is linked in front. -/
theorem add_pmkid_list_absent (b : MacAddr) (p : Pmkid) (l : List ndis_pmkid_entry)
    (h : ∀ e ∈ l, e.bssid ≠ b) : add_pmkid_list b p l = { bssid := b, pmkid := p } :: l := by
  unfold add_pmkid_list
  rw [add_pmkid_search_absent b l h]

/-- A cached BSSID is moved to the front with the new PMKID. -/
theorem add_pmkid_list_present (b : MacAddr) (p : Pmkid) (l : List ndis_pmkid_entry)
    (h : ∃ e ∈ l, e.bssid = b) :
    add_pmkid_list b p l =
      { bssid := b, pmkid := p } :: l.eraseP (fun e => decide (e.bssid = b)) := by
  obtain ⟨before, entry, after, hs, hb, her⟩ := add_pmkid_search_present b l h
  unfold add_pmkid_list
  rw [hs, her]
  simp [hb]

/-- Once `prev` is set the loop no longer changes `drv->pmkid`. -/
theorem remove_pmkid_loop_prev (b : MacAddr) (p : Pmkid) (l head : List ndis_pmkid_entry) :
    remove_pmkid_loop b p l true head = head := by
  induction l with
  | nil => rfl
  | cons e rest ih => unfold remove_pmkid_loop; split <;> simp [ih]

/-- What `remove_pmkid` leaves in `drv->pmkid`: the tail when the first node matches,
nothing otherwise. -/
theorem remove_pmkid_loop_eq (b : MacAddr) (p : Pmkid) (l : List ndis_pmkid_entry) :
    remove_pmkid_loop b p l false [] =
      match l with
      | [] => []
      | e :: rest => if e.bssid = b ∧ e.pmkid = p then rest else [] := by
  cases l with
  | nil => rfl
  | cons e rest =>
    unfold remove_pmkid_loop
    by_cases h : e.bssid = b ∧ e.pmkid = p
    · simp [h]
    · simp only [if_neg h, remove_pmkid_loop_prev]

/-- State after one cache operation on an up driver with non-zero capacity. -/
theorem pmkid_step_eq (K : Kernel) (s : State) (op : pmkid_op)
    (hup : s.drv.g_driver_down ≠ 1) (hc : s.drv.no_of_pmkid ≠ 0) :
    pmkid_step K s op =
      { s with drv := { s.drv with pmkid := pmkid_step_list op s.drv.pmkid },
               calls := s.calls ++
                 [.pmkid (set_pmkid_record s.drv.no_of_pmkid (pmkid_step_list op s.drv.pmkid))] } := by
  cases op with
  | add b p => exact add_pmkid_fst K s b p hup hc
  | remove b p => exact remove_pmkid_fst K s b p hup hc
  | flush =>
    show (wpa_driver_ralink_flush_pmkid K s).1 = _
    rw [flush_pmkid_fst K s hup hc]
    rfl

/-- State after a sequence of cache operations on an up driver with non-zero capacity. -/
theorem pmkid_run_eq (K : Kernel) (ops : List pmkid_op) (s : State)
    (hup : s.drv.g_driver_down ≠ 1) (hc : s.drv.no_of_pmkid ≠ 0) :
    pmkid_run K s ops =
      { s with drv := { s.drv with pmkid := pmkid_run_list s.drv.pmkid ops },
               calls := s.calls ++
                 (pmkid_run_records s.drv.no_of_pmkid s.drv.pmkid ops).map Request.pmkid } := by
  induction ops generalizing s with
  | nil => simp [pmkid_run, pmkid_run_list, pmkid_run_records]
  | cons op rest ih =>
    unfold pmkid_run
    rw [pmkid_step_eq K s op hup hc, ih _ (by exact hup) (by exact hc)]
    simp [pmkid_run_list, pmkid_run_records]

/-- A log of PMKID records only reads back as those records. -/
theorem pmkid_records_sent_map (rs : List NDIS_802_11_PMKID) :
    pmkid_records_sent (rs.map Request.pmkid) = rs := by
  induction rs with
  | nil => rfl
  | cons r rs ih => simp [pmkid_records_sent, ih]

/-- The PMKID records pushed by a sequence of cache operations. -/
theorem pmkid_run_issued (K : Kernel) (ops : List pmkid_op) (s : State)
    (hup : s.drv.g_driver_down ≠ 1) (hc : s.drv.no_of_pmkid ≠ 0) :
    pmkid_records_sent (issued s.calls.length (pmkid_run K s ops)) =
      pmkid_run_records s.drv.no_of_pmkid s.drv.pmkid ops := by
  rw [pmkid_run_eq K ops s hup hc]
  simp [issued, pmkid_records_sent_map]

/-- Every record pushed by a sequence of cache operations respects the capacity. -/
theorem pmkid_run_records_bound (c : Int) (hc : 0 < c) (ops : List pmkid_op)
    (l : List ndis_pmkid_entry) :
    ∀ p ∈ pmkid_run_records c l ops,
      (p.BSSIDInfoCount : Int) ≤ c ∧ p.BSSIDInfo.length = p.BSSIDInfoCount := by
  induction ops generalizing l with
  | nil => simp [pmkid_run_records]
  | cons op rest ih =>
    intro p hp
    simp only [pmkid_run_records, List.mem_cons] at hp
    rcases hp with rfl | hp
    · obtain ⟨h1, _, h3, _⟩ := set_pmkid_record_full c (pmkid_step_list op l) hc
      exact ⟨by omega, h3⟩
    · exact ih _ p hp

/-- The last record pushed is built from the final cache. -/
theorem pmkid_run_records_getLast (c : Int) (ops : List pmkid_op) (l : List ndis_pmkid_entry)
    (hne : ops ≠ []) :
    (pmkid_run_records c l ops).getLast? = some (set_pmkid_record c (pmkid_run_list l ops)) := by
  induction ops generalizing l with
  | nil => exact absurd rfl hne
  | cons op rest ih =>
    cases rest with
    | nil => simp [pmkid_run_records, pmkid_run_list]
    | cons op2 rest2 =>
      have := ih (pmkid_step_list op l) (by simp)
      rw [pmkid_run_records, pmkid_run_list, ← this]
      simp [pmkid_run_records, List.getLast?_cons_cons]

/-- Adding pairwise distinct, uncached BSSIDs stacks them in front of the cache. -/
theorem pmkid_run_list_adds (adds : List (MacAddr × Pmkid)) (l : List ndis_pmkid_entry)
    (hnd : (adds.map Prod.fst).Nodup)
    (hdis : ∀ a ∈ adds, ∀ e ∈ l, e.bssid ≠ a.1) :
    pmkid_run_list l (adds.map fun a => pmkid_op.add a.1 a.2) =
      (adds.reverse.map fun a => ({ bssid := a.1, pmkid := a.2 } : ndis_pmkid_entry)) ++ l := by
  induction adds generalizing l with
  | nil => simp [pmkid_run_list]
  | cons a rest ih =>
    simp only [List.map_cons, List.nodup_cons] at hnd
    simp only [List.map_cons, pmkid_run_list, pmkid_step_list]
    rw [add_pmkid_list_absent a.1 a.2 l (fun e he => hdis a (List.mem_cons_self _ _) e he)]
    rw [ih _ hnd.2]
    · simp
    · intro x hx e he
      rcases List.mem_cons.mp he with rfl | he
      · intro h
        exact hnd.1 (List.mem_map.mpr ⟨x, hx, h.symm⟩)
      · exact hdis x (List.mem_cons_of_mem _ hx) e he

/-- State after `ralink_set_auth_mode`. -/
theorem ralink_set_auth_mode_fst (K : Kernel) (s : State) (m : NDIS_802_11_AUTHENTICATION_MODE) :
    (ralink_set_auth_mode K s m).1 = { s with calls := s.calls ++ [.authentication_mode m] } := by
  unfold ralink_set_auth_mode
  have h := ralink_set_oid_fst K s (.authentication_mode m)
  revert h
  cases ralink_set_oid K s (.authentication_mode m) with
  | mk a b => intro h; dsimp only at h ⊢; split <;> exact h

/-- State after `ralink_set_encr_type`. -/
theorem ralink_set_encr_type_fst (K : Kernel) (s : State) (e : NDIS_802_11_WEP_STATUS) :
    (ralink_set_encr_type K s e).1 = { s with calls := s.calls ++ [.wep_status e] } := by
  unfold ralink_set_encr_type
  have h := ralink_set_oid_fst K s (.wep_status e)
  revert h
  cases ralink_set_oid K s (.wep_status e) with
  | mk a b => intro h; dsimp only at h ⊢; split <;> exact h

/-- State after `wpa_driver_ralink_set_gen_ie`. -/
theorem set_gen_ie_fst (K : Kernel) (s : State) (ie : List u8) :
    (wpa_driver_ralink_set_gen_ie K s ie).1 = { s with calls := s.calls ++ [.gen_ie ie] } := by
  unfold wpa_driver_ralink_set_gen_ie ioctl
  dsimp only
  split <;> rfl

/-- State after `wpa_driver_ralink_set_ssid`. -/
theorem set_ssid_fst (K : Kernel) (s : State) (ssid : List u8) :
    (wpa_driver_ralink_set_ssid K s ssid).1 =
      { s with calls := s.calls ++
          [.ssid { SsidLength := ssid.length,
                   Ssid := ssid ++ List.replicate (32 - ssid.length) 0 }] } := by
  unfold wpa_driver_ralink_set_ssid ioctl
  dsimp only
  split <;> rfl

/-- Operations issued by `associate` outside the WPS branch, in order. -/
theorem associate_issued (CONFIG_WPS : Bool) (K : Kernel) (s : State)
    (params : wpa_driver_associate_params) (hup : s.drv.g_driver_down ≠ 1)
    (hn : ¬ (CONFIG_WPS = true ∧ params.key_mgmt_suite = .KEY_MGMT_WPS)) :
    issued s.calls.length (wpa_driver_ralink_associate CONFIG_WPS K s params).1 =
      [Request.infrastructure_mode
        (if params.mode = IEEE80211_MODE_IBSS then .Ndis802_11IBSS
         else .Ndis802_11Infrastructure)] ++
      (if CONFIG_WPS = true then
        [Request.wpa_supplicant_support (if s.drv.ap_scan = 1 then 0x01 else 0x02),
         Request.gen_ie []]
       else []) ++
      [Request.authentication_mode (associate_auth_mode params),
       Request.ieee8021x_require_key (associate_required_key s.bAddWepKey params),
       Request.ieee8021x (associate_ieee8021xMode params),
       Request.wep_status (associate_encr params)] ++
      (if associate_ieee8021xMode params = false ∧
          associate_encr params = .Ndis802_11Encryption1Enabled then
        [Request.drop_unencrypted 0]
       else []) ++
      [Request.ssid { SsidLength := params.ssid.length,
                      Ssid := params.ssid ++ List.replicate (32 - params.ssid.length) 0 }] := by
  unfold wpa_driver_ralink_associate
  rw [if_neg hup]
  simp only [if_neg hn, ralink_set_oid_fst, ralink_set_auth_mode_fst, ralink_set_encr_type_fst,
    set_gen_ie_fst, set_ssid_fst]
  cases CONFIG_WPS <;>
    by_cases hd : associate_ieee8021xMode params = false ∧
        associate_encr params = .Ndis802_11Encryption1Enabled <;>
    simp [hd, issued]

/-- What `associate` sends outside the WPS branch: one authentication mode, one
encryption level and one require-key flag. -/
theorem associate_sent_lists (CONFIG_WPS : Bool) (K : Kernel) (s : State)
    (params : wpa_driver_associate_params) (hup : s.drv.g_driver_down ≠ 1)
    (hn : ¬ (CONFIG_WPS = true ∧ params.key_mgmt_suite = .KEY_MGMT_WPS)) :
    auth_modes_sent (issued s.calls.length
        (wpa_driver_ralink_associate CONFIG_WPS K s params).1) = [associate_auth_mode params] ∧
    encr_levels_sent (issued s.calls.length
        (wpa_driver_ralink_associate CONFIG_WPS K s params).1) = [associate_encr params] ∧
    require_key_sent (issued s.calls.length
        (wpa_driver_ralink_associate CONFIG_WPS K s params).1) =
      [associate_required_key s.bAddWepKey params] := by
  rw [associate_issued CONFIG_WPS K s params hup hn]
  cases CONFIG_WPS <;>
    by_cases hd : associate_ieee8021xMode params = false ∧
        associate_encr params = .Ndis802_11Encryption1Enabled <;>
    simp [hd, auth_modes_sent, encr_levels_sent, require_key_sent]

/-- State after `wpa_driver_ralink_remove_key`: the remove-key record is appended to the log. -/
theorem remove_key_fst (K : Kernel) (s : State) (key_idx : Int) (addr : Option MacAddr)
    (bssid : MacAddr) (pairwise : Int) :
    (wpa_driver_ralink_remove_key K s key_idx addr bssid pairwise).1 =
      { s with calls := s.calls ++
          [.remove_key { Length := sizeof_NDIS_802_11_REMOVE_KEY,
                         KeyIndex := if pairwise ≠ 0 then to_u32 key_idx ||| 2 ^ 30
                                     else to_u32 key_idx,
                         BSSID := bssid }] } := by
  unfold wpa_driver_ralink_remove_key
  simp [ralink_set_oid_fst]

/-- Result of `wpa_driver_ralink_remove_key`: always 0. -/
theorem remove_key_snd (K : Kernel) (s : State) (key_idx : Int) (addr : Option MacAddr)
    (bssid : MacAddr) (pairwise : Int) :
    (wpa_driver_ralink_remove_key K s key_idx addr bssid pairwise).2 = 0 := by
  unfold wpa_driver_ralink_remove_key
  simp

/-- State after `wpa_driver_ralink_add_wep`: the add-WEP record is appended to the log. -/
theorem add_wep_fst (K : Kernel) (s : State) (pairwise key_idx set_tx : Int) (key : List u8) :
    (wpa_driver_ralink_add_wep K s pairwise key_idx set_tx key).1 =
      { s with calls := s.calls ++
          [.add_wep { Length := 12 + key.length,
                      KeyIndex := if set_tx ≠ 0 then to_u32 key_idx ||| 0x80000000
                                  else to_u32 key_idx,
                      KeyLength := key.length,
                      KeyMaterial := key }] } := by
  unfold wpa_driver_ralink_add_wep
  rw [ralink_set_oid_fst]

/-- The BSSID that `set_key` puts into its key record. -/
theorem set_key_state (K : Kernel) (s : State) (alg : wpa_alg) (addr : Option MacAddr)
    (key_idx set_tx : Int) (seq : Option (List u8)) (key : List u8)
    (hup : s.drv.g_driver_down ≠ 1) :
    (wpa_driver_ralink_set_key K s alg addr key_idx set_tx seq key).1.drv = s.drv ∧
    (wpa_driver_ralink_set_key K s alg addr key_idx set_tx seq key).1.bAddWepKey =
      decide (alg = .WPA_ALG_WEP ∧ key.length ≠ 0) := by
  unfold wpa_driver_ralink_set_key
  rw [if_neg hup]
  have hg := get_bssid_fst K { drv := s.drv, bAddWepKey := false, calls := s.calls }
    MacAddr.zero hup
  by_cases h1 : alg = .WPA_ALG_NONE ∨ key.length = 0
  · simp only [h1, if_true, remove_key_fst]
    cases set_key_group addr
    · refine ⟨rfl, ?_⟩
      rcases h1 with h | h
      · simp [h]
      · simp [h]
    · simp only [if_true, hg]
      refine ⟨trivial, ?_⟩
      rcases h1 with h | h
      · simp [h]
      · simp [h]
  · simp only [h1, if_false]
    have hk : key.length ≠ 0 := fun h => h1 (Or.inr h)
    by_cases h2 : alg = .WPA_ALG_WEP
    · simp only [h2, if_true, add_wep_fst]
      cases set_key_group addr
      · exact ⟨rfl, by simp [hk]⟩
      · simp only [if_true, hg]
        exact ⟨trivial, by simp [hk]⟩
    · simp only [h2, if_false, ralink_set_oid_fst]
      cases set_key_group addr
      · exact ⟨rfl, by simp [h2]⟩
      · simp only [if_true, hg]
        exact ⟨trivial, by simp [h2]⟩

/-- Result of `wpa_driver_ralink_set_ssid`: the status of its one operation. -/
theorem set_ssid_snd (K : Kernel) (s : State) (ssid : List u8) :
    (wpa_driver_ralink_set_ssid K s ssid).2 = if K.ioctl_ok s.calls.length then 0 else -1 := by
  unfold wpa_driver_ralink_set_ssid ioctl
  dsimp only
  cases K.ioctl_ok s.calls.length <;> simp

/-- Outside the down state `associate` ends with `wpa_driver_ralink_set_ssid`. -/
theorem associate_ends_with_set_ssid (CONFIG_WPS : Bool) (K : Kernel) (s : State)
    (params : wpa_driver_associate_params) (hup : s.drv.g_driver_down ≠ 1) :
    ∃ s2 : State,
      wpa_driver_ralink_associate CONFIG_WPS K s params =
        wpa_driver_ralink_set_ssid K s2 params.ssid := by
  unfold wpa_driver_ralink_associate
  rw [if_neg hup]
  exact ⟨_, rfl⟩

/-- Operations issued by `associate` in the WPS branch, in order. -/
theorem associate_issued_wps (K : Kernel) (s : State)
    (params : wpa_driver_associate_params) (hup : s.drv.g_driver_down ≠ 1)
    (hw : params.key_mgmt_suite = .KEY_MGMT_WPS) :
    issued s.calls.length (wpa_driver_ralink_associate true K s params).1 =
      [Request.infrastructure_mode
        (if params.mode = IEEE80211_MODE_IBSS then .Ndis802_11IBSS
         else .Ndis802_11Infrastructure),
       Request.wpa_supplicant_support 0x80,
       Request.gen_ie (params.wpa_ie.getD []),
       Request.authentication_mode .Ndis802_11AuthModeOpen,
       Request.wep_status .Ndis802_11EncryptionDisabled,
       Request.ssid { SsidLength := params.ssid.length,
                      Ssid := params.ssid ++ List.replicate (32 - params.ssid.length) 0 }] := by
  unfold wpa_driver_ralink_associate
  rw [if_neg hup]
  simp [hw, ralink_set_oid_fst, ralink_set_auth_mode_fst, ralink_set_encr_type_fst,
    set_gen_ie_fst, set_ssid_fst, issued]

/-- What `associate` sends outside the WPS branch: one 802.1X flag and at most one
drop-unencrypted operation. -/
theorem associate_sent_flags (CONFIG_WPS : Bool) (K : Kernel) (s : State)
    (params : wpa_driver_associate_params) (hup : s.drv.g_driver_down ≠ 1)
    (hn : ¬ (CONFIG_WPS = true ∧ params.key_mgmt_suite = .KEY_MGMT_WPS)) :
    ieee8021x_sent (issued s.calls.length
        (wpa_driver_ralink_associate CONFIG_WPS K s params).1) =
      [associate_ieee8021xMode params] ∧
    drop_unencrypted_sent (issued s.calls.length
        (wpa_driver_ralink_associate CONFIG_WPS K s params).1) =
      (if associate_ieee8021xMode params = false ∧
          associate_encr params = .Ndis802_11Encryption1Enabled then [0] else []) := by
  rw [associate_issued CONFIG_WPS K s params hup hn]
  cases CONFIG_WPS <;>
    by_cases hd : associate_ieee8021xMode params = false ∧
        associate_encr params = .Ndis802_11Encryption1Enabled <;>
    simp [hd, ieee8021x_sent, drop_unencrypted_sent]

/-- Operations issued by `set_key` on the removal path. -/
theorem set_key_remove_issued (K : Kernel) (s : State) (alg : wpa_alg) (addr : Option MacAddr)
    (key_idx set_tx : Int) (seq : Option (List u8)) (key : List u8)
    (hup : s.drv.g_driver_down ≠ 1) (hrm : alg = .WPA_ALG_NONE ∨ key.length = 0) :
    issued s.calls.length (wpa_driver_ralink_set_key K s alg addr key_idx set_tx seq key).1 =
      (if set_key_group addr then [Request.get_ap] else []) ++
        [.remove_key
          { Length := sizeof_NDIS_802_11_REMOVE_KEY,
            KeyIndex := if set_key_group addr then to_u32 key_idx
                        else to_u32 key_idx ||| 2 ^ 30,
            BSSID := if set_key_group addr then
                (wpa_driver_ralink_get_bssid K { s with bAddWepKey := false } MacAddr.zero).2.2
              else addr.getD MacAddr.zero }] := by
  unfold wpa_driver_ralink_set_key
  rw [if_neg hup]
  simp only [hrm, if_true, remove_key_fst]
  cases hg : set_key_group addr
  · simp [issued]
  · simp only [if_true]
    rw [get_bssid_fst K { drv := s.drv, bAddWepKey := false, calls := s.calls } MacAddr.zero hup]
    simp [issued]

/-- The BSSID that `get_bssid` delivers on an up driver. -/
theorem get_bssid_value (K : Kernel) (s : State) (b : MacAddr) (hup : s.drv.g_driver_down ≠ 1) :
    (wpa_driver_ralink_get_bssid K s b).2.2 =
      if K.ioctl_ok s.calls.length then K.ap_addr s.calls.length else MacAddr.zero := by
  unfold wpa_driver_ralink_get_bssid ioctl
  rw [if_neg hup]
  dsimp only
  cases K.ioctl_ok s.calls.length <;> simp

/-- The group-key test fails exactly for a peer address that is present and not broadcast. -/
theorem set_key_group_eq_false_iff (addr : Option MacAddr) :
    set_key_group addr = false ↔ ∃ a, addr = some a ∧ a ≠ MacAddr.broadcast := by
  unfold set_key_group
  cases addr with
  | none => simp
  | some a => simp

/-- Result of `set_key` on an up driver: 0 on the removal path, otherwise the status of the
add-WEP or add-key operation, which is the last one issued. -/
theorem set_key_result (K : Kernel) (s : State) (alg : wpa_alg) (addr : Option MacAddr)
    (key_idx set_tx : Int) (seq : Option (List u8)) (key : List u8)
    (hup : s.drv.g_driver_down ≠ 1) :
    (wpa_driver_ralink_set_key K s alg addr key_idx set_tx seq key).2 =
      if alg = .WPA_ALG_NONE ∨ key.length = 0 then 0
      else if K.ioctl_ok
          ((wpa_driver_ralink_set_key K s alg addr key_idx set_tx seq key).1.calls.length - 1)
        then 0 else -1 := by
  unfold wpa_driver_ralink_set_key
  rw [if_neg hup]
  have hg := get_bssid_fst K { drv := s.drv, bAddWepKey := false, calls := s.calls }
    MacAddr.zero hup
  by_cases h1 : alg = .WPA_ALG_NONE ∨ key.length = 0
  · simp only [h1, if_true, remove_key_snd]
  · simp only [h1, if_false]
    by_cases h2 : alg = .WPA_ALG_WEP
    · simp only [h2, if_true]
      unfold wpa_driver_ralink_add_wep
      simp only [ralink_set_oid_snd, ralink_set_oid_fst]
      cases set_key_group addr
      · simp
      · simp [hg]
    · simp only [h2, if_false, ralink_set_oid_snd, ralink_set_oid_fst]
      cases set_key_group addr
      · simp
      · simp [hg]

/-- For an index below 2^29, or-ing in a multiple of 2^29 adds it. -/
theorem or_high_bits (k a : Nat) (hk : k < 2 ^ 29) : k ||| 2 ^ 29 * a = k + 2 ^ 29 * a := by
  rw [Nat.or_comm, ← Nat.mul_add_lt_is_or hk a, Nat.add_comm]

/-- The index field of the add-key record for an index below 2^29: the three flag bits are
added to the index. -/
theorem key_index_flags (k : Nat) (hk : k < 2 ^ 29) (a b c : Prop) [Decidable a] [Decidable b]
    [Decidable c] :
    (if c then (if b then (if a then k ||| 2 ^ 31 else k) ||| 2 ^ 30
                else (if a then k ||| 2 ^ 31 else k)) ||| 2 ^ 29
     else (if b then (if a then k ||| 2 ^ 31 else k) ||| 2 ^ 30
           else (if a then k ||| 2 ^ 31 else k))) =
      k + (if a then 2 ^ 31 else 0) + (if b then 2 ^ 30 else 0) + (if c then 2 ^ 29 else 0) := by
  have e1 : (2 : Nat) ^ 31 = 2 ^ 29 * 4 := by norm_num
  have e2 : (2 : Nat) ^ 30 = 2 ^ 29 * 2 := by norm_num
  have e3 : (2 : Nat) ^ 29 = 2 ^ 29 * 1 := by norm_num
  by_cases ha : a <;> by_cases hb : b <;> by_cases hc : c <;>
    simp only [ha, hb, hc, if_true, if_false]
  all_goals
    first
      | omega
      | (rw [e1, or_high_bits _ _ hk]; omega)
      | (rw [e2, or_high_bits _ _ hk]; omega)
      | (rw [e3, or_high_bits _ _ hk]; omega)
      | (rw [Nat.or_assoc, show (2 ^ 31 ||| 2 ^ 30 : Nat) = 2 ^ 29 * 6 from by decide,
          or_high_bits _ _ hk]; omega)
      | (rw [Nat.or_assoc, show (2 ^ 31 ||| 2 ^ 29 : Nat) = 2 ^ 29 * 5 from by decide,
          or_high_bits _ _ hk]; omega)
      | (rw [Nat.or_assoc, show (2 ^ 30 ||| 2 ^ 29 : Nat) = 2 ^ 29 * 3 from by decide,
          or_high_bits _ _ hk]; omega)
      | (rw [Nat.or_assoc, Nat.or_assoc,
          show (2 ^ 31 ||| (2 ^ 30 ||| 2 ^ 29) : Nat) = 2 ^ 29 * 7 from by decide,
          or_high_bits _ _ hk]; omega)

/-- State after `ralink_get_new_driver_flag`: the query is appended to the log. -/
theorem get_new_driver_flag_fst (K : Kernel) (s : State) :
    (ralink_get_new_driver_flag K s).1 = { s with calls := s.calls ++ [.get_new_driver] } := by
  unfold ralink_get_new_driver_flag ioctl
  dsimp only
  split <;> rfl

/-- The operations of the table other than `set_key` leave `bAddWepKey` as it is. -/
theorem other_operations_keep_flag (K : Kernel) (s : State) :
    (∀ (CONFIG_WPS : Bool) (params : wpa_driver_associate_params),
      (wpa_driver_ralink_associate CONFIG_WPS K s params).1.bAddWepKey = s.bAddWepKey) ∧
    (∀ bssid pmkid, (wpa_driver_ralink_add_pmkid K s bssid pmkid).1.bAddWepKey = s.bAddWepKey) ∧
    (∀ bssid pmkid,
      (wpa_driver_ralink_remove_pmkid K s bssid pmkid).1.bAddWepKey = s.bAddWepKey) ∧
    (wpa_driver_ralink_flush_pmkid K s).1.bAddWepKey = s.bAddWepKey ∧
    (∀ bssid, (wpa_driver_ralink_get_bssid K s bssid).1.bAddWepKey = s.bAddWepKey) ∧
    (wpa_driver_ralink_get_ssid K s).1.bAddWepKey = s.bAddWepKey ∧
    (∀ enabled,
      (wpa_driver_ralink_set_countermeasures K s enabled).1.bAddWepKey = s.bAddWepKey) ∧
    (∀ ssid, (wpa_driver_ralink_scan K s ssid).1.bAddWepKey = s.bAddWepKey) ∧
    (∀ addr reason,
      (wpa_driver_ralink_disassociate K s addr reason).1.bAddWepKey = s.bAddWepKey) ∧
    (∀ addr reason,
      (wpa_driver_ralink_deauthenticate K s addr reason).1.bAddWepKey = s.bAddWepKey) ∧
    (∀ ies, (wpa_driver_ralink_set_probe_req_ie K s ies).bAddWepKey = s.bAddWepKey) ∧
    (∀ r, wpa_driver_ralink_get_scan_results2_fetch K s = some r →
      r.1.bAddWepKey = s.bAddWepKey) ∧
    (event_interface_down s).bAddWepKey = s.bAddWepKey := by
  have hbssid : ∀ (t : State) (b : MacAddr),
      (wpa_driver_ralink_get_bssid K t b).1.bAddWepKey = t.bAddWepKey := by
    intro t b
    unfold wpa_driver_ralink_get_bssid ioctl
    dsimp only
    split
    · rfl
    · split <;> rfl
  have hdis : ∀ (t : State) (a : MacAddr) (r : Int),
      (wpa_driver_ralink_disassociate K t a r).1.bAddWepKey = t.bAddWepKey := by
    intro t a r
    unfold wpa_driver_ralink_disassociate
    split
    · rfl
    · rw [ralink_set_oid_fst]
  have hscan : ∀ (fuel : Nat) (t : State) (len : Nat) (r : State × Option (List u8)),
      giwscan_loop K fuel t len = some r → r.1.bAddWepKey = t.bAddWepKey := by
    intro fuel
    induction fuel with
    | zero => intro t len r h; simp [giwscan_loop] at h
    | succ n ih =>
      intro t len r h
      unfold giwscan_loop at h
      split at h
      · split at h <;> (cases h; rfl)
      · split at h
        · have := ih _ _ _ h
          exact this
        · cases h; rfl
  refine ⟨?_, ?_, ?_, ?_, hbssid s, ?_, ?_, ?_, hdis s, ?_, ?_, ?_, rfl⟩
  · intro cfg params
    unfold wpa_driver_ralink_associate
    split
    · rfl
    · simp only [ralink_set_oid_fst, ralink_set_auth_mode_fst, ralink_set_encr_type_fst,
        set_gen_ie_fst, set_ssid_fst]
      split
      · rfl
      · split <;> split <;> rfl
  · intro b p
    unfold wpa_driver_ralink_add_pmkid wpa_driver_ralink_set_pmkid
    split
    · rfl
    · split
      · rfl
      · rw [ralink_set_oid_fst]
  · intro b p
    unfold wpa_driver_ralink_remove_pmkid wpa_driver_ralink_set_pmkid
    split
    · rfl
    · split
      · rfl
      · rw [ralink_set_oid_fst]
  · unfold wpa_driver_ralink_flush_pmkid
    split
    · rfl
    · split
      · rfl
      · rw [ralink_set_oid_fst]
  · unfold wpa_driver_ralink_get_ssid
    simp only [ioctl]
    split_ifs <;> first | rfl | exact hbssid _ _
  · intro e
    unfold wpa_driver_ralink_set_countermeasures
    split
    · rfl
    · rw [ralink_set_oid_fst]
  · intro ssid
    unfold wpa_driver_ralink_scan ioctl
    dsimp only
    split
    · rfl
    · split
      · rfl
      · split <;> rfl
  · intro a r
    unfold wpa_driver_ralink_deauthenticate
    have hf := get_new_driver_flag_fst K s
    rcases hq : ralink_get_new_driver_flag K s with ⟨s1, flag⟩
    rw [hq] at hf
    simp only at hf
    split
    · rfl
    · dsimp only
      split
      · rw [hdis, hf]
      · rw [ralink_set_oid_fst, hf]
  · intro ies
    unfold wpa_driver_ralink_set_probe_req_ie
    rw [ralink_set_oid_fst]
  · intro r h
    exact hscan _ _ _ r h

/-- With the down flag set, the operations that test it return -1 and leave the state,
the log included, as it is. -/
theorem down_operations_fail_fast (K : Kernel) (s : State) (hdown : s.drv.g_driver_down = 1) :
    (∀ bssid, (wpa_driver_ralink_get_bssid K s bssid).1 = s ∧
      (wpa_driver_ralink_get_bssid K s bssid).2.1 = -1) ∧
    ((wpa_driver_ralink_get_ssid K s).1 = s ∧ (wpa_driver_ralink_get_ssid K s).2.1 = -1) ∧
    (∀ alg addr key_idx set_tx seq key,
      wpa_driver_ralink_set_key K s alg addr key_idx set_tx seq key = (s, -1)) ∧
    (∀ enabled, wpa_driver_ralink_set_countermeasures K s enabled = (s, -1)) ∧
    (∀ ssid, wpa_driver_ralink_scan K s ssid = (s, -1)) ∧
    (∀ addr reason, wpa_driver_ralink_deauthenticate K s addr reason = (s, -1)) ∧
    (∀ addr reason, wpa_driver_ralink_disassociate K s addr reason = (s, -1)) ∧
    (∀ CONFIG_WPS params, wpa_driver_ralink_associate CONFIG_WPS K s params = (s, -1)) ∧
    (∀ bssid pmkid, wpa_driver_ralink_add_pmkid K s bssid pmkid = (s, -1)) ∧
    (∀ bssid pmkid, wpa_driver_ralink_remove_pmkid K s bssid pmkid = (s, -1)) ∧
    wpa_driver_ralink_flush_pmkid K s = (s, -1) := by
  refine ⟨?_, ?_, ?_, ?_, ?_, ?_, ?_, ?_, ?_, ?_, ?_⟩
  · intro b; unfold wpa_driver_ralink_get_bssid; rw [if_pos hdown]; exact ⟨rfl, rfl⟩
  · unfold wpa_driver_ralink_get_ssid; rw [if_pos hdown]; exact ⟨rfl, rfl⟩
  · intro alg addr key_idx set_tx seq key
    unfold wpa_driver_ralink_set_key; rw [if_pos hdown]
  · intro e; unfold wpa_driver_ralink_set_countermeasures; rw [if_pos hdown]
  · intro ssid; unfold wpa_driver_ralink_scan; rw [if_pos hdown]
  · intro a r; unfold wpa_driver_ralink_deauthenticate; rw [if_pos hdown]
  · intro a r; unfold wpa_driver_ralink_disassociate; rw [if_pos hdown]
  · intro c p; unfold wpa_driver_ralink_associate; rw [if_pos hdown]
  · intro b p; unfold wpa_driver_ralink_add_pmkid; rw [if_pos hdown]
  · intro b p; unfold wpa_driver_ralink_remove_pmkid; rw [if_pos hdown]
  · unfold wpa_driver_ralink_flush_pmkid; rw [if_pos hdown]

/-- The term `seq[i] << (i * 8)` for `i < 4` when the sign bit is not reached. -/
theorem seq_shift_small (b : u8) (i : Nat) (hi : i < 4) (hb : i = 3 → b.val < 128) :
    seq_shift b i = some (2 ^ (8 * i) * b.val) := by
  have hb256 : b.val < 256 := b.isLt
  unfold seq_shift
  rw [Nat.shiftLeft_eq]
  have h4 : i = 0 ∨ i = 1 ∨ i = 2 ∨ i = 3 := by omega
  rcases h4 with rfl | rfl | rfl | rfl
  · simp; split_ifs <;> omega
  · simp; split_ifs <;> omega
  · simp; split_ifs <;> omega
  · have := hb rfl
    simp; split_ifs <;> omega

/-- For a sequence counter of at most four octets whose fourth octet, if present, is below
0x80, the loop computes the little-endian integer of the octets. -/
theorem key_rsc_little_endian (a : u8) (rest : List u8) (hlen : rest.length ≤ 3)
    (h4 : ∀ d, rest[2]? = some d → d.val < 128) :
    key_rsc_loop (a :: rest) 0 0 =
      some (a.val + 256 * (rest.getD 0 0).val + 256 ^ 2 * (rest.getD 1 0).val +
        256 ^ 3 * (rest.getD 2 0).val) := by
  have ha : a.val < 2 ^ 8 := a.isLt
  have s0 := seq_shift_small a 0 (by omega) (by omega)
  match rest, hlen, h4 with
  | [], _, _ => simp [key_rsc_loop, s0]
  | [b], _, _ =>
    have hb : b.val < 2 ^ 8 := b.isLt
    have s1 := seq_shift_small b 1 (by omega) (by omega)
    simp only [key_rsc_loop, s0, s1, Option.bind_some, Option.some_bind]
    have e := Nat.mul_add_lt_is_or ha b.val
    simp at e ⊢
    rw [Nat.or_comm, ← e]; omega
  | [b, c], _, _ =>
    have hb : b.val < 2 ^ 8 := b.isLt
    have hc : c.val < 2 ^ 8 := c.isLt
    have s1 := seq_shift_small b 1 (by omega) (by omega)
    have s2 := seq_shift_small c 2 (by omega) (by omega)
    simp only [key_rsc_loop, s0, s1, s2, Option.bind_some, Option.some_bind]
    have e := Nat.mul_add_lt_is_or ha b.val
    have hab : 2 ^ 8 * b.val + a.val < 2 ^ 16 := by omega
    have e2 := Nat.mul_add_lt_is_or hab c.val
    simp at e e2 ⊢
    rw [Nat.or_comm a.val, ← e, Nat.or_comm _ (65536 * c.val), ← e2]; omega
  | [b, c, d], _, h4 =>
    have hb : b.val < 2 ^ 8 := b.isLt
    have hc : c.val < 2 ^ 8 := c.isLt
    have hd : d.val < 128 := h4 d rfl
    have s1 := seq_shift_small b 1 (by omega) (by omega)
    have s2 := seq_shift_small c 2 (by omega) (by omega)
    have s3 := seq_shift_small d 3 (by omega) (fun _ => hd)
    simp only [key_rsc_loop, s0, s1, s2, s3, Option.bind_some, Option.some_bind]
    have e := Nat.mul_add_lt_is_or ha b.val
    have hab : 2 ^ 8 * b.val + a.val < 2 ^ 16 := by omega
    have e2 := Nat.mul_add_lt_is_or hab c.val
    have habc : 2 ^ 16 * c.val + (2 ^ 8 * b.val + a.val) < 2 ^ 24 := by omega
    have e3 := Nat.mul_add_lt_is_or habc d.val
    simp at e e2 e3 ⊢
    rw [Nat.or_comm a.val, ← e, Nat.or_comm _ (65536 * c.val), ← e2,
      Nat.or_comm _ (16777216 * d.val), ← e3]; omega

/-- The `ioctl` result is 0 exactly when the driver accepts the operation. -/
theorem ioctl_snd_eq_zero (K : Kernel) (s : State) (r : Request) :
    (ioctl K s r).2 = 0 ↔ K.ioctl_ok s.calls.length = true := by
  unfold ioctl
  cases K.ioctl_ok s.calls.length <;> simp

/-- Run of the scan-dump loop entered with the size of query `k` (`k + m = 4`) and more
than `m` iterations of budget: it issues `q` queries with the sizes of queries
`k, k + 1, ...`, all but the last answered "buffer too small", and returns. -/
theorem giwscan_loop_run (K : Kernel) : ∀ (m k fuel : Nat) (s : State), k + m = 4 → m < fuel →
    ∃ (s1 : State) (r : Option (List u8)) (q : Nat),
      giwscan_loop K fuel s (min (4096 * 2 ^ k) 65535) = some (s1, r) ∧
      s1.drv = s.drv ∧ s1.bAddWepKey = s.bAddWepKey ∧
      s1.calls = s.calls ++
        (List.range q).map (fun j => Request.giwscan (min (4096 * 2 ^ (k + j)) 65535)) ∧
      1 ≤ q ∧ k + q ≤ 5 ∧
      (∀ j, j + 1 < q →
        K.ioctl_ok (s.calls.length + j) = false ∧ K.e2big (s.calls.length + j) = true) ∧
      (K.ioctl_ok (s.calls.length + (q - 1)) = true →
        r = if (K.data (s.calls.length + (q - 1))).length > min (4096 * 2 ^ (k + (q - 1))) 65535
            then none else some (K.data (s.calls.length + (q - 1)))) ∧
      (K.ioctl_ok (s.calls.length + (q - 1)) = false →
        r = none ∧ (K.e2big (s.calls.length + (q - 1)) = false ∨ k + q = 5)) := by
  intro m
  induction m with
  | zero =>
    intro k fuel s hk hf
    obtain ⟨f, rfl⟩ : ∃ f, fuel = f + 1 := ⟨fuel - 1, by omega⟩
    have hk4 : k = 4 := by omega
    subst hk4
    have hsz : min (4096 * 2 ^ 4) 65535 = 65535 := by decide
    rw [hsz]
    unfold giwscan_loop
    by_cases hok : K.ioctl_ok s.calls.length = true
    · rw [if_pos ((ioctl_snd_eq_zero K s _).2 hok)]
      refine ⟨(ioctl K s (.giwscan 65535)).1,
        (if (K.data s.calls.length).length > 65535 then none else some (K.data s.calls.length)),
        1, ?_, rfl, rfl, ?_, le_refl _, le_refl _, ?_, ?_, ?_⟩
      · split_ifs <;> rfl
      · simp [ioctl, List.range_succ]
      · intro j hj; omega
      · intro _; simp
      · intro h; simp at h; rw [hok] at h; exact absurd h (by decide)
    · rw [if_neg (fun h => hok ((ioctl_snd_eq_zero K s _).1 h))]
      rw [if_neg (by omega)]
      refine ⟨(ioctl K s (.giwscan 65535)).1, none, 1, rfl, rfl, rfl, ?_, le_refl _, le_refl _,
        ?_, ?_, ?_⟩
      · simp [ioctl, List.range_succ]
      · intro j hj; omega
      · intro h; simp at h; exact absurd h hok
      · intro _; exact ⟨rfl, Or.inr rfl⟩
  | succ m ih =>
    intro k fuel s hk hf
    obtain ⟨f, rfl⟩ : ∃ f, fuel = f + 1 := ⟨fuel - 1, by omega⟩
    have hk3 : k ≤ 3 := by omega
    have hlt : min (4096 * 2 ^ k) 65535 < 65535 := by
      interval_cases k <;> decide
    have hnext : (if min (4096 * 2 ^ k) 65535 * 2 > 65535 then 65535
        else min (4096 * 2 ^ k) 65535 * 2) = min (4096 * 2 ^ (k + 1)) 65535 := by
      interval_cases k <;> decide
    unfold giwscan_loop
    by_cases hok : K.ioctl_ok s.calls.length = true
    · rw [if_pos ((ioctl_snd_eq_zero K s _).2 hok)]
      refine ⟨(ioctl K s (.giwscan (min (4096 * 2 ^ k) 65535))).1,
        (if (K.data s.calls.length).length > min (4096 * 2 ^ k) 65535 then none
          else some (K.data s.calls.length)),
        1, ?_, rfl, rfl, ?_, le_refl _, by omega, ?_, ?_, ?_⟩
      · split_ifs <;> rfl
      · simp [ioctl, List.range_succ]
      · intro j hj; omega
      · intro _; simp
      · intro h; simp at h; rw [hok] at h; exact absurd h (by decide)
    · rw [if_neg (fun h => hok ((ioctl_snd_eq_zero K s _).1 h))]
      by_cases hbig : K.e2big s.calls.length = true
      · rw [if_pos ⟨hbig, hlt⟩, hnext]
        obtain ⟨s1, r, q, hrun, hdrv, hwep, hcalls, hq1, hq5, hpre, hokl, hfail⟩ :=
          ih (k + 1) f (ioctl K s (.giwscan (min (4096 * 2 ^ k) 65535))).1 (by omega) (by omega)
        have hlen : (ioctl K s (.giwscan (min (4096 * 2 ^ k) 65535))).1.calls.length
            = s.calls.length + 1 := by simp [ioctl]
        rw [hlen] at hpre hokl hfail
        have hidx : s.calls.length + 1 + (q - 1) = s.calls.length + (q + 1 - 1) := by omega
        have hexp : k + 1 + (q - 1) = k + (q + 1 - 1) := by omega
        rw [hidx] at hokl hfail
        rw [hexp] at hokl
        refine ⟨s1, r, q + 1, hrun, ?_, ?_, ?_, by omega, by omega, ?_, hokl, ?_⟩
        · rw [hdrv]; rfl
        · rw [hwep]; rfl
        · rw [hcalls, List.range_succ_eq_map]
          simp [ioctl, Function.comp_def, Nat.add_assoc, Nat.add_comm 1]
        · intro j hj
          rcases j with _ | j
          · simp only [Nat.add_zero]
            exact ⟨by simpa using hok, hbig⟩
          · have := hpre j (by omega)
            rw [show s.calls.length + (j + 1) = s.calls.length + 1 + j by omega]
            exact this
        · intro h
          obtain ⟨h1, h2⟩ := hfail h
          refine ⟨h1, ?_⟩
          rcases h2 with h2 | h2
          · exact Or.inl h2
          · exact Or.inr (by omega)
      · rw [if_neg (fun h => hbig h.1)]
        refine ⟨(ioctl K s (.giwscan (min (4096 * 2 ^ k) 65535))).1, none, 1, rfl, rfl, rfl, ?_,
          le_refl _, by omega, ?_, ?_, ?_⟩
        · simp [ioctl, List.range_succ]
        · intro j hj; omega
        · intro h; simp at h; exact absurd h hok
        · intro _; exact ⟨rfl, Or.inl (by simpa using hbig)⟩

/-- Well-formed buffers are closed under concatenation. -/
theorem tlv_well_formed_append (a b : List u8) (ha : tlv_well_formed a)
    (hb : tlv_well_formed b) : tlv_well_formed (a ++ b) := by
  induction ha with
  | nil => simpa using hb
  | cons tag len value rest hlen _ ih =>
    have : tag :: len :: (value ++ rest) ++ b = tag :: len :: (value ++ (rest ++ b)) := by
      simp
    rw [this]
    exact tlv_well_formed.cons tag len value (rest ++ b) hlen ih

/-- On a well-formed buffer the element list covers the whole buffer. -/
theorem tlv_elements_aux_complete (raw : List u8) (h : tlv_well_formed raw) :
    ∀ fuel, raw.length ≤ fuel →
      ((tlv_elements_aux fuel raw).map
        fun e => e.1 :: (⟨e.2.length % 256, Nat.mod_lt _ (by decide)⟩ : u8) :: e.2).flatten
        = raw := by
  induction h with
  | nil => intro fuel _; cases fuel <;> rfl
  | cons tag len value rest hlen _ ih =>
    intro fuel hf
    obtain ⟨f, rfl⟩ : ∃ f, fuel = f + 1 := ⟨fuel - 1, by simp at hf; omega⟩
    have h1 : len.val ≤ (value ++ rest).length := by simp [hlen]
    have h2 : (value ++ rest).take len.val = value := by
      rw [← hlen]; exact List.take_left' rfl
    have h3 : (value ++ rest).drop len.val = rest := by
      rw [← hlen]; exact List.drop_left' rfl
    simp only [tlv_elements_aux, h1, if_true, h2, h3, List.map_cons, List.flatten_cons]
    rw [ih f (by simp at hf; omega)]
    have h4 : (⟨value.length % 256, Nat.mod_lt _ (by decide)⟩ : u8) = len := by
      apply Fin.ext
      show value.length % 256 = len.val
      rw [hlen]; exact Nat.mod_eq_of_lt len.isLt
    rw [h4]; simp

/-- The scanning loop of `add_scan_entry` and the element list of the specification move
in lockstep: a pointer is still `NULL` after the loop exactly when it was `NULL` before and
no element from `pos` on carries one of its tags. -/
theorem add_scan_entry_loop_spec (ie : List u8) : ∀ (fuel pos : Nat) (a b : Option Nat),
    ((add_scan_entry_loop ie fuel pos a b).1 = none ↔
      a = none ∧ ∀ e ∈ tlv_elements_aux fuel (ie.drop pos), e.1 ≠ 0) ∧
    ((add_scan_entry_loop ie fuel pos a b).2 = none ↔
      b = none ∧ ∀ e ∈ tlv_elements_aux fuel (ie.drop pos), e.1 ≠ 1 ∧ e.1 ≠ 50) := by
  intro fuel
  induction fuel with
  | zero => intro pos a b; simp [add_scan_entry_loop, tlv_elements_aux]
  | succ f ih =>
    intro pos a b
    unfold add_scan_entry_loop
    by_cases h1 : pos + 1 < ie.length
    · have hd : ie.drop pos = ie.getD pos 0 :: ie.getD (pos + 1) 0 :: ie.drop (pos + 2) := by
        rw [List.drop_eq_getElem_cons (by omega : pos < ie.length),
          List.drop_eq_getElem_cons h1]
        simp [List.getD_eq_getElem, h1, (by omega : pos < ie.length)]
      have hlen : (ie.drop (pos + 2)).length = ie.length - (pos + 2) := by simp
      rw [if_pos h1, hd]
      generalize ie.getD pos 0 = tag
      generalize ie.getD (pos + 1) 0 = len
      by_cases h2 : pos + 2 + len.val > ie.length
      · have h2n : ¬ len.val ≤ (ie.drop (pos + 2)).length := by
          rw [hlen]; omega
        have hE : tlv_elements_aux (f + 1) (tag :: len :: ie.drop (pos + 2)) = [] := by
          rw [tlv_elements_aux, if_neg h2n]
        rw [if_pos h2, hE]
        simp
      · have h2p : len.val ≤ (ie.drop (pos + 2)).length := by
          rw [hlen]; omega
        have hdd : (ie.drop (pos + 2)).drop len.val = ie.drop (pos + 2 + len.val) := by
          rw [List.drop_drop]
        have hE : tlv_elements_aux (f + 1) (tag :: len :: ie.drop (pos + 2)) =
            (tag, (ie.drop (pos + 2)).take len.val) ::
              tlv_elements_aux f (ie.drop (pos + 2 + len.val)) := by
          rw [tlv_elements_aux, if_pos h2p, hdd]
        rw [if_neg h2, hE]
        simp only [List.mem_cons, forall_eq_or_imp]
        have hv0 : tag.val = WLAN_EID_SSID ↔ tag = 0 := by
          rw [Fin.ext_iff]; rfl
        have hv1 : tag.val = WLAN_EID_SUPP_RATES ↔ tag = 1 := by
          rw [Fin.ext_iff]; rfl
        have hv2 : tag.val = WLAN_EID_EXT_SUPP_RATES ↔ tag = 50 := by
          rw [Fin.ext_iff]; rfl
        by_cases t0 : tag = 0
        · rw [if_pos (hv0.2 t0)]
          have := ih (pos + 2 + len.val) (some pos) b
          rw [this.1, this.2]
          subst t0
          simp
        · rw [if_neg (fun h => t0 (hv0.1 h))]
          by_cases t1 : tag = 1
          · rw [if_pos (hv1.2 t1)]
            have := ih (pos + 2 + len.val) a (some pos)
            rw [this.1, this.2]
            subst t1
            simp
          · rw [if_neg (fun h => t1 (hv1.1 h))]
            by_cases t2 : tag = 50
            · rw [if_pos (hv2.2 t2)]
              have := ih (pos + 2 + len.val) a (some pos)
              rw [this.1, this.2]
              subst t2
              simp
            · rw [if_neg (fun h => t2 (hv2.1 h))]
              have := ih (pos + 2 + len.val) a b
              rw [this.1, this.2]
              simp [t0, t1, t2]
    · rw [if_neg h1]
      have hshort : (ie.drop pos).length ≤ 1 := by simp; omega
      have : tlv_elements_aux (f + 1) (ie.drop pos) = [] := by
        rcases hl : ie.drop pos with _ | ⟨x, _ | ⟨y, t⟩⟩
        · rfl
        · rfl
        · rw [hl] at hshort; simp at hshort
      rw [this]; simp

/-- A 16-bit field is below `2 ^ 16`. -/
theorem get_u16_lt (b : List u8) (off : Nat) : get_u16 b off < 65536 := by
  unfold get_u16
  have h1 := (b.getD off 0).isLt
  have h2 := (b.getD (off + 1) 0).isLt
  omega

/-- A 32-bit field is below `2 ^ 32`. -/
theorem get_u32_lt (b : List u8) (off : Nat) : get_u32 b off < 2 ^ 32 := by
  unfold get_u32
  have h1 := get_u16_lt b off
  have h2 := get_u16_lt b (off + 2)
  omega

/-- Where `size_t` is wide enough for `8 + NumCandidates * sizeof(PMKID_CANDIDATE)` not to
wrap around, `event_pmkid` emits no event and reads no candidate when the payload is
shorter than 8 bytes, when the version is not 1, or when the declared candidates do not
fit into the payload. -/
theorem event_pmkid_rejects (A : NdisLayout) (data : List u8)
    (hwide : 8 + 2 ^ 32 * A.sizeof_PMKID_CANDIDATE ≤ 2 ^ A.size_t_bits)
    (h : data.length < 8 ∨ get_u32 data 0 ≠ 1 ∨
      data.length < 8 + get_u32 data 4 * A.sizeof_PMKID_CANDIDATE) :
    wpa_driver_ralink_event_pmkid A data = ([], none) := by
  unfold wpa_driver_ralink_event_pmkid
  by_cases h1 : data.length < 8
  · rw [if_pos h1]
  · rw [if_neg h1]
    by_cases h2 : get_u32 data 0 ≠ 1
    · rw [if_pos h2]
    · rw [if_neg h2]
      have h3 : data.length < 8 + get_u32 data 4 * A.sizeof_PMKID_CANDIDATE := by
        rcases h with h | h | h
        · exact absurd h h1
        · exact absurd h h2
        · exact h
      have hlt := get_u32_lt data 4
      have hmul : get_u32 data 4 * A.sizeof_PMKID_CANDIDATE
          ≤ 2 ^ 32 * A.sizeof_PMKID_CANDIDATE :=
        Nat.mul_le_mul_right _ (le_of_lt hlt)
      have hmul2 : get_u32 data 4 * A.sizeof_PMKID_CANDIDATE + A.sizeof_PMKID_CANDIDATE
          ≤ 2 ^ 32 * A.sizeof_PMKID_CANDIDATE := by
        have : (get_u32 data 4 + 1) * A.sizeof_PMKID_CANDIDATE
            ≤ 2 ^ 32 * A.sizeof_PMKID_CANDIDATE := Nat.mul_le_mul_right _ hlt
        rw [Nat.add_mul, Nat.one_mul] at this
        exact this
      by_cases hz : A.sizeof_PMKID_CANDIDATE = 0
      · rw [hz] at h3
        simp at h3
        exact absurd h3 h1
      · have hmod : (8 + get_u32 data 4 * A.sizeof_PMKID_CANDIDATE) % 2 ^ A.size_t_bits
            = 8 + get_u32 data 4 * A.sizeof_PMKID_CANDIDATE := by
          apply Nat.mod_eq_of_lt
          have : 0 < A.sizeof_PMKID_CANDIDATE := Nat.pos_of_ne_zero hz
          generalize get_u32 data 4 * A.sizeof_PMKID_CANDIDATE = x at *
          generalize 2 ^ 32 * A.sizeof_PMKID_CANDIDATE = y at *
          generalize 2 ^ A.size_t_bits = z at *
          omega
        rw [hmod, if_pos h3]

/-- The candidate loop on a payload that holds all the candidates it is asked to visit:
one event per candidate, in order, and no read outside the payload. -/
theorem event_pmkid_loop_ok (A : NdisLayout) (data : List u8)
    (hA1 : ETH_ALEN ≤ A.sizeof_PMKID_CANDIDATE)
    (hA2 : A.Flags_offset + 4 ≤ A.sizeof_PMKID_CANDIDATE) :
    ∀ (remaining i : Nat), 8 + (i + remaining) * A.sizeof_PMKID_CANDIDATE ≤ data.length →
      event_pmkid_loop A data remaining i =
        ((List.range remaining).map fun j =>
            wpa_event.EVENT_PMKID_CANDIDATE
              (mac_at data (8 + (i + j) * A.sizeof_PMKID_CANDIDATE)) (i + j)
              (get_u32 data (8 + (i + j) * A.sizeof_PMKID_CANDIDATE + A.Flags_offset) &&&
                NDIS_802_11_PMKID_CANDIDATE_PREAUTH_ENABLED),
         none) := by
  intro remaining
  induction remaining with
  | zero => intro i _; rfl
  | succ n ih =>
    intro i hfit
    have e1 : (i + (n + 1)) * A.sizeof_PMKID_CANDIDATE
        = i * A.sizeof_PMKID_CANDIDATE + n * A.sizeof_PMKID_CANDIDATE
          + A.sizeof_PMKID_CANDIDATE := by
      rw [Nat.add_mul, Nat.add_mul, Nat.one_mul, Nat.add_assoc]
    have b1 : ¬ 8 + i * A.sizeof_PMKID_CANDIDATE + ETH_ALEN > data.length := by
      rw [e1] at hfit
      generalize i * A.sizeof_PMKID_CANDIDATE = x at *
      generalize n * A.sizeof_PMKID_CANDIDATE = y at *
      omega
    have b2 : ¬ 8 + i * A.sizeof_PMKID_CANDIDATE + A.Flags_offset + 4 > data.length := by
      rw [e1] at hfit
      generalize i * A.sizeof_PMKID_CANDIDATE = x at *
      generalize n * A.sizeof_PMKID_CANDIDATE = y at *
      omega
    have hnext : 8 + (i + 1 + n) * A.sizeof_PMKID_CANDIDATE ≤ data.length := by
      rw [show i + 1 + n = i + (n + 1) by omega]; exact hfit
    unfold event_pmkid_loop
    rw [if_neg b1, if_neg b2, ih (i + 1) hnext, List.range_succ_eq_map]
    simp only [List.map_cons, List.map_map, Nat.add_zero]
    congr 2
    apply List.map_congr_left
    intro j _
    simp only [Function.comp_apply]
    rw [show i + 1 + j = i + (j + 1) by omega]

/-- With a request and a response stashed under their own lengths, the combined buffer is
the request bytes, the response bytes and one NUL. -/
theorem assoc_info_buf_stashed (drv : wpa_driver_ralink_data) (req resp : List u8)
    (h1 : drv.assoc_req_ies = some req) (h2 : drv.assoc_req_ies_len = req.length)
    (h3 : drv.assoc_resp_ies = some resp) (h4 : drv.assoc_resp_ies_len = resp.length) :
    assoc_info_buf drv = .ok (req ++ resp ++ [0]) := by
  unfold assoc_info_buf
  rw [h1, h2, h3, h4]
  have m1 : memread req 0 req.length = .ok req := by simp [memread]
  have m2 : memread resp 0 resp.length = .ok resp := by simp [memread]
  have b1 : blit (List.replicate (req.length + resp.length + 1) (0 : u8)) 0 req
      = req ++ List.replicate (resp.length + 1) 0 := by
    simp [blit, Nat.add_assoc]
  have b2 : blit (req ++ List.replicate (resp.length + 1) (0 : u8)) req.length resp
      = req ++ resp ++ [0] := by
    simp [blit, List.take_append_eq_append_take, List.drop_append_eq_append_drop]
  have b3 : blit (req ++ resp ++ [0]) (req.length + resp.length) [(0 : u8)]
      = req ++ resp ++ [0] := by
    have hlen : (req ++ resp).length = req.length + resp.length := by simp
    unfold blit
    rw [← hlen, List.take_left' rfl, List.drop_eq_nil_of_le (by simp; omega)]
    simp
  simp only [m1, m2, Except.map, Except.bind, b1, b2, b3]

/-- A successful `memread` returns as many bytes as were asked for. -/
theorem memread_length (data : List u8) (off n : Nat) (bytes : List u8)
    (h : memread data off n = .ok bytes) : bytes.length = n := by
  unfold memread at h
  split_ifs at h with hle
  · cases h
    simp
    omega

/-- Every custom record the decoding loop hands to the dispatch carries as many payload
bytes as its `u.data.length` field says. -/
theorem event_wireless_loop_payload_length (L : Layout) (we : Int) (data : List u8)
    (end_ : Nat) :
    ∀ (fuel pos : Nat) (iwe_buf : List u8) (recs : List iw_record),
      event_wireless_loop L we data end_ fuel pos iwe_buf = .ok recs →
      ∀ r ∈ recs, r.payload.length = iwe_data_length L r.iwe_buf := by
  intro fuel
  induction fuel with
  | zero => intro pos iwe_buf recs h; simp [event_wireless_loop] at h
  | succ f ih =>
    intro pos iwe_buf recs h
    unfold event_wireless_loop at h
    split_ifs at h with h1
    · rcases hm : memread data pos L.IW_EV_LCP_LEN with e | hdr
      · rw [hm] at h; simp [Except.bind] at h
      · rw [hm] at h
        simp only [Except.bind] at h
        split_ifs at h with h2
        · cases h; simp
        · rcases hc : iw_copy_event L data pos (blit iwe_buf 0 hdr)
              (decide (we > 18) && decide (iwe_cmd (blit iwe_buf 0 hdr) = IWEVCUSTOM))
            with e | ⟨iwe2, custom⟩
          · rw [hc] at h; simp at h
          · rw [hc] at h
            simp only at h
            split_ifs at h with h3 h4
            · cases h; simp
            · rcases hp : memread data custom (iwe_data_length L iwe2) with e | buf
              · rw [hp] at h; simp [Except.bind] at h
              · rw [hp] at h
                simp only [Except.bind] at h
                rcases hr : event_wireless_loop L we data end_ f (pos + iwe_len iwe2) iwe2
                  with e | rest
                · rw [hr] at h; simp [Except.map] at h
                · rw [hr] at h
                  simp only [Except.map] at h
                  cases h
                  intro r hr2
                  rcases List.mem_cons.1 hr2 with rfl | hr2
                  · exact memread_length _ _ _ _ hp
                  · exact ih _ _ _ hr r hr2
            · exact ih _ _ _ h
    · cases h; simp

/-- Erasing a node leaves no node with a BSSID that was not there before. -/
theorem eraseP_bssid_subset (l : List ndis_pmkid_entry) (q : ndis_pmkid_entry → Bool)
    (b : MacAddr) (h : b ∈ (l.eraseP q).map fun e => e.bssid) :
    b ∈ l.map fun e => e.bssid := by
  obtain ⟨e, he, hb⟩ := List.mem_map.1 h
  exact List.mem_map.2 ⟨e, List.mem_of_mem_eraseP he, hb⟩

/-- With pairwise distinct BSSIDs, erasing the first node of a BSSID leaves no node of
that BSSID. -/
theorem eraseP_bssid_absent (b : MacAddr) :
    ∀ l : List ndis_pmkid_entry, (l.map fun e => e.bssid).Nodup →
      b ∉ (l.eraseP fun e => decide (e.bssid = b)).map fun e => e.bssid := by
  intro l
  induction l with
  | nil => intro _; simp
  | cons e rest ih =>
    intro hnd
    rw [List.map_cons, List.nodup_cons] at hnd
    by_cases he : e.bssid = b
    · rw [List.eraseP_cons_of_pos (by simpa using he)]
      rw [← he]; exact hnd.1
    · rw [List.eraseP_cons_of_neg (by simpa using he), List.map_cons, List.mem_cons]
      intro h
      rcases h with h | h
      · exact he h.symm
      · exact ih hnd.2 h

/-- Erasing a node keeps the BSSIDs pairwise distinct. -/
theorem eraseP_bssid_nodup (l : List ndis_pmkid_entry) (q : ndis_pmkid_entry → Bool)
    (h : (l.map fun e => e.bssid).Nodup) : ((l.eraseP q).map fun e => e.bssid).Nodup :=
  List.Nodup.sublist ((List.eraseP_sublist l).map _) h

/-- Every cache operation keeps the BSSIDs of the list pairwise distinct. -/
theorem pmkid_step_list_nodup (op : pmkid_op) (l : List ndis_pmkid_entry)
    (h : (l.map fun e => e.bssid).Nodup) :
    ((pmkid_step_list op l).map fun e => e.bssid).Nodup := by
  cases op with
  | add b p =>
    show ((add_pmkid_list b p l).map fun e => e.bssid).Nodup
    by_cases hp : ∃ e ∈ l, e.bssid = b
    · rw [add_pmkid_list_present b p l hp, List.map_cons, List.nodup_cons]
      exact ⟨eraseP_bssid_absent b l h, eraseP_bssid_nodup l _ h⟩
    · have ha : ∀ e ∈ l, e.bssid ≠ b := fun e he hb => hp ⟨e, he, hb⟩
      rw [add_pmkid_list_absent b p l ha, List.map_cons, List.nodup_cons]
      refine ⟨?_, h⟩
      intro hmem
      obtain ⟨e, he, hb⟩ := List.mem_map.1 hmem
      exact ha e he hb
  | remove b p =>
    show ((remove_pmkid_loop b p l false []).map fun e => e.bssid).Nodup
    rw [remove_pmkid_loop_eq]
    cases l with
    | nil => simp
    | cons e rest =>
      rw [List.map_cons, List.nodup_cons] at h
      simp only
      split_ifs
      · exact h.2
      · simp
  | flush => simp [pmkid_step_list]

/-- One cache operation either leaves the state as it is (driver down or capacity 0) or
replaces the list by `pmkid_step_list`. -/
theorem pmkid_step_pmkid (K : Kernel) (s : State) (op : pmkid_op) :
    (pmkid_step K s op).drv.pmkid = s.drv.pmkid ∨
    (pmkid_step K s op).drv.pmkid = pmkid_step_list op s.drv.pmkid := by
  by_cases hup : s.drv.g_driver_down = 1
  · left
    cases op <;>
      simp [pmkid_step, wpa_driver_ralink_add_pmkid, wpa_driver_ralink_remove_pmkid,
        wpa_driver_ralink_flush_pmkid, hup]
  · by_cases hc : s.drv.no_of_pmkid = 0
    · left
      cases op <;>
        simp [pmkid_step, wpa_driver_ralink_add_pmkid, wpa_driver_ralink_remove_pmkid,
          wpa_driver_ralink_flush_pmkid, hup, hc]
    · right
      rw [pmkid_step_eq K s op hup hc]

/-- For every length field from 16 up to `2 ^ 31 - 1` the attribute length of line 731 is
the total message length minus the aligned interface-info header only: the 16 bytes of the
message header are not taken off. -/
theorem rtm_newlink_attrlen_eq (nlmsg_len : Nat) (h1 : 16 ≤ nlmsg_len)
    (h2 : nlmsg_len < 2 ^ 31) :
    rtm_newlink_attrlen nlmsg_len = (nlmsg_len : Int) - NLMSG_ALIGN sizeof_ifinfomsg := by
  have ha : NLMSG_ALIGN sizeof_ifinfomsg = 16 := by decide
  unfold rtm_newlink_attrlen to_s32
  rw [ha]
  have hm : (nlmsg_len + 2 ^ 32 - (16 : Int).toNat) % 2 ^ 32 = nlmsg_len - 16 := by
    have : (16 : Int).toNat = 16 := rfl
    rw [this]
    omega
  rw [hm, if_pos (by omega)]
  omega

/-- Bytes read inside a buffer are the same bytes in every extension of the buffer. -/
theorem memread_append (pre rest : List u8) (off n : Nat) (bytes : List u8)
    (h : memread pre off n = .ok bytes) : memread (pre ++ rest) off n = .ok bytes := by
  unfold memread at h ⊢
  split_ifs at h with hle
  have hle2 : off + n ≤ (pre ++ rest).length := by simp; omega
  rw [if_pos hle2]
  cases h
  congr 1
  rw [List.drop_append_of_le_length (by omega), List.take_append_of_le_length (by simp; omega)]

/-- A read that fits into the buffer succeeds. -/
theorem memread_ok (data : List u8) (off n : Nat) (h : off + n ≤ data.length) :
    memread data off n = .ok ((data.drop off).take n) := by
  unfold memread
  rw [if_pos h]

/-- A failed read is never a shortage of iteration budget. -/
theorem memread_ne_out_of_fuel (data : List u8) (off n : Nat) :
    memread data off n ≠ .error .out_of_fuel := by
  unfold memread
  split_ifs <;> simp

/-- The structure copy of an iteration gives the same result in every extension of a
buffer in which it succeeds. -/
theorem iw_copy_event_append (L : Layout) (pre rest : List u8) (pos : Nat) (iwe_buf : List u8)
    (we19 : Bool) (r : List u8 × Nat) (h : iw_copy_event L pre pos iwe_buf we19 = .ok r) :
    iw_copy_event L (pre ++ rest) pos iwe_buf we19 = .ok r := by
  unfold iw_copy_event at h ⊢
  cases we19
  · simp only [Bool.false_eq_true, if_false] at h ⊢
    rcases hm : memread pre pos L.sizeof_iw_event with e | bytes
    · rw [hm] at h; simp [Except.map] at h
    · rw [hm] at h; rw [memread_append pre rest _ _ _ hm]; exact h
  · simp only [if_true] at h ⊢
    rcases hm : memread pre (pos + L.IW_EV_LCP_LEN) (L.sizeof_iw_event - L.dlen) with e | bytes
    · rw [hm] at h; simp [Except.map] at h
    · rw [hm] at h; rw [memread_append pre rest _ _ _ hm]; exact h

/-- A failed structure copy is never a shortage of iteration budget. -/
theorem iw_copy_event_ne_out_of_fuel (L : Layout) (data : List u8) (pos : Nat)
    (iwe_buf : List u8) (we19 : Bool) :
    iw_copy_event L data pos iwe_buf we19 ≠ .error .out_of_fuel := by
  unfold iw_copy_event
  cases we19
  · simp only [Bool.false_eq_true, if_false]
    rcases hm : memread data pos L.sizeof_iw_event with e | bytes
    · have := memread_ne_out_of_fuel data pos L.sizeof_iw_event
      rw [hm] at this
      simpa [Except.map] using this
    · simp [Except.map]
  · simp only [if_true]
    rcases hm : memread data (pos + L.IW_EV_LCP_LEN) (L.sizeof_iw_event - L.dlen) with e | bytes
    · have := memread_ne_out_of_fuel data (pos + L.IW_EV_LCP_LEN) (L.sizeof_iw_event - L.dlen)
      rw [hm] at this
      simpa [Except.map] using this
    · simp [Except.map]

/-- A 16-bit field at an offset inside the first part of a list. -/
theorem get_u16_append_left (a b : List u8) (off : Nat) (h : off + 2 ≤ a.length) :
    get_u16 (a ++ b) off = get_u16 a off := by
  unfold get_u16
  rw [List.getD_append _ _ _ _ (by omega), List.getD_append _ _ _ _ (by omega)]

/-- The 16-bit field at the start of a slice of a buffer. -/
theorem get_u16_slice (data : List u8) (pos n : Nat) (hn : 2 ≤ n) :
    get_u16 ((data.drop pos).take n) 0 = get_u16 data pos := by
  unfold get_u16
  simp only [List.getD_eq_getElem?_getD, List.getElem?_take, List.getElem?_drop]
  rw [if_pos (by omega), if_pos (by omega)]
  simp

/-- The length field of the local copy after the header copy is the length field of the
record at the cursor. -/
theorem iwe_len_header (L : Layout) (data : List u8) (pos : Nat) (iwe_buf hdr : List u8)
    (hL : 2 ≤ L.IW_EV_LCP_LEN) (hm : memread data pos L.IW_EV_LCP_LEN = .ok hdr) :
    iwe_len (blit iwe_buf 0 hdr) = get_u16 data pos := by
  unfold memread at hm
  split_ifs at hm with hle
  cases hm
  unfold iwe_len blit
  have hlen : ((data.drop pos).take L.IW_EV_LCP_LEN).length = L.IW_EV_LCP_LEN := by
    simp; omega
  rw [List.take_zero, List.nil_append, get_u16_append_left _ _ _ (by omega),
    get_u16_slice data pos _ hL]

/-- The structure copy leaves the length field of the local copy as it is: it still is the
length field of the record at the cursor. -/
theorem iwe_len_copy (L : Layout) (data : List u8) (pos : Nat) (iwe_buf hdr : List u8)
    (we19 : Bool) (iwe2 : List u8) (custom : Nat)
    (hL : 2 ≤ L.IW_EV_LCP_LEN) (hS : L.IW_EV_LCP_LEN ≤ L.sizeof_iw_event)
    (hm : memread data pos L.IW_EV_LCP_LEN = .ok hdr)
    (hc : iw_copy_event L data pos (blit iwe_buf 0 hdr) we19 = .ok (iwe2, custom)) :
    iwe_len iwe2 = get_u16 data pos := by
  have h1 := iwe_len_header L data pos iwe_buf hdr hL hm
  have hlen1 : L.IW_EV_LCP_LEN ≤ (blit iwe_buf 0 hdr).length := by
    unfold memread at hm
    split_ifs at hm with hle
    cases hm
    unfold blit
    simp
    omega
  generalize blit iwe_buf 0 hdr = iwe1 at h1 hlen1 hc
  unfold iw_copy_event at hc
  cases we19
  · simp only [Bool.false_eq_true, if_false] at hc
    unfold memread at hc
    split_ifs at hc with hle
    · simp only [Except.map] at hc
      cases hc
      unfold iwe_len blit
      have hlen : ((data.drop pos).take L.sizeof_iw_event).length = L.sizeof_iw_event := by
        simp; omega
      rw [List.take_zero, List.nil_append, get_u16_append_left _ _ _ (by omega),
        get_u16_slice data pos _ (by omega)]
    · simp [Except.map] at hc
  · simp only [if_true] at hc
    rcases hm2 : memread data (pos + L.IW_EV_LCP_LEN) (L.sizeof_iw_event - L.dlen)
      with e | bytes
    · rw [hm2] at hc; simp [Except.map] at hc
    · rw [hm2] at hc
      simp only [Except.map] at hc
      cases hc
      rw [← h1]
      unfold iwe_len blit
      have hd : 2 ≤ L.dlen := by unfold Layout.dlen; omega
      have hlen : 2 ≤ (iwe1.take L.dlen).length := by simp; omega
      rw [List.append_assoc, get_u16_append_left _ _ _ (by omega)]
      unfold get_u16
      simp only [List.getD_eq_getElem?_getD, List.getElem?_take]
      rw [if_pos (by omega), if_pos (by omega)]

/-- Mapping over a result does not turn it into a shortage of iteration budget. -/
theorem except_map_ne_out_of_fuel {α β : Type} (x : Except Fault α) (f : α → β)
    (h : x ≠ .error .out_of_fuel) : x.map f ≠ .error .out_of_fuel := by
  cases x with
  | error e => simpa [Except.map] using h
  | ok a => simp [Except.map]

/-- The structure copy of an iteration stays inside the memory object when the object
holds `sizeof(struct iw_event)` bytes behind the buffer. -/
theorem iw_copy_event_room (L : Layout) (mem : List u8) (end_ pos : Nat) (iwe_buf : List u8)
    (we19 : Bool) (h1 : pos + L.IW_EV_LCP_LEN ≤ end_)
    (hroom : end_ + L.sizeof_iw_event ≤ mem.length) :
    ∃ r : List u8 × Nat, iw_copy_event L mem pos iwe_buf we19 = .ok r := by
  unfold iw_copy_event
  cases we19
  · simp only [Bool.false_eq_true, if_false]
    rw [memread_ok mem pos L.sizeof_iw_event (by omega)]
    exact ⟨_, rfl⟩
  · simp only [if_true]
    rw [memread_ok mem (pos + L.IW_EV_LCP_LEN) (L.sizeof_iw_event - L.dlen) (by omega)]
    exact ⟨_, rfl⟩

/-- The loop of `wpa_driver_ralink_event_wireless` never uses up its iteration budget:
every iteration that goes on needs at least two more bytes and advances the cursor by more
than the header size. -/
theorem event_wireless_loop_terminates (L : Layout) (we : Int) (mem : List u8) (end_ : Nat)
    (hL : 2 ≤ L.IW_EV_LCP_LEN) (hS : L.IW_EV_LCP_LEN ≤ L.sizeof_iw_event) :
    ∀ (fuel pos : Nat) (iwe_buf : List u8), 1 ≤ fuel → end_ + 2 ≤ pos + 2 * fuel →
      event_wireless_loop L we mem end_ fuel pos iwe_buf ≠ .error .out_of_fuel := by
  intro fuel
  induction fuel with
  | zero => intro pos iwe_buf h; omega
  | succ f ih =>
    intro pos iwe_buf _ hfuel
    unfold event_wireless_loop
    by_cases h1 : pos + L.IW_EV_LCP_LEN ≤ end_
    · rw [if_pos h1]
      rcases hm : memread mem pos L.IW_EV_LCP_LEN with e | hdr
      · have := memread_ne_out_of_fuel mem pos L.IW_EV_LCP_LEN
        rw [hm] at this
        simpa [Except.bind] using this
      simp only [Except.bind]
      by_cases h2 : iwe_len (blit iwe_buf 0 hdr) ≤ L.IW_EV_LCP_LEN
      · rw [if_pos h2]; simp
      · rw [if_neg h2]
        rcases hc : iw_copy_event L mem pos (blit iwe_buf 0 hdr)
            (decide (we > 18) && decide (iwe_cmd (blit iwe_buf 0 hdr) = IWEVCUSTOM))
          with e | ⟨iwe2, custom⟩
        · have := iw_copy_event_ne_out_of_fuel L mem pos (blit iwe_buf 0 hdr)
            (decide (we > 18) && decide (iwe_cmd (blit iwe_buf 0 hdr) = IWEVCUSTOM))
          rw [hc] at this
          simpa using this
        · simp only
          have hlen2 := iwe_len_copy L mem pos iwe_buf _ _ iwe2 custom hL hS hm hc
          have hlen1 := iwe_len_header L mem pos iwe_buf _ hL hm
          have hrec : event_wireless_loop L we mem end_ f (pos + iwe_len iwe2) iwe2
              ≠ .error .out_of_fuel :=
            ih _ _ (by omega) (by omega)
          split_ifs with h3 h4
          · simp
          · rcases hp : memread mem custom (iwe_data_length L iwe2) with e | buf
            · have := memread_ne_out_of_fuel mem custom (iwe_data_length L iwe2)
              rw [hp] at this
              simpa [Except.bind] using this
            · simp only [Except.bind]
              exact except_map_ne_out_of_fuel _ _ hrec
          · exact hrec
    · rw [if_neg h1]; simp

/-- The loop of `wpa_driver_ralink_event_wireless` runs to its end and returns its records
when the memory object holds `sizeof(struct iw_event)` bytes behind the buffer: no read
leaves the object, and the iteration budget is not used up. -/
theorem event_wireless_loop_returns (L : Layout) (we : Int) (mem : List u8) (end_ : Nat)
    (hL : 2 ≤ L.IW_EV_LCP_LEN) (hS : L.IW_EV_LCP_LEN ≤ L.sizeof_iw_event)
    (hroom : end_ + L.sizeof_iw_event ≤ mem.length) :
    ∀ (fuel pos : Nat) (iwe_buf : List u8), 1 ≤ fuel → end_ + 2 ≤ pos + 2 * fuel →
      ∃ recs : List iw_record, event_wireless_loop L we mem end_ fuel pos iwe_buf = .ok recs := by
  intro fuel
  induction fuel with
  | zero => intro pos iwe_buf h; omega
  | succ f ih =>
    intro pos iwe_buf _ hfuel
    unfold event_wireless_loop
    by_cases h1 : pos + L.IW_EV_LCP_LEN ≤ end_
    · rw [if_pos h1]
      have hm := memread_ok mem pos L.IW_EV_LCP_LEN (by omega)
      rw [hm]
      simp only [Except.bind]
      by_cases h2 : iwe_len (blit iwe_buf 0 ((mem.drop pos).take L.IW_EV_LCP_LEN))
          ≤ L.IW_EV_LCP_LEN
      · rw [if_pos h2]; exact ⟨_, rfl⟩
      · rw [if_neg h2]
        obtain ⟨⟨iwe2, custom⟩, hc⟩ := iw_copy_event_room L mem end_ pos
          (blit iwe_buf 0 ((mem.drop pos).take L.IW_EV_LCP_LEN))
          (decide (we > 18) &&
            decide (iwe_cmd (blit iwe_buf 0 ((mem.drop pos).take L.IW_EV_LCP_LEN))
              = IWEVCUSTOM)) h1 hroom
        rw [hc]
        simp only
        have hlen2 := iwe_len_copy L mem pos iwe_buf _ _ iwe2 custom hL hS hm hc
        have hlen1 := iwe_len_header L mem pos iwe_buf _ hL hm
        obtain ⟨rest, hrec⟩ := ih (pos + iwe_len iwe2) iwe2 (by omega) (by omega)
        split_ifs with h3 h4
        · exact ⟨_, rfl⟩
        · rw [memread_ok mem custom (iwe_data_length L iwe2) (by omega), hrec]
          exact ⟨_, rfl⟩
        · exact ⟨rest, hrec⟩
    · rw [if_neg h1]; exact ⟨_, rfl⟩

/-- The loop of `wpa_driver_ralink_event_wireless` stops, processing nothing more, at a
cursor where fewer bytes than a header remain or where the record declares a length of at
most the header size. -/
theorem event_wireless_loop_stop (L : Layout) (we : Int) (mem : List u8) (end_ : Nat)
    (hL : 2 ≤ L.IW_EV_LCP_LEN) (hend : end_ ≤ mem.length) (fuel pos : Nat) (iwe_buf : List u8)
    (h : end_ < pos + L.IW_EV_LCP_LEN ∨ get_u16 mem pos ≤ L.IW_EV_LCP_LEN) :
    event_wireless_loop L we mem end_ (fuel + 1) pos iwe_buf = .ok [] := by
  unfold event_wireless_loop
  by_cases h1 : pos + L.IW_EV_LCP_LEN ≤ end_
  · rw [if_pos h1]
    have hm := memread_ok mem pos L.IW_EV_LCP_LEN (by omega)
    rw [hm]
    simp only [Except.bind]
    have hlen1 := iwe_len_header L mem pos iwe_buf _ hL hm
    rw [if_pos (by rw [hlen1]; omega)]
  · rw [if_neg h1]

/-- Decoding a buffer of self-contained records followed by bytes that begin with a
stopping record gives what decoding the records alone gives. -/
theorem event_wireless_loop_append (L : Layout) (we : Int) (pre rest : List u8)
    (hL : 2 ≤ L.IW_EV_LCP_LEN)
    (hstop : rest.length < L.IW_EV_LCP_LEN ∨ get_u16 rest 0 ≤ L.IW_EV_LCP_LEN) :
    ∀ (fuel fuel2 pos : Nat) (iwe_buf : List u8), fuel ≤ fuel2 →
      event_wireless_inside L we pre fuel pos iwe_buf = true →
      event_wireless_loop L we (pre ++ rest) (pre ++ rest).length fuel2 pos iwe_buf =
        event_wireless_loop L we pre pre.length fuel pos iwe_buf := by
  intro fuel
  induction fuel with
  | zero => intro fuel2 pos iwe_buf _ h; simp [event_wireless_inside] at h
  | succ f ih =>
    intro fuel2 pos iwe_buf hle hin
    obtain ⟨f2, rfl⟩ : ∃ f2, fuel2 = f2 + 1 := ⟨fuel2 - 1, by omega⟩
    unfold event_wireless_inside at hin
    by_cases h1 : pos + L.IW_EV_LCP_LEN ≤ pre.length
    · rw [if_pos h1] at hin
      have hm := memread_ok pre pos L.IW_EV_LCP_LEN h1
      rw [hm] at hin
      simp only at hin
      unfold event_wireless_loop
      have h1' : pos + L.IW_EV_LCP_LEN ≤ (pre ++ rest).length := by simp; omega
      rw [if_pos h1, if_pos h1', memread_append pre rest _ _ _ hm, hm]
      simp only [Except.bind]
      by_cases h2 : iwe_len (blit iwe_buf 0 ((pre.drop pos).take L.IW_EV_LCP_LEN))
          ≤ L.IW_EV_LCP_LEN
      · rw [if_pos h2] at hin; simp at hin
      · rw [if_neg h2] at hin
        rw [if_neg h2, if_neg h2]
        rcases hc : iw_copy_event L pre pos
            (blit iwe_buf 0 ((pre.drop pos).take L.IW_EV_LCP_LEN))
            (decide (we > 18) &&
              decide (iwe_cmd (blit iwe_buf 0 ((pre.drop pos).take L.IW_EV_LCP_LEN))
                = IWEVCUSTOM)) with e | ⟨iwe2, custom⟩
        · rw [hc] at hin; simp at hin
        · rw [hc] at hin
          rw [iw_copy_event_append L pre rest _ _ _ _ hc]
          simp only [Bool.and_eq_true] at hin
          obtain ⟨hpay, hrec⟩ := hin
          have hih := ih f2 (pos + iwe_len iwe2) iwe2 (by omega) hrec
          simp only
          by_cases h3 : iwe_cmd iwe2 = IWEVCUSTOM
          · rw [if_pos h3] at hpay
            have hfit : custom + iwe_data_length L iwe2 ≤ pre.length := by simpa using hpay
            have hfit' : ¬ custom + iwe_data_length L iwe2 > (pre ++ rest).length := by
              simp; omega
            rw [if_pos h3, if_pos h3, if_neg hfit', if_neg (by omega)]
            have hp := memread_ok pre custom (iwe_data_length L iwe2) hfit
            rw [memread_append pre rest _ _ _ hp, hp]
            simp only [Except.bind]
            rw [hih]
          · rw [if_neg h3, if_neg h3]
            exact hih
    · rw [if_neg h1] at hin
      have hpos : pos = pre.length := by simpa using hin
      subst hpos
      have hg : get_u16 (pre ++ rest) pre.length = get_u16 rest 0 := by
        unfold get_u16
        simp [List.getD_eq_getElem?_getD, List.getElem?_append_right]
      rw [event_wireless_loop_stop L we (pre ++ rest) _ hL (le_refl _) f2 pre.length iwe_buf
        (by rw [hg]; rcases hstop with h | h
            · left; simp; omega
            · right; exact h)]
      unfold event_wireless_loop
      rw [if_neg h1]

/-- The payload read of a scan record never reports a shortage of iteration budget. -/
theorem scan_payload_ne_out_of_fuel (L : Layout) (mem : List u8) (end_ : Nat)
    (iwe2 : List u8) (custom : Nat) :
    (if iwe_cmd iwe2 = SIOCGIWESSID then ralink_get_scan_ssid_read L mem end_ iwe2 custom
     else if iwe_cmd iwe2 = IWEVGENIE then
       ralink_get_scan_iwevgenie_read L mem end_ iwe2 custom
     else (.ok [] : Except Fault (List u8))) ≠ .error .out_of_fuel := by
  unfold ralink_get_scan_ssid_read ralink_get_scan_iwevgenie_read
  have hm := memread_ne_out_of_fuel mem custom (iwe_data_length L iwe2)
  simp only
  split_ifs <;> first | exact hm | simp

/-- The payload read of a scan record stays inside the memory object that holds the scan
buffer: it is tested against the end of the buffer first. -/
theorem scan_payload_room (L : Layout) (mem : List u8) (end_ : Nat) (iwe2 : List u8)
    (custom : Nat) (hend : end_ ≤ mem.length) :
    ∃ payload : List u8,
      (if iwe_cmd iwe2 = SIOCGIWESSID then ralink_get_scan_ssid_read L mem end_ iwe2 custom
       else if iwe_cmd iwe2 = IWEVGENIE then
         ralink_get_scan_iwevgenie_read L mem end_ iwe2 custom
       else (.ok [] : Except Fault (List u8))) = .ok payload := by
  unfold ralink_get_scan_ssid_read ralink_get_scan_iwevgenie_read
  simp only
  split_ifs with h1 h2 h3 h4 h5 h6
  · exact ⟨_, rfl⟩
  · rw [memread_ok mem custom (iwe_data_length L iwe2) (by omega)]; exact ⟨_, rfl⟩
  · exact ⟨_, rfl⟩
  · exact ⟨_, rfl⟩
  · exact ⟨_, rfl⟩
  · rw [memread_ok mem custom (iwe_data_length L iwe2) (by omega)]; exact ⟨_, rfl⟩
  · exact ⟨_, rfl⟩

/-- The payload read of a scan record whose payload lies inside the buffer gives the same
bytes in every extension of the buffer. -/
theorem scan_payload_append (L : Layout) (pre rest iwe2 : List u8) (custom : Nat)
    (h : (iwe_cmd iwe2 = SIOCGIWESSID ∨ iwe_cmd iwe2 = IWEVGENIE) →
      custom + iwe_data_length L iwe2 ≤ pre.length) :
    (if iwe_cmd iwe2 = SIOCGIWESSID then
       ralink_get_scan_ssid_read L (pre ++ rest) (pre ++ rest).length iwe2 custom
     else if iwe_cmd iwe2 = IWEVGENIE then
       ralink_get_scan_iwevgenie_read L (pre ++ rest) (pre ++ rest).length iwe2 custom
     else (.ok [] : Except Fault (List u8))) =
    (if iwe_cmd iwe2 = SIOCGIWESSID then ralink_get_scan_ssid_read L pre pre.length iwe2 custom
     else if iwe_cmd iwe2 = IWEVGENIE then
       ralink_get_scan_iwevgenie_read L pre pre.length iwe2 custom
     else (.ok [] : Except Fault (List u8))) := by
  by_cases h1 : iwe_cmd iwe2 = SIOCGIWESSID
  · have hfit := h (Or.inl h1)
    have hfit' : ¬ custom + iwe_data_length L iwe2 > (pre ++ rest).length := by simp; omega
    have hfit2 : ¬ custom + iwe_data_length L iwe2 > pre.length := by omega
    have hp := memread_ok pre custom (iwe_data_length L iwe2) hfit
    rw [if_pos h1, if_pos h1]
    unfold ralink_get_scan_ssid_read
    simp only
    rw [if_neg hfit', if_neg hfit2, memread_append pre rest _ _ _ hp, hp]
  · rw [if_neg h1, if_neg h1]
    by_cases h2 : iwe_cmd iwe2 = IWEVGENIE
    · have hfit := h (Or.inr h2)
      have hfit' : ¬ custom + iwe_data_length L iwe2 > (pre ++ rest).length := by simp; omega
      have hfit2 : ¬ custom + iwe_data_length L iwe2 > pre.length := by omega
      have hp := memread_ok pre custom (iwe_data_length L iwe2) hfit
      rw [if_pos h2, if_pos h2]
      unfold ralink_get_scan_iwevgenie_read
      rw [if_neg hfit', if_neg hfit2, memread_append pre rest _ _ _ hp, hp]
    · rw [if_neg h2, if_neg h2]

/-- The loop of `wpa_driver_ralink_get_scan_results2` never uses up its iteration
budget. -/
theorem scan_results_loop_terminates (L : Layout) (we : Int) (mem : List u8) (end_ : Nat)
    (hL : 2 ≤ L.IW_EV_LCP_LEN) (hS : L.IW_EV_LCP_LEN ≤ L.sizeof_iw_event) :
    ∀ (fuel pos : Nat) (iwe_buf : List u8), 1 ≤ fuel → end_ + 2 ≤ pos + 2 * fuel →
      scan_results_loop L we mem end_ fuel pos iwe_buf ≠ .error .out_of_fuel := by
  intro fuel
  induction fuel with
  | zero => intro pos iwe_buf h; omega
  | succ f ih =>
    intro pos iwe_buf _ hfuel
    unfold scan_results_loop
    by_cases h1 : pos + L.IW_EV_LCP_LEN ≤ end_
    · rw [if_pos h1]
      rcases hm : memread mem pos L.IW_EV_LCP_LEN with e | hdr
      · have := memread_ne_out_of_fuel mem pos L.IW_EV_LCP_LEN
        rw [hm] at this
        simpa [Except.bind] using this
      simp only [Except.bind]
      by_cases h2 : iwe_len (blit iwe_buf 0 hdr) ≤ L.IW_EV_LCP_LEN
      · rw [if_pos h2]; simp
      · rw [if_neg h2]
        rcases hc : iw_copy_event L mem pos (blit iwe_buf 0 hdr)
            (ralink_19_iw_point we (iwe_cmd (blit iwe_buf 0 hdr)))
          with e | ⟨iwe2, custom⟩
        · have := iw_copy_event_ne_out_of_fuel L mem pos (blit iwe_buf 0 hdr)
            (ralink_19_iw_point we (iwe_cmd (blit iwe_buf 0 hdr)))
          rw [hc] at this
          simpa using this
        · simp only
          have hlen2 := iwe_len_copy L mem pos iwe_buf _ _ iwe2 custom hL hS hm hc
          have hlen1 := iwe_len_header L mem pos iwe_buf _ hL hm
          have hrec : scan_results_loop L we mem end_ f (pos + iwe_len iwe2) iwe2
              ≠ .error .out_of_fuel :=
            ih _ _ (by omega) (by omega)
          have hpay := scan_payload_ne_out_of_fuel L mem end_ iwe2 custom
          rcases hp : (if iwe_cmd iwe2 = SIOCGIWESSID then
                ralink_get_scan_ssid_read L mem end_ iwe2 custom
              else if iwe_cmd iwe2 = IWEVGENIE then
                ralink_get_scan_iwevgenie_read L mem end_ iwe2 custom
              else (.ok [] : Except Fault (List u8))) with e | payload
          · rw [hp] at hpay
            simpa [Except.bind] using hpay
          · simp only [Except.bind]
            exact except_map_ne_out_of_fuel _ _ hrec
    · rw [if_neg h1]; simp

/-- The loop of `wpa_driver_ralink_get_scan_results2` runs to its end and returns its
records when the allocation holds `sizeof(struct iw_event)` bytes behind the reported
length: no read leaves the allocation, and the iteration budget is not used up. -/
theorem scan_results_loop_returns (L : Layout) (we : Int) (mem : List u8) (end_ : Nat)
    (hL : 2 ≤ L.IW_EV_LCP_LEN) (hS : L.IW_EV_LCP_LEN ≤ L.sizeof_iw_event)
    (hroom : end_ + L.sizeof_iw_event ≤ mem.length) :
    ∀ (fuel pos : Nat) (iwe_buf : List u8), 1 ≤ fuel → end_ + 2 ≤ pos + 2 * fuel →
      ∃ recs : List iw_record, scan_results_loop L we mem end_ fuel pos iwe_buf = .ok recs := by
  intro fuel
  induction fuel with
  | zero => intro pos iwe_buf h; omega
  | succ f ih =>
    intro pos iwe_buf _ hfuel
    unfold scan_results_loop
    by_cases h1 : pos + L.IW_EV_LCP_LEN ≤ end_
    · rw [if_pos h1]
      have hm := memread_ok mem pos L.IW_EV_LCP_LEN (by omega)
      rw [hm]
      simp only [Except.bind]
      by_cases h2 : iwe_len (blit iwe_buf 0 ((mem.drop pos).take L.IW_EV_LCP_LEN))
          ≤ L.IW_EV_LCP_LEN
      · rw [if_pos h2]; exact ⟨_, rfl⟩
      · rw [if_neg h2]
        obtain ⟨⟨iwe2, custom⟩, hc⟩ := iw_copy_event_room L mem end_ pos
          (blit iwe_buf 0 ((mem.drop pos).take L.IW_EV_LCP_LEN))
          (ralink_19_iw_point we
            (iwe_cmd (blit iwe_buf 0 ((mem.drop pos).take L.IW_EV_LCP_LEN)))) h1 hroom
        rw [hc]
        simp only
        have hlen2 := iwe_len_copy L mem pos iwe_buf _ _ iwe2 custom hL hS hm hc
        have hlen1 := iwe_len_header L mem pos iwe_buf _ hL hm
        obtain ⟨rest, hrec⟩ := ih (pos + iwe_len iwe2) iwe2 (by omega) (by omega)
        obtain ⟨payload, hp⟩ := scan_payload_room L mem end_ iwe2 custom (by omega)
        rw [hp, hrec]
        exact ⟨_, rfl⟩
    · rw [if_neg h1]; exact ⟨_, rfl⟩

/-- The loop of `wpa_driver_ralink_get_scan_results2` stops, processing nothing more, at a
cursor where fewer bytes than a header remain or where the record declares a length of at
most the header size. -/
theorem scan_results_loop_stop (L : Layout) (we : Int) (mem : List u8) (end_ : Nat)
    (hL : 2 ≤ L.IW_EV_LCP_LEN) (hend : end_ ≤ mem.length) (fuel pos : Nat) (iwe_buf : List u8)
    (h : end_ < pos + L.IW_EV_LCP_LEN ∨ get_u16 mem pos ≤ L.IW_EV_LCP_LEN) :
    scan_results_loop L we mem end_ (fuel + 1) pos iwe_buf = .ok [] := by
  unfold scan_results_loop
  by_cases h1 : pos + L.IW_EV_LCP_LEN ≤ end_
  · rw [if_pos h1]
    have hm := memread_ok mem pos L.IW_EV_LCP_LEN (by omega)
    rw [hm]
    simp only [Except.bind]
    have hlen1 := iwe_len_header L mem pos iwe_buf _ hL hm
    rw [if_pos (by rw [hlen1]; omega)]
  · rw [if_neg h1]

/-- Decoding a scan buffer of self-contained records followed by bytes that begin with a
stopping record gives what decoding the records alone gives. -/
theorem scan_results_loop_append (L : Layout) (we : Int) (pre rest : List u8)
    (hL : 2 ≤ L.IW_EV_LCP_LEN)
    (hstop : rest.length < L.IW_EV_LCP_LEN ∨ get_u16 rest 0 ≤ L.IW_EV_LCP_LEN) :
    ∀ (fuel fuel2 pos : Nat) (iwe_buf : List u8), fuel ≤ fuel2 →
      scan_results_inside L we pre fuel pos iwe_buf = true →
      scan_results_loop L we (pre ++ rest) (pre ++ rest).length fuel2 pos iwe_buf =
        scan_results_loop L we pre pre.length fuel pos iwe_buf := by
  intro fuel
  induction fuel with
  | zero => intro fuel2 pos iwe_buf _ h; simp [scan_results_inside] at h
  | succ f ih =>
    intro fuel2 pos iwe_buf hle hin
    obtain ⟨f2, rfl⟩ : ∃ f2, fuel2 = f2 + 1 := ⟨fuel2 - 1, by omega⟩
    unfold scan_results_inside at hin
    by_cases h1 : pos + L.IW_EV_LCP_LEN ≤ pre.length
    · rw [if_pos h1] at hin
      have hm := memread_ok pre pos L.IW_EV_LCP_LEN h1
      rw [hm] at hin
      simp only at hin
      unfold scan_results_loop
      have h1' : pos + L.IW_EV_LCP_LEN ≤ (pre ++ rest).length := by simp; omega
      rw [if_pos h1, if_pos h1', memread_append pre rest _ _ _ hm, hm]
      simp only [Except.bind]
      by_cases h2 : iwe_len (blit iwe_buf 0 ((pre.drop pos).take L.IW_EV_LCP_LEN))
          ≤ L.IW_EV_LCP_LEN
      · rw [if_pos h2] at hin; simp at hin
      · rw [if_neg h2] at hin
        rw [if_neg h2, if_neg h2]
        rcases hc : iw_copy_event L pre pos
            (blit iwe_buf 0 ((pre.drop pos).take L.IW_EV_LCP_LEN))
            (ralink_19_iw_point we
              (iwe_cmd (blit iwe_buf 0 ((pre.drop pos).take L.IW_EV_LCP_LEN))))
          with e | ⟨iwe2, custom⟩
        · rw [hc] at hin; simp at hin
        · rw [hc] at hin
          rw [iw_copy_event_append L pre rest _ _ _ _ hc]
          simp only [Bool.and_eq_true] at hin
          obtain ⟨hpay, hrec⟩ := hin
          have hih := ih f2 (pos + iwe_len iwe2) iwe2 (by omega) hrec
          simp only
          have hfit : (iwe_cmd iwe2 = SIOCGIWESSID ∨ iwe_cmd iwe2 = IWEVGENIE) →
              custom + iwe_data_length L iwe2 ≤ pre.length := by
            intro hcmd
            rw [if_pos hcmd] at hpay
            simpa using hpay
          rw [scan_payload_append L pre rest iwe2 custom hfit, hih]
    · rw [if_neg h1] at hin
      have hpos : pos = pre.length := by simpa using hin
      subst hpos
      have hg : get_u16 (pre ++ rest) pre.length = get_u16 rest 0 := by
        unfold get_u16
        simp [List.getD_eq_getElem?_getD, List.getElem?_append_right]
      rw [scan_results_loop_stop L we (pre ++ rest) _ hL (le_refl _) f2 pre.length iwe_buf
        (by rw [hg]; rcases hstop with h | h
            · left; simp; omega
            · right; exact h)]
      unfold scan_results_loop
      rw [if_neg h1]

/-- Decoding the first `len` bytes of a memory object gives what decoding its first `p`
bytes gives, when a stopping record begins at offset `p` and the records in front of it
have their payloads in front of it. -/
theorem event_wireless_loop_front (L : Layout) (we : Int) (mem : List u8) (len p : Nat)
    (hL : 2 ≤ L.IW_EV_LCP_LEN) (hp : p ≤ len) (hlen : len ≤ mem.length)
    (hstop : len < p + L.IW_EV_LCP_LEN ∨ get_u16 mem p ≤ L.IW_EV_LCP_LEN) :
    ∀ (fuel fuel2 pos : Nat) (iwe_buf : List u8), fuel ≤ fuel2 →
      event_wireless_ends_at L we mem p fuel pos iwe_buf = true →
      event_wireless_loop L we mem len fuel2 pos iwe_buf =
        event_wireless_loop L we mem p fuel pos iwe_buf := by
  intro fuel
  induction fuel with
  | zero => intro fuel2 pos iwe_buf _ h; simp [event_wireless_ends_at] at h
  | succ f ih =>
    intro fuel2 pos iwe_buf hle hin
    obtain ⟨f2, rfl⟩ : ∃ f2, fuel2 = f2 + 1 := ⟨fuel2 - 1, by omega⟩
    unfold event_wireless_ends_at at hin
    by_cases h1 : pos + L.IW_EV_LCP_LEN ≤ p
    · rw [if_pos h1] at hin
      unfold event_wireless_loop
      rw [if_pos h1, if_pos (by omega)]
      rcases hm : memread mem pos L.IW_EV_LCP_LEN with e | hdr
      · rfl
      · rw [hm] at hin
        simp only at hin
        simp only [Except.bind]
        by_cases h2 : iwe_len (blit iwe_buf 0 hdr) ≤ L.IW_EV_LCP_LEN
        · rw [if_pos h2] at hin; simp at hin
        · rw [if_neg h2] at hin
          rw [if_neg h2, if_neg h2]
          rcases hc : iw_copy_event L mem pos (blit iwe_buf 0 hdr)
              (decide (we > 18) && decide (iwe_cmd (blit iwe_buf 0 hdr) = IWEVCUSTOM))
            with e | ⟨iwe2, custom⟩
          · rfl
          · rw [hc] at hin
            simp only [Bool.and_eq_true] at hin
            obtain ⟨hpay, hrec⟩ := hin
            have hih := ih f2 (pos + iwe_len iwe2) iwe2 (by omega) hrec
            simp only
            by_cases h3 : iwe_cmd iwe2 = IWEVCUSTOM
            · rw [if_pos h3] at hpay
              have hfit : custom + iwe_data_length L iwe2 ≤ p := by simpa using hpay
              have hfit' : ¬ custom + iwe_data_length L iwe2 > len := by omega
              have hfit2 : ¬ custom + iwe_data_length L iwe2 > p := by omega
              rw [if_pos h3, if_pos h3, if_neg hfit', if_neg hfit2, hih]
            · rw [if_neg h3, if_neg h3]
              exact hih
    · rw [if_neg h1] at hin
      have hpos : pos = p := by simpa using hin
      subst hpos
      rw [event_wireless_loop_stop L we mem len hL hlen f2 pos iwe_buf hstop]
      unfold event_wireless_loop
      rw [if_neg h1]

/-- The payload read of a scan record whose payload ends inside the first `p` bytes does
not depend on how much longer the buffer is. -/
theorem scan_payload_front (L : Layout) (mem iwe2 : List u8) (len p custom : Nat)
    (hp : p ≤ len)
    (h : (iwe_cmd iwe2 = SIOCGIWESSID ∨ iwe_cmd iwe2 = IWEVGENIE) →
      custom + iwe_data_length L iwe2 ≤ p) :
    (if iwe_cmd iwe2 = SIOCGIWESSID then ralink_get_scan_ssid_read L mem len iwe2 custom
     else if iwe_cmd iwe2 = IWEVGENIE then
       ralink_get_scan_iwevgenie_read L mem len iwe2 custom
     else (.ok [] : Except Fault (List u8))) =
    (if iwe_cmd iwe2 = SIOCGIWESSID then ralink_get_scan_ssid_read L mem p iwe2 custom
     else if iwe_cmd iwe2 = IWEVGENIE then
       ralink_get_scan_iwevgenie_read L mem p iwe2 custom
     else (.ok [] : Except Fault (List u8))) := by
  by_cases h1 : iwe_cmd iwe2 = SIOCGIWESSID
  · have hfit := h (Or.inl h1)
    have hfit' : ¬ custom + iwe_data_length L iwe2 > len := by omega
    have hfit2 : ¬ custom + iwe_data_length L iwe2 > p := by omega
    rw [if_pos h1, if_pos h1]
    unfold ralink_get_scan_ssid_read
    simp only
    rw [if_neg hfit', if_neg hfit2]
  · rw [if_neg h1, if_neg h1]
    by_cases h2 : iwe_cmd iwe2 = IWEVGENIE
    · have hfit := h (Or.inr h2)
      have hfit' : ¬ custom + iwe_data_length L iwe2 > len := by omega
      have hfit2 : ¬ custom + iwe_data_length L iwe2 > p := by omega
      rw [if_pos h2, if_pos h2]
      unfold ralink_get_scan_iwevgenie_read
      rw [if_neg hfit', if_neg hfit2]
    · rw [if_neg h2, if_neg h2]

/-- Decoding the first `len` bytes of a scan allocation gives what decoding its first `p`
bytes gives, when a stopping record begins at offset `p` and the records in front of it
have their payloads in front of it. -/
theorem scan_results_loop_front (L : Layout) (we : Int) (mem : List u8) (len p : Nat)
    (hL : 2 ≤ L.IW_EV_LCP_LEN) (hp : p ≤ len) (hlen : len ≤ mem.length)
    (hstop : len < p + L.IW_EV_LCP_LEN ∨ get_u16 mem p ≤ L.IW_EV_LCP_LEN) :
    ∀ (fuel fuel2 pos : Nat) (iwe_buf : List u8), fuel ≤ fuel2 →
      scan_results_ends_at L we mem p fuel pos iwe_buf = true →
      scan_results_loop L we mem len fuel2 pos iwe_buf =
        scan_results_loop L we mem p fuel pos iwe_buf := by
  intro fuel
  induction fuel with
  | zero => intro fuel2 pos iwe_buf _ h; simp [scan_results_ends_at] at h
  | succ f ih =>
    intro fuel2 pos iwe_buf hle hin
    obtain ⟨f2, rfl⟩ : ∃ f2, fuel2 = f2 + 1 := ⟨fuel2 - 1, by omega⟩
    unfold scan_results_ends_at at hin
    by_cases h1 : pos + L.IW_EV_LCP_LEN ≤ p
    · rw [if_pos h1] at hin
      unfold scan_results_loop
      rw [if_pos h1, if_pos (by omega)]
      rcases hm : memread mem pos L.IW_EV_LCP_LEN with e | hdr
      · rfl
      · rw [hm] at hin
        simp only at hin
        simp only [Except.bind]
        by_cases h2 : iwe_len (blit iwe_buf 0 hdr) ≤ L.IW_EV_LCP_LEN
        · rw [if_pos h2] at hin; simp at hin
        · rw [if_neg h2] at hin
          rw [if_neg h2, if_neg h2]
          rcases hc : iw_copy_event L mem pos (blit iwe_buf 0 hdr)
              (ralink_19_iw_point we (iwe_cmd (blit iwe_buf 0 hdr)))
            with e | ⟨iwe2, custom⟩
          · rfl
          · rw [hc] at hin
            simp only [Bool.and_eq_true] at hin
            obtain ⟨hpay, hrec⟩ := hin
            have hih := ih f2 (pos + iwe_len iwe2) iwe2 (by omega) hrec
            simp only
            have hfit : (iwe_cmd iwe2 = SIOCGIWESSID ∨ iwe_cmd iwe2 = IWEVGENIE) →
                custom + iwe_data_length L iwe2 ≤ p := by
              intro hcmd
              rw [if_pos hcmd] at hpay
              simpa using hpay
            rw [scan_payload_front L mem iwe2 len p custom hp hfit, hih]
    · rw [if_neg h1] at hin
      have hpos : pos = p := by simpa using hin
      subst hpos
      rw [scan_results_loop_stop L we mem len hL hlen f2 pos iwe_buf hstop]
      unfold scan_results_loop
      rw [if_neg h1]

/-! ### The claims -/

/-- C1 fails on the code. An 8-byte buffer holding exactly one well-formed `SIOCGIWMODE`
record (length field 8): the prefix check `pos + IW_EV_LCP_LEN <= end` passes, the record
is longer than the prefix, and both decoding loops then copy `sizeof(struct iw_event)`
bytes from offset 0, reading offsets 8..19 past the declared length, for either protocol
version. The same happens with an inconsistent length field (5-byte buffer), on the
64-bit layout, and on the WE-19 path of a custom record (12 bytes read from offset 4 of
an 8-byte buffer). -/
theorem event_decode_reads_past_end :
    wpa_driver_ralink_event_wireless_decode layout32 18 [8, 0, 0x07, 0x8B, 2, 0, 0, 0]
        = .error (.out_of_bounds 0 20) ∧
    wpa_driver_ralink_get_scan_results2_decode layout32 18 [8, 0, 0x07, 0x8B, 2, 0, 0, 0]
        = .error (.out_of_bounds 0 20) ∧
    wpa_driver_ralink_get_scan_results2_decode layout32 19 [8, 0, 0x07, 0x8B, 2, 0, 0, 0]
        = .error (.out_of_bounds 0 20) ∧
    wpa_driver_ralink_event_wireless_decode layout32 18 [5, 0, 0, 0, 0]
        = .error (.out_of_bounds 0 20) ∧
    wpa_driver_ralink_event_wireless_decode layout64 18 [9, 0, 0, 0, 0, 0, 0, 0, 0]
        = .error (.out_of_bounds 0 24) ∧
    wpa_driver_ralink_event_wireless_decode layout32 19 [8, 0, 0x02, 0x8C, 0, 0, 0, 0]
        = .error (.out_of_bounds 4 12) := by
  refine ⟨?_, ?_, ?_, ?_, ?_, ?_⟩ <;> rfl

/-- C2. `set_key` with the driver up and a non-empty key. On the general add-key path
(algorithm neither none nor WEP) exactly one add-key record is written; for TKIP and a
32-byte key `K = A(16) || B(8) || C(8)` its key-material field is `A || C || B`, and for
every other algorithm or key length it is `K` verbatim. For WEP no add-key record is
written and the add-WEP record carries `K` verbatim. -/
theorem set_key_key_material (K : Kernel) (s : State) (alg : wpa_alg) (addr : Option MacAddr)
    (key_idx set_tx : Int) (seq : Option (List u8)) (key : List u8)
    (hup : s.drv.g_driver_down ≠ 1) (hlen : key.length ≠ 0) :
    (alg ≠ .WPA_ALG_NONE → alg ≠ .WPA_ALG_WEP →
      ∃ nkey : NDIS_802_11_KEY,
        add_key_records_sent
          (issued s.calls.length
            (wpa_driver_ralink_set_key K s alg addr key_idx set_tx seq key).1) = [nkey] ∧
        nkey.KeyLength = key.length ∧
        (alg = .WPA_ALG_TKIP → ∀ A B C : List u8, A.length = 16 → B.length = 8 →
          C.length = 8 → key = A ++ B ++ C → nkey.KeyMaterial = A ++ C ++ B) ∧
        (¬ (alg = .WPA_ALG_TKIP ∧ key.length = 32) → nkey.KeyMaterial = key)) ∧
    (alg = .WPA_ALG_WEP →
      add_key_records_sent
        (issued s.calls.length
          (wpa_driver_ralink_set_key K s alg addr key_idx set_tx seq key).1) = [] ∧
      ∃ wep : NDIS_802_11_WEP,
        add_wep_records_sent
          (issued s.calls.length
            (wpa_driver_ralink_set_key K s alg addr key_idx set_tx seq key).1) = [wep] ∧
        wep.KeyLength = key.length ∧ wep.KeyMaterial = key) := by
  refine ⟨?_, ?_⟩
  · intro hnone hwep
    rw [set_key_add_key_issued K s alg addr key_idx set_tx seq key hup hnone hwep hlen]
    generalize (if set_key_group addr then
        (wpa_driver_ralink_get_bssid K { s with bAddWepKey := false } MacAddr.zero).2.2
      else addr.getD MacAddr.zero) = bssid
    generalize (if set_key_group addr then (0 : Int) else 1) = pairwise
    refine ⟨set_key_record alg key_idx set_tx pairwise bssid seq key, ?_, rfl, ?_, ?_⟩
    · rw [add_key_records_sent_append]
      cases set_key_group addr <;> simp [add_key_records_sent]
    · intro halg A B C hA hB hC hkey
      have h32 : key.length = 32 := by rw [hkey]; simp [hA, hB, hC]
      simp only [set_key_record, set_key_material, halg, h32, and_self, if_true]
      rw [hkey]
      exact tkip_key_material_abc A B C hA hB hC
    · intro h
      simp [set_key_record, set_key_material, h]
  · intro halg
    subst halg
    rw [set_key_add_wep_issued K s addr key_idx set_tx seq key hup hlen]
    refine ⟨?_, { Length := 12 + key.length,
                  KeyIndex := if set_tx ≠ 0 then to_u32 key_idx ||| 0x80000000
                              else to_u32 key_idx,
                  KeyLength := key.length,
                  KeyMaterial := key }, ?_, rfl, rfl⟩
    · cases set_key_group addr <;> simp [add_key_records_sent]
    · cases set_key_group addr <;> simp [add_wep_records_sent]

/-- Instance of C2: a pairwise TKIP key `AA..(16) BB..(8) CC..(8)` on a fresh, up driver is
written as `AA..(16) CC..(8) BB..(8)`. -/
theorem set_key_key_material_witness :
    state_init.drv.g_driver_down ≠ 1 ∧ sample_tkip_key.length ≠ 0 ∧
    ∃ nkey : NDIS_802_11_KEY,
      add_key_records_sent
        (issued state_init.calls.length
          (wpa_driver_ralink_set_key kernel_ok state_init .WPA_ALG_TKIP (some (mac 1)) 0 1 none
            sample_tkip_key).1) = [nkey] ∧
      nkey.KeyMaterial =
        List.replicate 16 0xAA ++ List.replicate 8 0xCC ++ List.replicate 8 0xBB := by
  refine ⟨by decide, by decide, ?_⟩
  obtain ⟨nkey, h1, _, h3, _⟩ :=
    (set_key_key_material kernel_ok state_init .WPA_ALG_TKIP (some (mac 1)) 0 1 none
      sample_tkip_key (by decide) (by decide)).1 (by decide) (by decide)
  exact ⟨nkey, h1, h3 rfl _ _ _ rfl rfl rfl rfl⟩

/-- C3. On 32-byte keys the TKIP key-material transform of `set_key` maps `A||B||C`
(16, 8 and 8 octets) to `A||C||B`, and `A||C||B` back to `A||B||C`; so it is its own
inverse (`A||B||C -> A||C||B -> A||B||C`) and a bijection: it maps 32-byte keys to 32-byte
keys, two 32-byte keys with the same image are equal, and every 32-byte key is the image
of a 32-byte key. -/
theorem tkip_transform_involution (K : List u8) (h : K.length = 32) :
    (set_key_material .WPA_ALG_TKIP K).length = 32 ∧
    set_key_material .WPA_ALG_TKIP (set_key_material .WPA_ALG_TKIP K) = K ∧
    (∀ K2 : List u8, K2.length = 32 →
      set_key_material .WPA_ALG_TKIP K2 = set_key_material .WPA_ALG_TKIP K → K2 = K) ∧
    (∃ K0 : List u8, K0.length = 32 ∧ set_key_material .WPA_ALG_TKIP K0 = K) ∧
    (∀ A B C : List u8, A.length = 16 → B.length = 8 → C.length = 8 → K = A ++ B ++ C →
      set_key_material .WPA_ALG_TKIP K = A ++ C ++ B ∧
      set_key_material .WPA_ALG_TKIP (A ++ C ++ B) = A ++ B ++ C) ∧
    set_key_material .WPA_ALG_TKIP K = K.take 16 ++ (K.drop 24).take 8 ++ (K.drop 16).take 8 := by
  have swap : ∀ A B C : List u8, A.length = 16 → B.length = 8 → C.length = 8 →
      set_key_material .WPA_ALG_TKIP (A ++ B ++ C) = A ++ C ++ B := by
    intro A B C hA hB hC
    have hX : (A ++ B ++ C).length = 32 := by simp [hA, hB, hC]
    simp only [set_key_material, hX, and_self, if_true]
    exact tkip_key_material_abc A B C hA hB hC
  have inv : ∀ X : List u8, X.length = 32 →
      (set_key_material .WPA_ALG_TKIP X).length = 32 ∧
      set_key_material .WPA_ALG_TKIP (set_key_material .WPA_ALG_TKIP X) = X := by
    intro X hX
    obtain ⟨A, B, C, hA, hB, hC, rfl⟩ := tkip_key_material_split X hX
    rw [swap A B C hA hB hC, swap A C B hA hC hB]
    exact ⟨by simp [hA, hB, hC], rfl⟩
  refine ⟨(inv K h).1, (inv K h).2, ?_, ⟨_, (inv K h).1, (inv K h).2⟩, ?_, ?_⟩
  · intro K2 h2 heq
    rw [← (inv K2 h2).2, heq, (inv K h).2]
  · intro A B C hA hB hC hK
    subst hK
    exact ⟨swap A B C hA hB hC, swap A C B hA hC hB⟩
  · simp only [set_key_material, h, and_self, if_true]
    rfl

/-- Instance of C3 on the sample key `AA^16 || BB^8 || CC^8`: the transform gives
`AA^16 || CC^8 || BB^8`, which differs from the key, and maps that back to the key. -/
theorem tkip_transform_involution_witness :
    sample_tkip_key.length = 32 ∧
    set_key_material .WPA_ALG_TKIP sample_tkip_key =
      List.replicate 16 0xAA ++ List.replicate 8 0xCC ++ List.replicate 8 0xBB ∧
    set_key_material .WPA_ALG_TKIP
        (List.replicate 16 0xAA ++ List.replicate 8 0xCC ++ List.replicate 8 0xBB) =
      sample_tkip_key ∧
    set_key_material .WPA_ALG_TKIP sample_tkip_key ≠ sample_tkip_key ∧
    set_key_material .WPA_ALG_TKIP (set_key_material .WPA_ALG_TKIP sample_tkip_key) =
      sample_tkip_key :=
  ⟨by decide,
   ((tkip_transform_involution sample_tkip_key (by decide)).2.2.2.2.1
      (List.replicate 16 0xAA) (List.replicate 8 0xBB) (List.replicate 8 0xCC)
      (by decide) (by decide) (by decide) rfl).1,
   ((tkip_transform_involution sample_tkip_key (by decide)).2.2.2.2.1
      (List.replicate 16 0xAA) (List.replicate 8 0xBB) (List.replicate 8 0xCC)
      (by decide) (by decide) (by decide) rfl).2,
   by decide,
   (tkip_transform_involution sample_tkip_key (by decide)).2.1⟩

/-- C4 as stated fails: with capacity 4 and the driver up, five `add_pmkid` calls with
distinct BSSIDs on the empty cache leave five entries in the cache, the oldest one
included. -/
theorem pmkid_cache_exceeds_capacity :
    (pmkid_run kernel_ok state_init
      [.add (mac 1) (pmk 1), .add (mac 2) (pmk 2), .add (mac 3) (pmk 3), .add (mac 4) (pmk 4),
       .add (mac 5) (pmk 5)]).drv.no_of_pmkid = 4 ∧
    (pmkid_run kernel_ok state_init
      [.add (mac 1) (pmk 1), .add (mac 2) (pmk 2), .add (mac 3) (pmk 3), .add (mac 4) (pmk 4),
       .add (mac 5) (pmk 5)]).drv.pmkid.length = 5 ∧
    ¬ ((pmkid_run kernel_ok state_init
      [.add (mac 1) (pmk 1), .add (mac 2) (pmk 2), .add (mac 3) (pmk 3), .add (mac 4) (pmk 4),
       .add (mac 5) (pmk 5)]).drv.pmkid.length ≤ 4) ∧
    (⟨mac 1, pmk 1⟩ : ndis_pmkid_entry) ∈ (pmkid_run kernel_ok state_init
      [.add (mac 1) (pmk 1), .add (mac 2) (pmk 2), .add (mac 3) (pmk 3), .add (mac 4) (pmk 4),
       .add (mac 5) (pmk 5)]).drv.pmkid := by
  refine ⟨?_, ?_, ?_, ?_⟩ <;> decide

/-- C4 amended. Capacity `c > 0`, driver up. After `add_pmkid` is called with `c + 1`
pairwise distinct BSSIDs on the empty cache, the cache list holds all `c + 1` entries,
most recently inserted first; the record pushed last carries exactly `c` pairs, namely
all but the oldest, most recent first. After any sequence of add, remove and flush,
every record pushed has a count of at most `c` and carries exactly that many pairs. -/
theorem pmkid_record_bounded_by_capacity (K : Kernel) (s : State)
    (hup : s.drv.g_driver_down ≠ 1) (hc : 0 < s.drv.no_of_pmkid) :
    (∀ adds : List (MacAddr × Pmkid), s.drv.pmkid = [] → (adds.map Prod.fst).Nodup →
      (adds.length : Int) = s.drv.no_of_pmkid + 1 →
      (pmkid_run K s (adds.map fun a => pmkid_op.add a.1 a.2)).drv.pmkid =
        (adds.reverse.map fun a => ({ bssid := a.1, pmkid := a.2 } : ndis_pmkid_entry)) ∧
      ((pmkid_run K s (adds.map fun a => pmkid_op.add a.1 a.2)).drv.pmkid.length : Int) =
        s.drv.no_of_pmkid + 1 ∧
      ∃ p : NDIS_802_11_PMKID,
        (pmkid_records_sent (issued s.calls.length
          (pmkid_run K s (adds.map fun a => pmkid_op.add a.1 a.2)))).getLast? = some p ∧
        (p.BSSIDInfoCount : Int) = s.drv.no_of_pmkid ∧
        p.BSSIDInfo =
          adds.tail.reverse.map fun a => ({ BSSID := a.1, PMKID := a.2 } : BSSID_INFO)) ∧
    (∀ ops : List pmkid_op,
      ∀ p ∈ pmkid_records_sent (issued s.calls.length (pmkid_run K s ops)),
        (p.BSSIDInfoCount : Int) ≤ s.drv.no_of_pmkid ∧
        p.BSSIDInfo.length = p.BSSIDInfoCount) := by
  have hc0 : s.drv.no_of_pmkid ≠ 0 := by omega
  refine ⟨?_, ?_⟩
  · intro adds hempty hnd hlen
    have hl : pmkid_run_list s.drv.pmkid (adds.map fun a => pmkid_op.add a.1 a.2) =
        (adds.reverse.map fun a => ({ bssid := a.1, pmkid := a.2 } : ndis_pmkid_entry)) := by
      rw [pmkid_run_list_adds adds _ hnd (by simp [hempty]), hempty, List.append_nil]
    have hcache : (pmkid_run K s (adds.map fun a => pmkid_op.add a.1 a.2)).drv.pmkid =
        (adds.reverse.map fun a => ({ bssid := a.1, pmkid := a.2 } : ndis_pmkid_entry)) := by
      rw [pmkid_run_eq K _ s hup hc0]
      exact hl
    refine ⟨hcache, ?_, ?_⟩
    · rw [hcache]; simpa using hlen
    · rw [pmkid_run_issued K _ s hup hc0]
      cases adds with
      | nil => simp at hlen; omega
      | cons a rest =>
        rw [pmkid_run_records_getLast _ _ _ (by simp), hl]
        have hcount := (set_pmkid_record_full s.drv.no_of_pmkid
          (((a :: rest).reverse.map
            fun a => ({ bssid := a.1, pmkid := a.2 } : ndis_pmkid_entry))) hc).1
        simp only [List.length_map, List.length_reverse, List.length_cons] at hcount hlen
        have hn : (set_pmkid_record s.drv.no_of_pmkid
            (((a :: rest).reverse.map
              fun a => ({ bssid := a.1, pmkid := a.2 } : ndis_pmkid_entry)))).BSSIDInfoCount
            = rest.length := by push_cast at hlen; omega
        refine ⟨_, rfl, ?_, ?_⟩
        · rw [hn]; push_cast at hlen; omega
        · have hrec : (set_pmkid_record s.drv.no_of_pmkid
              (((a :: rest).reverse.map
                fun a => ({ bssid := a.1, pmkid := a.2 } : ndis_pmkid_entry)))).BSSIDInfo =
              ((((a :: rest).reverse.map
                fun a => ({ bssid := a.1, pmkid := a.2 } : ndis_pmkid_entry))).take
                  rest.length).map fun entry => { BSSID := entry.bssid, PMKID := entry.pmkid } := by
            rw [← hn]; rfl
          rw [hrec]
          simp [List.take_append_of_le_length]
  · intro ops p hp
    rw [pmkid_run_issued K ops s hup hc0] at hp
    exact pmkid_run_records_bound _ hc ops _ p hp

/-- Instance of C4 amended on the fresh handle (capacity 4): after five adds with distinct
BSSIDs the cache has five entries and the last record pushed has count 4. -/
theorem pmkid_record_bounded_by_capacity_witness :
    state_init.drv.g_driver_down ≠ 1 ∧ 0 < state_init.drv.no_of_pmkid ∧
    ((pmkid_run kernel_ok state_init
      ([(mac 1, pmk 1), (mac 2, pmk 2), (mac 3, pmk 3), (mac 4, pmk 4), (mac 5, pmk 5)].map
        fun a => pmkid_op.add a.1 a.2)).drv.pmkid.length : Int) = state_init.drv.no_of_pmkid + 1 := by
  refine ⟨by decide, by decide, ?_⟩
  exact ((pmkid_record_bounded_by_capacity kernel_ok state_init (by decide) (by decide)).1
    [(mac 1, pmk 1), (mac 2, pmk 2), (mac 3, pmk 3), (mac 4, pmk 4), (mac 5, pmk 5)]
    rfl (by decide) (by decide)).2.1

/-- C5. Driver up, capacity > 0, cache holding an entry for BSSID `b`: `add_pmkid(b, p)`
leaves the cache length unchanged and the new cache is the entry `(b, p)` followed by the
old cache with its first entry for `b` taken out, the other entries unchanged and in their
old order. -/
theorem add_pmkid_existing_promotes (K : Kernel) (s : State) (b : MacAddr) (p : Pmkid)
    (hup : s.drv.g_driver_down ≠ 1) (hc : 0 < s.drv.no_of_pmkid)
    (hmem : ∃ e ∈ s.drv.pmkid, e.bssid = b) :
    (wpa_driver_ralink_add_pmkid K s b p).1.drv.pmkid.length = s.drv.pmkid.length ∧
    (wpa_driver_ralink_add_pmkid K s b p).1.drv.pmkid =
      { bssid := b, pmkid := p } :: s.drv.pmkid.eraseP (fun e => decide (e.bssid = b)) := by
  have hc0 : s.drv.no_of_pmkid ≠ 0 := by omega
  rw [add_pmkid_fst K s b p hup hc0]
  simp only
  rw [add_pmkid_list_present b p _ hmem]
  refine ⟨?_, rfl⟩
  obtain ⟨e, he, heb⟩ := hmem
  rw [List.length_cons, List.length_eraseP_of_mem he (by simpa using heb)]
  have : 0 < s.drv.pmkid.length := List.length_pos_of_mem he
  omega

/-- Instance of C5: re-adding the last of three cached BSSIDs with a new PMKID moves it to
the front and keeps the other two in order. -/
theorem add_pmkid_existing_promotes_witness :
    (wpa_driver_ralink_add_pmkid kernel_ok
      { state_init with drv := { drv_init with
          pmkid := [⟨mac 1, pmk 1⟩, ⟨mac 2, pmk 2⟩, ⟨mac 3, pmk 3⟩] } }
      (mac 3) (pmk 9)).1.drv.pmkid = [⟨mac 3, pmk 9⟩, ⟨mac 1, pmk 1⟩, ⟨mac 2, pmk 2⟩] :=
  (add_pmkid_existing_promotes kernel_ok
    { state_init with drv := { drv_init with
        pmkid := [⟨mac 1, pmk 1⟩, ⟨mac 2, pmk 2⟩, ⟨mac 3, pmk 3⟩] } }
    (mac 3) (pmk 9) (by decide) (by decide) ⟨⟨mac 3, pmk 3⟩, by decide, rfl⟩).2

/-- C6 fails on the code. Driver up, capacity 4, cache `[(m1, p1), (m2, p2)]`:
`remove_pmkid` with a pair that matches no entry empties the cache instead of leaving it
unchanged, and `remove_pmkid(m2, p2)` empties it instead of leaving `[(m1, p1)]`; only a
match on the first entry behaves as described. The function sets `drv->pmkid = NULL`
before its loop and restores the head only when the first node matches. -/
theorem remove_pmkid_loses_cache :
    (wpa_driver_ralink_remove_pmkid kernel_ok
        { state_init with drv := { drv_init with pmkid := [⟨mac 1, pmk 1⟩, ⟨mac 2, pmk 2⟩] } }
        (mac 9) (pmk 9)).1.drv.pmkid = [] ∧
    (wpa_driver_ralink_remove_pmkid kernel_ok
        { state_init with drv := { drv_init with pmkid := [⟨mac 1, pmk 1⟩, ⟨mac 2, pmk 2⟩] } }
        (mac 2) (pmk 2)).1.drv.pmkid = [] ∧
    (wpa_driver_ralink_remove_pmkid kernel_ok
        { state_init with drv := { drv_init with pmkid := [⟨mac 1, pmk 1⟩, ⟨mac 2, pmk 2⟩] } }
        (mac 1) (pmk 1)).1.drv.pmkid = [⟨mac 2, pmk 2⟩] := by
  refine ⟨?_, ?_, ?_⟩ <;> decide

/-- C7. Driver up, capacity `c > 0`. Each `add_pmkid` and each `remove_pmkid` issues
exactly one control-channel operation, a PMKID record built from the cache as it is after
the call: count `min(n, c)`, length `8 + count * 22`, i-th pair the i-th cache entry.
`flush_pmkid` empties the cache and issues exactly the record with length 8 and count 0. -/
theorem pmkid_mutation_pushes_full_record (K : Kernel) (s : State)
    (hup : s.drv.g_driver_down ≠ 1) (hc : 0 < s.drv.no_of_pmkid) :
    (∀ bssid pmkid, ∃ p : NDIS_802_11_PMKID,
      issued s.calls.length (wpa_driver_ralink_add_pmkid K s bssid pmkid).1 = [.pmkid p] ∧
      is_full_replace_record s.drv.no_of_pmkid
        (wpa_driver_ralink_add_pmkid K s bssid pmkid).1.drv.pmkid p) ∧
    (∀ bssid pmkid, ∃ p : NDIS_802_11_PMKID,
      issued s.calls.length (wpa_driver_ralink_remove_pmkid K s bssid pmkid).1 = [.pmkid p] ∧
      is_full_replace_record s.drv.no_of_pmkid
        (wpa_driver_ralink_remove_pmkid K s bssid pmkid).1.drv.pmkid p) ∧
    (wpa_driver_ralink_flush_pmkid K s).1.drv.pmkid = [] ∧
    issued s.calls.length (wpa_driver_ralink_flush_pmkid K s).1 =
      [.pmkid { Length := 8, BSSIDInfoCount := 0, BSSIDInfo := [] }] := by
  have hc0 : s.drv.no_of_pmkid ≠ 0 := by omega
  refine ⟨?_, ?_, ?_, ?_⟩
  · intro b p
    rw [add_pmkid_fst K s b p hup hc0]
    exact ⟨_, by simp [issued], set_pmkid_record_full _ _ hc⟩
  · intro b p
    rw [remove_pmkid_fst K s b p hup hc0]
    exact ⟨_, by simp [issued], set_pmkid_record_full _ _ hc⟩
  · rw [flush_pmkid_fst K s hup hc0]
  · rw [flush_pmkid_fst K s hup hc0]; simp [issued]

/-- Instance of C7 on the fresh handle: `flush_pmkid` issues exactly the empty record. -/
theorem pmkid_mutation_pushes_full_record_witness :
    state_init.drv.g_driver_down ≠ 1 ∧ 0 < state_init.drv.no_of_pmkid ∧
    issued state_init.calls.length (wpa_driver_ralink_flush_pmkid kernel_ok state_init).1 =
      [.pmkid { Length := 8, BSSIDInfoCount := 0, BSSIDInfo := [] }] :=
  ⟨by decide, by decide,
    (pmkid_mutation_pushes_full_record kernel_ok state_init (by decide) (by decide)).2.2.2⟩

/-- C8. For every association request outside the WPS branch with the driver up, exactly
one authentication-mode constant is sent. Without an IE (absent or empty): Shared when
the allowed algorithms contain shared-key but not open-system, AutoSwitch when they
contain both, Open otherwise. With an IE whose first octet is 48 (RSN): WPA2PSK for
key management PSK, WPA2 otherwise. With an IE with another first octet: WPANone for
key management WPA-None, WPAPSK for PSK, WPA otherwise. -/
theorem associate_auth_mode_sent (CONFIG_WPS : Bool) (K : Kernel) (s : State)
    (params : wpa_driver_associate_params) (hup : s.drv.g_driver_down ≠ 1)
    (hn : ¬ (CONFIG_WPS = true ∧ params.key_mgmt_suite = .KEY_MGMT_WPS)) :
    ((params.wpa_ie = none ∨ params.wpa_ie = some []) →
      (params.auth_alg &&& AUTH_ALG_SHARED_KEY ≠ 0 →
        params.auth_alg &&& AUTH_ALG_OPEN_SYSTEM = 0 →
        auth_modes_sent (issued s.calls.length
          (wpa_driver_ralink_associate CONFIG_WPS K s params).1) =
            [.Ndis802_11AuthModeShared]) ∧
      (params.auth_alg &&& AUTH_ALG_SHARED_KEY ≠ 0 →
        params.auth_alg &&& AUTH_ALG_OPEN_SYSTEM ≠ 0 →
        auth_modes_sent (issued s.calls.length
          (wpa_driver_ralink_associate CONFIG_WPS K s params).1) =
            [.Ndis802_11AuthModeAutoSwitch]) ∧
      (params.auth_alg &&& AUTH_ALG_SHARED_KEY = 0 →
        auth_modes_sent (issued s.calls.length
          (wpa_driver_ralink_associate CONFIG_WPS K s params).1) =
            [.Ndis802_11AuthModeOpen])) ∧
    (∀ (first : u8) (rest : List u8), params.wpa_ie = some (first :: rest) →
      (first.val = 48 →
        (params.key_mgmt_suite = .KEY_MGMT_PSK →
          auth_modes_sent (issued s.calls.length
            (wpa_driver_ralink_associate CONFIG_WPS K s params).1) =
              [.Ndis802_11AuthModeWPA2PSK]) ∧
        (params.key_mgmt_suite ≠ .KEY_MGMT_PSK →
          auth_modes_sent (issued s.calls.length
            (wpa_driver_ralink_associate CONFIG_WPS K s params).1) =
              [.Ndis802_11AuthModeWPA2])) ∧
      (first.val ≠ 48 →
        (params.key_mgmt_suite = .KEY_MGMT_WPA_NONE →
          auth_modes_sent (issued s.calls.length
            (wpa_driver_ralink_associate CONFIG_WPS K s params).1) =
              [.Ndis802_11AuthModeWPANone]) ∧
        (params.key_mgmt_suite = .KEY_MGMT_PSK →
          auth_modes_sent (issued s.calls.length
            (wpa_driver_ralink_associate CONFIG_WPS K s params).1) =
              [.Ndis802_11AuthModeWPAPSK]) ∧
        (params.key_mgmt_suite ≠ .KEY_MGMT_WPA_NONE →
          params.key_mgmt_suite ≠ .KEY_MGMT_PSK →
          auth_modes_sent (issued s.calls.length
            (wpa_driver_ralink_associate CONFIG_WPS K s params).1) =
              [.Ndis802_11AuthModeWPA]))) := by
  rw [(associate_sent_lists CONFIG_WPS K s params hup hn).1]
  refine ⟨?_, ?_⟩
  · intro hie
    have hm : associate_auth_mode params =
        if params.auth_alg &&& AUTH_ALG_SHARED_KEY ≠ 0 then
          if params.auth_alg &&& AUTH_ALG_OPEN_SYSTEM ≠ 0 then .Ndis802_11AuthModeAutoSwitch
          else .Ndis802_11AuthModeShared
        else .Ndis802_11AuthModeOpen := by
      unfold associate_auth_mode
      rcases hie with h | h <;> rw [h]
    rw [hm]
    refine ⟨?_, ?_, ?_⟩
    · intro h1 h2; simp [h1, h2]
    · intro h1 h2; simp [h1, h2]
    · intro h1; simp [h1]
  · intro first rest hie
    unfold associate_auth_mode
    rw [hie]
    simp only [WLAN_EID_RSN]
    refine ⟨?_, ?_⟩
    · intro h48
      refine ⟨?_, ?_⟩
      · intro h; simp [h48, h]
      · intro h; simp [h48, h]
    · intro h48
      refine ⟨?_, ?_, ?_⟩
      · intro h; simp [h48, h]
      · intro h; simp [h48, h]
      · intro h1 h2; simp [h48, h1, h2]

/-- Instance of C8: key management PSK with an RSN IE gives WPA2-PSK. -/
theorem associate_auth_mode_sent_witness :
    state_init.drv.g_driver_down ≠ 1 ∧
    auth_modes_sent (issued state_init.calls.length
      (wpa_driver_ralink_associate true kernel_ok state_init
        { ssid := [0x6E, 0x65, 0x74], wpa_ie := some [48, 20, 1, 0], pairwise_suite := .CIPHER_CCMP,
          group_suite := .CIPHER_CCMP, key_mgmt_suite := .KEY_MGMT_PSK, auth_alg := 1,
          mode := 0 }).1) = [.Ndis802_11AuthModeWPA2PSK] :=
  ⟨by decide,
    (((associate_auth_mode_sent true kernel_ok state_init
      { ssid := [0x6E, 0x65, 0x74], wpa_ie := some [48, 20, 1, 0], pairwise_suite := .CIPHER_CCMP,
        group_suite := .CIPHER_CCMP, key_mgmt_suite := .KEY_MGMT_PSK, auth_alg := 1,
        mode := 0 } (by decide) (by decide)).2 48 [20, 1, 0] rfl).1 rfl).1 rfl⟩

/-- C9 as stated fails: with pairwise cipher none and group cipher WEP40 (or WEP104) the
level sent is "disabled", not level 1. -/
theorem associate_group_wep_sends_disabled :
    encr_levels_sent (issued state_init.calls.length
      (wpa_driver_ralink_associate false kernel_ok state_init
        { ssid := [0x6E, 0x65, 0x74], wpa_ie := none, pairwise_suite := .CIPHER_NONE,
          group_suite := .CIPHER_WEP40, key_mgmt_suite := .KEY_MGMT_NONE, auth_alg := 1,
          mode := 0 }).1) = [.Ndis802_11EncryptionDisabled] ∧
    encr_levels_sent (issued state_init.calls.length
      (wpa_driver_ralink_associate false kernel_ok state_init
        { ssid := [0x6E, 0x65, 0x74], wpa_ie := none, pairwise_suite := .CIPHER_NONE,
          group_suite := .CIPHER_WEP104, key_mgmt_suite := .KEY_MGMT_NONE, auth_alg := 1,
          mode := 0 }).1) = [.Ndis802_11EncryptionDisabled] ∧
    encr_levels_sent (issued state_init.calls.length
      (wpa_driver_ralink_associate false kernel_ok state_init
        { ssid := [0x6E, 0x65, 0x74], wpa_ie := none, pairwise_suite := .CIPHER_NONE,
          group_suite := .CIPHER_WEP40, key_mgmt_suite := .KEY_MGMT_NONE, auth_alg := 1,
          mode := 0 }).1) ≠ [.Ndis802_11Encryption1Enabled] := by
  refine ⟨?_, ?_, ?_⟩ <;> decide

/-- C9 amended. For every association request outside the WPS branch with the driver up,
exactly one encryption level is sent: level 3 for pairwise CCMP, level 2 for TKIP, level 1
for WEP40 and WEP104; for pairwise cipher none, level 3 when the group cipher is CCMP,
level 2 when it is TKIP and "disabled" for every other group cipher (WEP40 and WEP104
included); "disabled" for any other pairwise cipher. -/
theorem associate_encr_level_sent (CONFIG_WPS : Bool) (K : Kernel) (s : State)
    (params : wpa_driver_associate_params) (hup : s.drv.g_driver_down ≠ 1)
    (hn : ¬ (CONFIG_WPS = true ∧ params.key_mgmt_suite = .KEY_MGMT_WPS)) :
    (params.pairwise_suite = .CIPHER_CCMP →
      encr_levels_sent (issued s.calls.length
        (wpa_driver_ralink_associate CONFIG_WPS K s params).1) =
          [.Ndis802_11Encryption3Enabled]) ∧
    (params.pairwise_suite = .CIPHER_TKIP →
      encr_levels_sent (issued s.calls.length
        (wpa_driver_ralink_associate CONFIG_WPS K s params).1) =
          [.Ndis802_11Encryption2Enabled]) ∧
    (params.pairwise_suite = .CIPHER_WEP40 ∨ params.pairwise_suite = .CIPHER_WEP104 →
      encr_levels_sent (issued s.calls.length
        (wpa_driver_ralink_associate CONFIG_WPS K s params).1) =
          [.Ndis802_11Encryption1Enabled]) ∧
    (params.pairwise_suite = .CIPHER_NONE →
      (params.group_suite = .CIPHER_CCMP →
        encr_levels_sent (issued s.calls.length
          (wpa_driver_ralink_associate CONFIG_WPS K s params).1) =
            [.Ndis802_11Encryption3Enabled]) ∧
      (params.group_suite = .CIPHER_TKIP →
        encr_levels_sent (issued s.calls.length
          (wpa_driver_ralink_associate CONFIG_WPS K s params).1) =
            [.Ndis802_11Encryption2Enabled]) ∧
      (params.group_suite ≠ .CIPHER_CCMP → params.group_suite ≠ .CIPHER_TKIP →
        encr_levels_sent (issued s.calls.length
          (wpa_driver_ralink_associate CONFIG_WPS K s params).1) =
            [.Ndis802_11EncryptionDisabled])) ∧
    (∀ v, params.pairwise_suite = .CIPHER_OTHER v →
      encr_levels_sent (issued s.calls.length
        (wpa_driver_ralink_associate CONFIG_WPS K s params).1) =
          [.Ndis802_11EncryptionDisabled]) := by
  rw [(associate_sent_lists CONFIG_WPS K s params hup hn).2.1]
  unfold associate_encr
  refine ⟨?_, ?_, ?_, ?_, ?_⟩
  · intro h; rw [h]
  · intro h; rw [h]
  · intro h; rcases h with h | h <;> rw [h]
  · intro h; rw [h]
    refine ⟨?_, ?_, ?_⟩
    · intro g; simp [g]
    · intro g; simp [g]
    · intro g1 g2; simp [g1, g2]
  · intro v h; rw [h]

/-- Instance of C9 amended: pairwise CCMP gives level 3. -/
theorem associate_encr_level_sent_witness :
    state_init.drv.g_driver_down ≠ 1 ∧
    encr_levels_sent (issued state_init.calls.length
      (wpa_driver_ralink_associate true kernel_ok state_init
        { ssid := [0x6E, 0x65, 0x74], wpa_ie := some [48, 20, 1, 0], pairwise_suite := .CIPHER_CCMP,
          group_suite := .CIPHER_CCMP, key_mgmt_suite := .KEY_MGMT_PSK, auth_alg := 1,
          mode := 0 }).1) = [.Ndis802_11Encryption3Enabled] :=
  ⟨by decide,
    (associate_encr_level_sent true kernel_ok state_init
      { ssid := [0x6E, 0x65, 0x74], wpa_ie := some [48, 20, 1, 0], pairwise_suite := .CIPHER_CCMP,
        group_suite := .CIPHER_CCMP, key_mgmt_suite := .KEY_MGMT_PSK, auth_alg := 1,
        mode := 0 } (by decide) (by decide)).1 rfl⟩

/-- C10 as stated fails: after a `set_key` call that installed a WEP key (so that
`bAddWepKey` is set), `associate` with key management PSK still sends the require-key
flag as true. -/
theorem associate_require_key_true_after_wep :
    (wpa_driver_ralink_set_key kernel_ok state_init .WPA_ALG_WEP none 0 1 none
      [1, 2, 3, 4, 5]).1.bAddWepKey = true ∧
    require_key_sent
      (issued
        (wpa_driver_ralink_set_key kernel_ok state_init .WPA_ALG_WEP none 0 1 none
          [1, 2, 3, 4, 5]).1.calls.length
        (wpa_driver_ralink_associate false kernel_ok
          (wpa_driver_ralink_set_key kernel_ok state_init .WPA_ALG_WEP none 0 1 none
            [1, 2, 3, 4, 5]).1
          { ssid := [0x6E, 0x65, 0x74], wpa_ie := none, pairwise_suite := .CIPHER_WEP40,
            group_suite := .CIPHER_WEP40, key_mgmt_suite := .KEY_MGMT_PSK, auth_alg := 1,
            mode := 0 }).1) = [true] ∧
    require_key_sent
      (issued
        (wpa_driver_ralink_set_key kernel_ok state_init .WPA_ALG_WEP none 0 1 none
          [1, 2, 3, 4, 5]).1.calls.length
        (wpa_driver_ralink_associate false kernel_ok
          (wpa_driver_ralink_set_key kernel_ok state_init .WPA_ALG_WEP none 0 1 none
            [1, 2, 3, 4, 5]).1
          { ssid := [0x6E, 0x65, 0x74], wpa_ie := none, pairwise_suite := .CIPHER_WEP40,
            group_suite := .CIPHER_WEP40, key_mgmt_suite := .KEY_MGMT_PSK, auth_alg := 1,
            mode := 0 }).1) ≠ [false] := by
  refine ⟨?_, ?_, ?_⟩ <;> decide

/-- C10 amended. For every association request outside the WPS branch with the driver up,
exactly one require-key flag is sent, and it is false exactly when the key-management
suite is "802.1X, no WPA" and the shared boolean `bAddWepKey` is set; for every other
key-management suite it is true whatever the boolean. -/
theorem associate_require_key_sent (CONFIG_WPS : Bool) (K : Kernel) (s : State)
    (params : wpa_driver_associate_params) (hup : s.drv.g_driver_down ≠ 1)
    (hn : ¬ (CONFIG_WPS = true ∧ params.key_mgmt_suite = .KEY_MGMT_WPS)) :
    ∃ flag : Bool,
      require_key_sent (issued s.calls.length
        (wpa_driver_ralink_associate CONFIG_WPS K s params).1) = [flag] ∧
      (flag = false ↔
        params.key_mgmt_suite = .KEY_MGMT_802_1X_NO_WPA ∧ s.bAddWepKey = true) := by
  refine ⟨associate_required_key s.bAddWepKey params,
    (associate_sent_lists CONFIG_WPS K s params hup hn).2.2, ?_⟩
  unfold associate_required_key
  by_cases hk : params.key_mgmt_suite = .KEY_MGMT_802_1X_NO_WPA <;>
    cases s.bAddWepKey <;> simp [hk]

/-- Instance of C10 amended: on a fresh handle (`bAddWepKey` clear) with key management
"802.1X, no WPA" exactly one flag is sent. -/
theorem associate_require_key_sent_witness :
    state_init.drv.g_driver_down ≠ 1 ∧
    ∃ flag : Bool,
      require_key_sent (issued state_init.calls.length
        (wpa_driver_ralink_associate false kernel_ok state_init
          { ssid := [0x6E, 0x65, 0x74], wpa_ie := none, pairwise_suite := .CIPHER_WEP40,
            group_suite := .CIPHER_WEP40, key_mgmt_suite := .KEY_MGMT_802_1X_NO_WPA,
            auth_alg := 1, mode := 0 }).1) = [flag] ∧
      (flag = false ↔
        wpa_key_mgmt.KEY_MGMT_802_1X_NO_WPA = .KEY_MGMT_802_1X_NO_WPA ∧
          state_init.bAddWepKey = true) :=
  ⟨by decide,
    associate_require_key_sent false kernel_ok state_init
      { ssid := [0x6E, 0x65, 0x74], wpa_ie := none, pairwise_suite := .CIPHER_WEP40,
        group_suite := .CIPHER_WEP40, key_mgmt_suite := .KEY_MGMT_802_1X_NO_WPA,
        auth_alg := 1, mode := 0 } (by decide) (by decide)⟩

/-- C11. Driver up, non-empty key material, any key index, default-tx value, peer address
and sequence counter: after `set_key` with algorithm WEP, an immediately following
`associate` with key management "802.1X, no WPA" sends the require-key flag as false and
the 802.1X enable flag as true; after a `set_key` call that was not a WEP installation
(another algorithm, or empty key material) the same `associate` sends require-key as
true. -/
theorem wep_set_key_then_associate (CONFIG_WPS : Bool) (K : Kernel) (s : State)
    (addr : Option MacAddr) (key_idx set_tx : Int) (seq : Option (List u8)) (key : List u8)
    (params : wpa_driver_associate_params)
    (hup : s.drv.g_driver_down ≠ 1) (hkey : key.length ≠ 0)
    (hkm : params.key_mgmt_suite = .KEY_MGMT_802_1X_NO_WPA) :
    require_key_sent
      (issued (wpa_driver_ralink_set_key K s .WPA_ALG_WEP addr key_idx set_tx seq key).1.calls.length
        (wpa_driver_ralink_associate CONFIG_WPS K
          (wpa_driver_ralink_set_key K s .WPA_ALG_WEP addr key_idx set_tx seq key).1 params).1)
      = [false] ∧
    ieee8021x_sent
      (issued (wpa_driver_ralink_set_key K s .WPA_ALG_WEP addr key_idx set_tx seq key).1.calls.length
        (wpa_driver_ralink_associate CONFIG_WPS K
          (wpa_driver_ralink_set_key K s .WPA_ALG_WEP addr key_idx set_tx seq key).1 params).1)
      = [true] ∧
    (∀ (alg : wpa_alg) (addr2 : Option MacAddr) (key_idx2 set_tx2 : Int)
        (seq2 : Option (List u8)) (key2 : List u8),
      ¬ (alg = .WPA_ALG_WEP ∧ key2.length ≠ 0) →
      require_key_sent
        (issued (wpa_driver_ralink_set_key K s alg addr2 key_idx2 set_tx2 seq2 key2).1.calls.length
          (wpa_driver_ralink_associate CONFIG_WPS K
            (wpa_driver_ralink_set_key K s alg addr2 key_idx2 set_tx2 seq2 key2).1 params).1)
        = [true]) := by
  have hn : ¬ (CONFIG_WPS = true ∧ params.key_mgmt_suite = .KEY_MGMT_WPS) := by
    rw [hkm]; intro h; exact absurd h.2 (by decide)
  have key_fact : ∀ (alg : wpa_alg) (addr2 : Option MacAddr) (key_idx2 set_tx2 : Int)
      (seq2 : Option (List u8)) (key2 : List u8),
      require_key_sent
        (issued (wpa_driver_ralink_set_key K s alg addr2 key_idx2 set_tx2 seq2 key2).1.calls.length
          (wpa_driver_ralink_associate CONFIG_WPS K
            (wpa_driver_ralink_set_key K s alg addr2 key_idx2 set_tx2 seq2 key2).1 params).1)
        = [associate_required_key (decide (alg = .WPA_ALG_WEP ∧ key2.length ≠ 0)) params] ∧
      ieee8021x_sent
        (issued (wpa_driver_ralink_set_key K s alg addr2 key_idx2 set_tx2 seq2 key2).1.calls.length
          (wpa_driver_ralink_associate CONFIG_WPS K
            (wpa_driver_ralink_set_key K s alg addr2 key_idx2 set_tx2 seq2 key2).1 params).1)
        = [associate_ieee8021xMode params] := by
    intro alg addr2 key_idx2 set_tx2 seq2 key2
    obtain ⟨hdrv, hflag⟩ := set_key_state K s alg addr2 key_idx2 set_tx2 seq2 key2 hup
    have hup1 : (wpa_driver_ralink_set_key K s alg addr2 key_idx2 set_tx2 seq2 key2).1.drv.g_driver_down
        ≠ 1 := by rw [hdrv]; exact hup
    refine ⟨?_, (associate_sent_flags CONFIG_WPS K _ params hup1 hn).1⟩
    rw [(associate_sent_lists CONFIG_WPS K _ params hup1 hn).2.2, hflag]
  refine ⟨?_, ?_, ?_⟩
  · rw [(key_fact .WPA_ALG_WEP addr key_idx set_tx seq key).1]
    simp [associate_required_key, hkm, hkey]
  · rw [(key_fact .WPA_ALG_WEP addr key_idx set_tx seq key).2]
    simp [associate_ieee8021xMode, hkm]
  · intro alg addr2 key_idx2 set_tx2 seq2 key2 hnot
    rw [(key_fact alg addr2 key_idx2 set_tx2 seq2 key2).1]
    simp only [associate_required_key, hkm, if_true]
    rw [decide_eq_false hnot]
    rfl

/-- Instance of C11: the scenario `set_key(WEP, index 0, default tx, 5 bytes)` followed by
`associate` with "802.1X, no WPA". -/
theorem wep_set_key_then_associate_witness :
    state_init.drv.g_driver_down ≠ 1 ∧
    require_key_sent
      (issued (wpa_driver_ralink_set_key kernel_ok state_init .WPA_ALG_WEP none 0 1 none
          [1, 2, 3, 4, 5]).1.calls.length
        (wpa_driver_ralink_associate false kernel_ok
          (wpa_driver_ralink_set_key kernel_ok state_init .WPA_ALG_WEP none 0 1 none
            [1, 2, 3, 4, 5]).1
          { ssid := [0x6E, 0x65, 0x74], wpa_ie := none, pairwise_suite := .CIPHER_WEP40,
            group_suite := .CIPHER_WEP40, key_mgmt_suite := .KEY_MGMT_802_1X_NO_WPA,
            auth_alg := 1, mode := 0 }).1) = [false] :=
  ⟨by decide,
    (wep_set_key_then_associate false kernel_ok state_init none 0 1 none [1, 2, 3, 4, 5]
      { ssid := [0x6E, 0x65, 0x74], wpa_ie := none, pairwise_suite := .CIPHER_WEP40,
        group_suite := .CIPHER_WEP40, key_mgmt_suite := .KEY_MGMT_802_1X_NO_WPA,
        auth_alg := 1, mode := 0 } (by decide) (by decide) rfl).1⟩

/-- C12. For every association request outside the WPS branch with the driver up, exactly
one 802.1X enable flag and exactly one encryption level are sent; the flag is true iff the
key-management suite is "802.1X, no WPA"; exactly one drop-unencrypted operation, with
value 0, is issued when the flag is false and the level is level 1, and none in every
other case. -/
theorem associate_ieee8021x_and_drop_unencrypted (CONFIG_WPS : Bool) (K : Kernel) (s : State)
    (params : wpa_driver_associate_params) (hup : s.drv.g_driver_down ≠ 1)
    (hn : ¬ (CONFIG_WPS = true ∧ params.key_mgmt_suite = .KEY_MGMT_WPS)) :
    ∃ (flag : Bool) (encr : NDIS_802_11_WEP_STATUS),
      ieee8021x_sent (issued s.calls.length
        (wpa_driver_ralink_associate CONFIG_WPS K s params).1) = [flag] ∧
      encr_levels_sent (issued s.calls.length
        (wpa_driver_ralink_associate CONFIG_WPS K s params).1) = [encr] ∧
      (flag = true ↔ params.key_mgmt_suite = .KEY_MGMT_802_1X_NO_WPA) ∧
      (flag = false ∧ encr = .Ndis802_11Encryption1Enabled →
        drop_unencrypted_sent (issued s.calls.length
          (wpa_driver_ralink_associate CONFIG_WPS K s params).1) = [0]) ∧
      (¬ (flag = false ∧ encr = .Ndis802_11Encryption1Enabled) →
        drop_unencrypted_sent (issued s.calls.length
          (wpa_driver_ralink_associate CONFIG_WPS K s params).1) = []) := by
  refine ⟨associate_ieee8021xMode params, associate_encr params,
    (associate_sent_flags CONFIG_WPS K s params hup hn).1,
    (associate_sent_lists CONFIG_WPS K s params hup hn).2.1, ?_, ?_, ?_⟩
  · simp [associate_ieee8021xMode]
  · intro h
    rw [(associate_sent_flags CONFIG_WPS K s params hup hn).2, if_pos h]
  · intro h
    rw [(associate_sent_flags CONFIG_WPS K s params hup hn).2, if_neg h]

/-- Instance of C12: static WEP (key management none, pairwise WEP40) sends the 802.1X flag
as false and issues drop-unencrypted = 0. -/
theorem associate_ieee8021x_and_drop_unencrypted_witness :
    state_init.drv.g_driver_down ≠ 1 ∧
    ∃ (flag : Bool) (encr : NDIS_802_11_WEP_STATUS),
      ieee8021x_sent (issued state_init.calls.length
        (wpa_driver_ralink_associate false kernel_ok state_init
          { ssid := [0x6E, 0x65, 0x74], wpa_ie := none, pairwise_suite := .CIPHER_WEP40,
            group_suite := .CIPHER_WEP40, key_mgmt_suite := .KEY_MGMT_NONE,
            auth_alg := 1, mode := 0 }).1) = [flag] ∧
      encr_levels_sent (issued state_init.calls.length
        (wpa_driver_ralink_associate false kernel_ok state_init
          { ssid := [0x6E, 0x65, 0x74], wpa_ie := none, pairwise_suite := .CIPHER_WEP40,
            group_suite := .CIPHER_WEP40, key_mgmt_suite := .KEY_MGMT_NONE,
            auth_alg := 1, mode := 0 }).1) = [encr] ∧
      (flag = true ↔ wpa_key_mgmt.KEY_MGMT_NONE = .KEY_MGMT_802_1X_NO_WPA) ∧
      (flag = false ∧ encr = .Ndis802_11Encryption1Enabled →
        drop_unencrypted_sent (issued state_init.calls.length
          (wpa_driver_ralink_associate false kernel_ok state_init
            { ssid := [0x6E, 0x65, 0x74], wpa_ie := none, pairwise_suite := .CIPHER_WEP40,
              group_suite := .CIPHER_WEP40, key_mgmt_suite := .KEY_MGMT_NONE,
              auth_alg := 1, mode := 0 }).1) = [0]) ∧
      (¬ (flag = false ∧ encr = .Ndis802_11Encryption1Enabled) →
        drop_unencrypted_sent (issued state_init.calls.length
          (wpa_driver_ralink_associate false kernel_ok state_init
            { ssid := [0x6E, 0x65, 0x74], wpa_ie := none, pairwise_suite := .CIPHER_WEP40,
              group_suite := .CIPHER_WEP40, key_mgmt_suite := .KEY_MGMT_NONE,
              auth_alg := 1, mode := 0 }).1) = []) :=
  ⟨by decide,
    associate_ieee8021x_and_drop_unencrypted false kernel_ok state_init
      { ssid := [0x6E, 0x65, 0x74], wpa_ie := none, pairwise_suite := .CIPHER_WEP40,
        group_suite := .CIPHER_WEP40, key_mgmt_suite := .KEY_MGMT_NONE,
        auth_alg := 1, mode := 0 } (by decide) (by decide)⟩

/-- C13. Driver up, SSID of at most 32 octets (the size of the `Ssid` array), any pattern of
accepted and rejected operations `K`. The operations `associate` issues are those of the
run in which the driver accepts everything, in the same order: outside the WPS branch
mode, (with WPS support compiled in: supplicant support and an empty generic IE,)
authentication mode, require-key flag, 802.1X flag, encryption level, drop-unencrypted
when it applies, SSID; in the WPS branch mode, supplicant support, generic IE,
authentication mode, encryption level, SSID. The last operation is the set-SSID record
with the requested length and bytes, and the result of `associate` is 0 when the driver
accepts that operation and -1 when it rejects it. -/
theorem associate_best_effort (CONFIG_WPS : Bool) (K : Kernel) (s : State)
    (params : wpa_driver_associate_params) (hup : s.drv.g_driver_down ≠ 1)
    (hssid : params.ssid.length ≤ 32) :
    issued s.calls.length (wpa_driver_ralink_associate CONFIG_WPS K s params).1 =
      issued s.calls.length (wpa_driver_ralink_associate CONFIG_WPS kernel_ok s params).1 ∧
    (¬ (CONFIG_WPS = true ∧ params.key_mgmt_suite = .KEY_MGMT_WPS) →
      issued s.calls.length (wpa_driver_ralink_associate CONFIG_WPS K s params).1 =
        [Request.infrastructure_mode
          (if params.mode = IEEE80211_MODE_IBSS then .Ndis802_11IBSS
           else .Ndis802_11Infrastructure)] ++
        (if CONFIG_WPS = true then
          [Request.wpa_supplicant_support (if s.drv.ap_scan = 1 then 0x01 else 0x02),
           Request.gen_ie []]
         else []) ++
        [Request.authentication_mode (associate_auth_mode params),
         Request.ieee8021x_require_key (associate_required_key s.bAddWepKey params),
         Request.ieee8021x (associate_ieee8021xMode params),
         Request.wep_status (associate_encr params)] ++
        (if associate_ieee8021xMode params = false ∧
            associate_encr params = .Ndis802_11Encryption1Enabled then
          [Request.drop_unencrypted 0]
         else []) ++
        [Request.ssid { SsidLength := params.ssid.length,
                        Ssid := params.ssid ++ List.replicate (32 - params.ssid.length) 0 }]) ∧
    (CONFIG_WPS = true ∧ params.key_mgmt_suite = .KEY_MGMT_WPS →
      issued s.calls.length (wpa_driver_ralink_associate CONFIG_WPS K s params).1 =
        [Request.infrastructure_mode
          (if params.mode = IEEE80211_MODE_IBSS then .Ndis802_11IBSS
           else .Ndis802_11Infrastructure),
         Request.wpa_supplicant_support 0x80,
         Request.gen_ie (params.wpa_ie.getD []),
         Request.authentication_mode .Ndis802_11AuthModeOpen,
         Request.wep_status .Ndis802_11EncryptionDisabled,
         Request.ssid { SsidLength := params.ssid.length,
                        Ssid := params.ssid ++ List.replicate (32 - params.ssid.length) 0 }]) ∧
    (∃ buf : NDIS_802_11_SSID,
      (wpa_driver_ralink_associate CONFIG_WPS K s params).1.calls.getLast? = some (.ssid buf) ∧
      buf.SsidLength = params.ssid.length ∧ buf.Ssid.length = 32 ∧
      buf.Ssid.take buf.SsidLength = params.ssid) ∧
    (wpa_driver_ralink_associate CONFIG_WPS K s params).2 =
      (if K.ioctl_ok ((wpa_driver_ralink_associate CONFIG_WPS K s params).1.calls.length - 1)
       then 0 else -1) := by
  obtain ⟨s2, h2⟩ := associate_ends_with_set_ssid CONFIG_WPS K s params hup
  refine ⟨?_, ?_, ?_, ?_, ?_⟩
  · by_cases hb : CONFIG_WPS = true ∧ params.key_mgmt_suite = .KEY_MGMT_WPS
    · obtain ⟨hc, hw⟩ := hb
      subst hc
      rw [associate_issued_wps K s params hup hw, associate_issued_wps kernel_ok s params hup hw]
    · rw [associate_issued CONFIG_WPS K s params hup hb,
        associate_issued CONFIG_WPS kernel_ok s params hup hb]
  · intro hb
    exact associate_issued CONFIG_WPS K s params hup hb
  · intro hb
    obtain ⟨hc, hw⟩ := hb
    subst hc
    exact associate_issued_wps K s params hup hw
  · refine ⟨{ SsidLength := params.ssid.length,
              Ssid := params.ssid ++ List.replicate (32 - params.ssid.length) 0 }, ?_, rfl, ?_, ?_⟩
    · rw [h2, set_ssid_fst]
      simp
    · simp only [List.length_append, List.length_replicate]
      omega
    · simp
  · rw [h2, set_ssid_snd, set_ssid_fst]
    simp

/-- Instance of C13: with a driver that rejects every operation, `associate` for a static
WEP network still issues all six operations in order and returns -1, the status of the
rejected set-SSID operation. -/
theorem associate_best_effort_witness :
    state_init.drv.g_driver_down ≠ 1 ∧
    issued state_init.calls.length
      (wpa_driver_ralink_associate false kernel_fail state_init
        { ssid := [0x6E, 0x65, 0x74], wpa_ie := none, pairwise_suite := .CIPHER_WEP40,
          group_suite := .CIPHER_WEP40, key_mgmt_suite := .KEY_MGMT_NONE,
          auth_alg := 1, mode := 0 }).1 =
      issued state_init.calls.length
        (wpa_driver_ralink_associate false kernel_ok state_init
          { ssid := [0x6E, 0x65, 0x74], wpa_ie := none, pairwise_suite := .CIPHER_WEP40,
            group_suite := .CIPHER_WEP40, key_mgmt_suite := .KEY_MGMT_NONE,
            auth_alg := 1, mode := 0 }).1 ∧
    (wpa_driver_ralink_associate false kernel_fail state_init
        { ssid := [0x6E, 0x65, 0x74], wpa_ie := none, pairwise_suite := .CIPHER_WEP40,
          group_suite := .CIPHER_WEP40, key_mgmt_suite := .KEY_MGMT_NONE,
          auth_alg := 1, mode := 0 }).2 = -1 := by
  have h := associate_best_effort false kernel_fail state_init
    { ssid := [0x6E, 0x65, 0x74], wpa_ie := none, pairwise_suite := .CIPHER_WEP40,
      group_suite := .CIPHER_WEP40, key_mgmt_suite := .KEY_MGMT_NONE,
      auth_alg := 1, mode := 0 } (by decide) (by decide)
  exact ⟨by decide, h.1, by rw [h.2.2.2.2]; rfl⟩

/-- C14 fails on the code. Driver up, the driver rejects every operation: `set_key` with
algorithm none for a pairwise key issues its remove-key record, the driver rejects it, and
`set_key` returns 0 (success); so does a removal by empty key material. On the same driver
an add-key or add-WEP call returns -1. `wpa_driver_ralink_remove_key` returns `res` only
under `res < 0 && res2 < 0`, and `res2` is always 0. -/
theorem set_key_removal_failure_not_reported :
    kernel_fail.ioctl_ok 0 = false ∧
    issued state_init.calls.length
      (wpa_driver_ralink_set_key kernel_fail state_init .WPA_ALG_NONE (some (mac 1)) 0 0 none
        []).1 =
      [.remove_key { Length := 16, KeyIndex := 2 ^ 30, BSSID := mac 1 }] ∧
    (wpa_driver_ralink_set_key kernel_fail state_init .WPA_ALG_NONE (some (mac 1)) 0 0 none
      []).2 = 0 ∧
    (wpa_driver_ralink_set_key kernel_fail state_init .WPA_ALG_CCMP (some (mac 1)) 0 0 none
      []).2 = 0 ∧
    (wpa_driver_ralink_set_key kernel_fail state_init .WPA_ALG_CCMP (some (mac 1)) 0 0 none
      (List.replicate 16 7)).2 = -1 ∧
    (wpa_driver_ralink_set_key kernel_fail state_init .WPA_ALG_WEP (some (mac 1)) 0 0 none
      [1, 2, 3, 4, 5]).2 = -1 := by
  refine ⟨?_, ?_, ?_, ?_, ?_, ?_⟩ <;> decide

/-- C15 as stated fails for a handle that is down: after a WEP key was installed (flag set)
and an Interface-Down event was processed, a `set_key` call for a TKIP key returns -1 and
leaves the flag set, although the call did not take the WEP path. -/
theorem set_key_down_keeps_wep_flag :
    (event_interface_down
      (wpa_driver_ralink_set_key kernel_ok state_init .WPA_ALG_WEP none 0 1 none
        [1, 2, 3, 4, 5]).1).bAddWepKey = true ∧
    (wpa_driver_ralink_set_key kernel_ok
      (event_interface_down
        (wpa_driver_ralink_set_key kernel_ok state_init .WPA_ALG_WEP none 0 1 none
          [1, 2, 3, 4, 5]).1)
      .WPA_ALG_TKIP (some (mac 1)) 0 1 none sample_tkip_key).2 = -1 ∧
    (wpa_driver_ralink_set_key kernel_ok
      (event_interface_down
        (wpa_driver_ralink_set_key kernel_ok state_init .WPA_ALG_WEP none 0 1 none
          [1, 2, 3, 4, 5]).1)
      .WPA_ALG_TKIP (some (mac 1)) 0 1 none sample_tkip_key).1.bAddWepKey = true := by
  refine ⟨?_, ?_, ?_⟩ <;> decide

/-- C15 amended. For every `set_key` call made while the driver is up, whatever the
arguments, the shared flag is true after the call iff the call took the WEP-key path
(algorithm WEP with non-zero key length), so a flag left by an earlier call is cleared; a
`set_key` call made while the down flag is set returns before the reset and leaves the
flag unchanged; no other operation of the driver writes the flag. -/
theorem set_key_wep_flag (K : Kernel) (s : State) (alg : wpa_alg) (addr : Option MacAddr)
    (key_idx set_tx : Int) (seq : Option (List u8)) (key : List u8) :
    (s.drv.g_driver_down ≠ 1 →
      ((wpa_driver_ralink_set_key K s alg addr key_idx set_tx seq key).1.bAddWepKey = true ↔
        alg = .WPA_ALG_WEP ∧ key.length ≠ 0)) ∧
    (s.drv.g_driver_down = 1 →
      (wpa_driver_ralink_set_key K s alg addr key_idx set_tx seq key).1.bAddWepKey =
        s.bAddWepKey) ∧
    (∀ (CONFIG_WPS : Bool) (params : wpa_driver_associate_params),
      (wpa_driver_ralink_associate CONFIG_WPS K s params).1.bAddWepKey = s.bAddWepKey) ∧
    (∀ bssid pmkid, (wpa_driver_ralink_add_pmkid K s bssid pmkid).1.bAddWepKey = s.bAddWepKey) ∧
    (∀ bssid pmkid,
      (wpa_driver_ralink_remove_pmkid K s bssid pmkid).1.bAddWepKey = s.bAddWepKey) ∧
    (wpa_driver_ralink_flush_pmkid K s).1.bAddWepKey = s.bAddWepKey ∧
    (∀ bssid, (wpa_driver_ralink_get_bssid K s bssid).1.bAddWepKey = s.bAddWepKey) ∧
    (wpa_driver_ralink_get_ssid K s).1.bAddWepKey = s.bAddWepKey ∧
    (∀ enabled,
      (wpa_driver_ralink_set_countermeasures K s enabled).1.bAddWepKey = s.bAddWepKey) ∧
    (∀ ssid, (wpa_driver_ralink_scan K s ssid).1.bAddWepKey = s.bAddWepKey) ∧
    (∀ addr reason,
      (wpa_driver_ralink_disassociate K s addr reason).1.bAddWepKey = s.bAddWepKey) ∧
    (∀ addr reason,
      (wpa_driver_ralink_deauthenticate K s addr reason).1.bAddWepKey = s.bAddWepKey) ∧
    (∀ ies, (wpa_driver_ralink_set_probe_req_ie K s ies).bAddWepKey = s.bAddWepKey) ∧
    (∀ r, wpa_driver_ralink_get_scan_results2_fetch K s = some r →
      r.1.bAddWepKey = s.bAddWepKey) ∧
    (event_interface_down s).bAddWepKey = s.bAddWepKey := by
  refine ⟨?_, ?_, other_operations_keep_flag K s⟩
  · intro hup
    rw [(set_key_state K s alg addr key_idx set_tx seq key hup).2]
    simp
  · intro hdown
    unfold wpa_driver_ralink_set_key
    rw [if_pos hdown]

/-- Instance of C15 amended: on an up driver whose flag is set by a WEP installation, a
following TKIP installation clears the flag. -/
theorem set_key_wep_flag_witness :
    (wpa_driver_ralink_set_key kernel_ok state_init .WPA_ALG_WEP none 0 1 none
      [1, 2, 3, 4, 5]).1.drv.g_driver_down ≠ 1 ∧
    (wpa_driver_ralink_set_key kernel_ok state_init .WPA_ALG_WEP none 0 1 none
      [1, 2, 3, 4, 5]).1.bAddWepKey = true ∧
    ¬ ((wpa_driver_ralink_set_key kernel_ok
      (wpa_driver_ralink_set_key kernel_ok state_init .WPA_ALG_WEP none 0 1 none
        [1, 2, 3, 4, 5]).1
      .WPA_ALG_TKIP (some (mac 1)) 0 1 none sample_tkip_key).1.bAddWepKey = true) := by
  refine ⟨by decide, by decide, ?_⟩
  intro h
  have := ((set_key_wep_flag kernel_ok
    (wpa_driver_ralink_set_key kernel_ok state_init .WPA_ALG_WEP none 0 1 none
      [1, 2, 3, 4, 5]).1
    .WPA_ALG_TKIP (some (mac 1)) 0 1 none sample_tkip_key).1 (by decide)).mp h
  exact absurd this.1 (by decide)

/-- C16. For every argument tuple, `set_key` called while the down flag is set returns -1,
leaves the state as it is and issues no control-channel operation. -/
theorem set_key_down_fails_fast (K : Kernel) (s : State) (alg : wpa_alg)
    (addr : Option MacAddr) (key_idx set_tx : Int) (seq : Option (List u8)) (key : List u8)
    (hdown : s.drv.g_driver_down = 1) :
    (wpa_driver_ralink_set_key K s alg addr key_idx set_tx seq key).2 = -1 ∧
    (wpa_driver_ralink_set_key K s alg addr key_idx set_tx seq key).1 = s ∧
    issued s.calls.length
      (wpa_driver_ralink_set_key K s alg addr key_idx set_tx seq key).1 = [] := by
  unfold wpa_driver_ralink_set_key
  rw [if_pos hdown]
  exact ⟨rfl, rfl, by simp [issued]⟩

/-- Instance of C16: a TKIP key on a handle that is down. -/
theorem set_key_down_fails_fast_witness :
    (event_interface_down state_init).drv.g_driver_down = 1 ∧
    (wpa_driver_ralink_set_key kernel_ok (event_interface_down state_init) .WPA_ALG_TKIP
      (some (mac 1)) 0 1 none sample_tkip_key).2 = -1 :=
  ⟨by decide,
    (set_key_down_fails_fast kernel_ok (event_interface_down state_init) .WPA_ALG_TKIP
      (some (mac 1)) 0 1 none sample_tkip_key (by decide)).1⟩

/-- C17 fails on the code. After an Interface-Down event has been processed on the fresh
handle, `set_probe_req_ie` still issues its `RT_OID_WPS_PROBE_REQ_IE` operation and
`get_scan_results2` still issues the `SIOCGIWSCAN` query (and, the driver answering,
goes on to return a result): neither function tests `g_driver_down`. -/
theorem down_operations_still_issued :
    (event_interface_down state_init).drv.g_driver_down = 1 ∧
    (wpa_driver_ralink_set_probe_req_ie kernel_ok (event_interface_down state_init)
      [0xDD, 1, 0]).calls = [.probe_req_ie [0xDD, 1, 0]] ∧
    (wpa_driver_ralink_set_probe_req_ie kernel_fail (event_interface_down state_init)
      [0xDD, 1, 0]).calls = [.probe_req_ie [0xDD, 1, 0]] ∧
    wpa_driver_ralink_get_scan_results2_fetch kernel_ok (event_interface_down state_init) =
      some ({ event_interface_down state_init with calls := [.giwscan 4096] }, some []) ∧
    wpa_driver_ralink_get_scan_results2_fetch kernel_fail (event_interface_down state_init) =
      some ({ event_interface_down state_init with calls := [.giwscan 4096] }, none) := by
  refine ⟨?_, ?_, ?_, ?_, ?_⟩ <;> decide

/-- C18. On the general add-key path (driver up, algorithm neither none nor WEP, non-empty
key) with `0 <= key_idx < 2^29`, the one add-key record written has: index field
`key_idx` plus 2^31 iff default-tx is requested, plus 2^30 iff the key is pairwise (peer
address present and not broadcast), plus 2^29 iff a sequence counter of non-zero length is
supplied, so that bits 31, 30 and 29 are these three flags and the low 29 bits are
`key_idx`; length field `32 + key_len`; key-length field `key_len`; and, for a pairwise
key, the peer address as BSSID. -/
theorem set_key_add_key_header (K : Kernel) (s : State) (alg : wpa_alg) (addr : Option MacAddr)
    (key_idx set_tx : Int) (seq : Option (List u8)) (key : List u8)
    (hup : s.drv.g_driver_down ≠ 1) (hnone : alg ≠ .WPA_ALG_NONE) (hwep : alg ≠ .WPA_ALG_WEP)
    (hlen : key.length ≠ 0) (h0 : 0 ≤ key_idx) (h29 : key_idx < 2 ^ 29) :
    ∃ nkey : NDIS_802_11_KEY,
      add_key_records_sent
        (issued s.calls.length
          (wpa_driver_ralink_set_key K s alg addr key_idx set_tx seq key).1) = [nkey] ∧
      nkey.KeyIndex =
        key_idx.toNat + (if set_tx ≠ 0 then 2 ^ 31 else 0) +
          (if ∃ a, addr = some a ∧ a ≠ MacAddr.broadcast then 2 ^ 30 else 0) +
          (if ∃ q, seq = some q ∧ q.length ≠ 0 then 2 ^ 29 else 0) ∧
      (nkey.KeyIndex.testBit 31 = true ↔ set_tx ≠ 0) ∧
      (nkey.KeyIndex.testBit 30 = true ↔ ∃ a, addr = some a ∧ a ≠ MacAddr.broadcast) ∧
      (nkey.KeyIndex.testBit 29 = true ↔ ∃ q, seq = some q ∧ q.length ≠ 0) ∧
      nkey.KeyIndex % 2 ^ 29 = key_idx.toNat ∧
      nkey.Length = 32 + key.length ∧
      nkey.KeyLength = key.length ∧
      (∀ a, addr = some a → a ≠ MacAddr.broadcast → nkey.BSSID = a) := by
  rw [set_key_add_key_issued K s alg addr key_idx set_tx seq key hup hnone hwep hlen]
  have hk : key_idx.toNat < 2 ^ 29 := by omega
  have hu : to_u32 key_idx = key_idx.toNat := by
    unfold to_u32
    rw [Int.emod_eq_of_lt h0 (by omega)]
  have hseq : seq_present seq = true ↔ ∃ q, seq = some q ∧ q.length ≠ 0 := by
    cases seq with
    | none => simp [seq_present]
    | some q => simp [seq_present]
  have hgrp := set_key_group_eq_false_iff addr
  have hidx : ∀ (pw : Int) (b : MacAddr), (pw ≠ 0 ↔ ∃ a, addr = some a ∧ a ≠ MacAddr.broadcast) →
      (set_key_record alg key_idx set_tx pw b seq key).KeyIndex =
        key_idx.toNat + (if set_tx ≠ 0 then 2 ^ 31 else 0) +
          (if ∃ a, addr = some a ∧ a ≠ MacAddr.broadcast then 2 ^ 30 else 0) +
          (if ∃ q, seq = some q ∧ q.length ≠ 0 then 2 ^ 29 else 0) := by
    intro pw b hpw
    have h := key_index_flags key_idx.toNat hk (set_tx ≠ 0) (pw ≠ 0) (seq_present seq = true)
    simp only [set_key_record, hu]
    rw [h]
    simp only [hpw, hseq]
  generalize hb : (if set_key_group addr then
      (wpa_driver_ralink_get_bssid K { s with bAddWepKey := false } MacAddr.zero).2.2
    else addr.getD MacAddr.zero) = bssid
  have hpw : ((if set_key_group addr then (0 : Int) else 1) ≠ 0 ↔
      ∃ a, addr = some a ∧ a ≠ MacAddr.broadcast) := by
    rw [← hgrp]
    cases set_key_group addr <;> simp
  generalize (if set_key_group addr then (0 : Int) else 1) = pairwise at hpw
  have hI := hidx pairwise bssid hpw
  refine ⟨set_key_record alg key_idx set_tx pairwise bssid seq key, ?_, hI, ?_, ?_, ?_, ?_,
    ?_, rfl, ?_⟩
  · rw [add_key_records_sent_append]
    cases set_key_group addr <;> simp [add_key_records_sent]
  · rw [hI, Nat.testBit_to_div_mod]
    by_cases ht : set_tx = 0 <;>
      by_cases hp : (∃ a, addr = some a ∧ a ≠ MacAddr.broadcast) <;>
      by_cases hs : (∃ q, seq = some q ∧ q.length ≠ 0) <;>
      simp only [ne_eq, ht, hp, hs, if_true, if_false, not_false_eq_true, not_true_eq_false,
        not_not, decide_eq_true_eq] <;>
      simp <;> omega
  · rw [hI, Nat.testBit_to_div_mod]
    by_cases ht : set_tx = 0 <;>
      by_cases hp : (∃ a, addr = some a ∧ a ≠ MacAddr.broadcast) <;>
      by_cases hs : (∃ q, seq = some q ∧ q.length ≠ 0) <;>
      simp only [ne_eq, ht, hp, hs, if_true, if_false, not_false_eq_true, not_true_eq_false,
        not_not, decide_eq_true_eq] <;>
      simp <;> omega
  · rw [hI, Nat.testBit_to_div_mod]
    by_cases ht : set_tx = 0 <;>
      by_cases hp : (∃ a, addr = some a ∧ a ≠ MacAddr.broadcast) <;>
      by_cases hs : (∃ q, seq = some q ∧ q.length ≠ 0) <;>
      simp only [ne_eq, ht, hp, hs, if_true, if_false, not_false_eq_true, not_true_eq_false,
        not_not, decide_eq_true_eq] <;>
      simp <;> omega
  · rw [hI]
    by_cases ht : set_tx = 0 <;>
      by_cases hp : (∃ a, addr = some a ∧ a ≠ MacAddr.broadcast) <;>
      by_cases hs : (∃ q, seq = some q ∧ q.length ≠ 0) <;>
      simp only [ne_eq, ht, hp, hs, if_true, if_false, not_false_eq_true, not_true_eq_false,
        not_not] <;> omega
  · show 12 + 6 + 6 + 8 + key.length = 32 + key.length
    omega
  · intro a ha hne
    have hg : set_key_group addr = false := hgrp.mpr ⟨a, ha, hne⟩
    rw [hg] at hb
    simp only [set_key_record, ← hb, ha]
    simp

/-- Instance of C18: a pairwise TKIP key with index 1, default-tx requested and no sequence
counter. -/
theorem set_key_add_key_header_witness :
    state_init.drv.g_driver_down ≠ 1 ∧
    ∃ nkey : NDIS_802_11_KEY,
      add_key_records_sent
        (issued state_init.calls.length
          (wpa_driver_ralink_set_key kernel_ok state_init .WPA_ALG_TKIP (some (mac 1)) 1 1 none
            sample_tkip_key).1) = [nkey] ∧
      nkey.KeyIndex % 2 ^ 29 = 1 ∧ nkey.Length = 32 + 32 ∧ nkey.BSSID = mac 1 := by
  refine ⟨by decide, ?_⟩
  obtain ⟨nkey, h1, _, _, _, _, h6, h7, _, h9⟩ :=
    set_key_add_key_header kernel_ok state_init .WPA_ALG_TKIP (some (mac 1)) 1 1 none
      sample_tkip_key (by decide) (by decide) (by decide) (by decide) (by decide) (by decide)
  exact ⟨nkey, h1, h6, h7, h9 (mac 1) rfl (by decide)⟩

/-- C19 fails on the code. A CCMP key installed with the 4-byte sequence counter
`00 00 00 80`: the little-endian integer of these bytes is 0x80000000, but the
receive-sequence-counter field of the add-key record is 0xFFFFFFFF80000000, bits 32 to 63
set (`seq[3] << 24` is a negative `int` and is sign-extended when or-ed into the 64-bit
field). With the 6-byte counter `01 02 03 04 05 06` the loop shifts an `int` by 32 and by
40 bits, for which C defines no value. With `01 02 03 04` the field is 0x04030201. -/
theorem key_rsc_sign_extended :
    (add_key_records_sent (issued state_init.calls.length
      (wpa_driver_ralink_set_key kernel_ok state_init .WPA_ALG_CCMP (some (mac 1)) 1 1
        (some [0, 0, 0, 0x80]) (List.replicate 16 7)).1)).map (fun nkey => nkey.KeyRSC) =
      [some 0xFFFFFFFF80000000] ∧
    (0 + 0 * 256 ^ 1 + 0 * 256 ^ 2 + 0x80 * 256 ^ 3 : Nat) = 0x80000000 ∧
    (0xFFFFFFFF80000000 : Nat) ≠ 0x80000000 ∧
    (0xFFFFFFFF80000000 : Nat).testBit 32 = true ∧
    (add_key_records_sent (issued state_init.calls.length
      (wpa_driver_ralink_set_key kernel_ok state_init .WPA_ALG_CCMP (some (mac 1)) 1 1
        (some [1, 2, 3, 4, 5, 6]) (List.replicate 16 7)).1)).map (fun nkey => nkey.KeyRSC) =
      [none] ∧
    (add_key_records_sent (issued state_init.calls.length
      (wpa_driver_ralink_set_key kernel_ok state_init .WPA_ALG_CCMP (some (mac 1)) 1 1
        (some [1, 2, 3, 4]) (List.replicate 16 7)).1)).map (fun nkey => nkey.KeyRSC) =
      [some 0x04030201] := by
  refine ⟨?_, ?_, ?_, ?_, ?_, ?_⟩ <;> decide

/-- C20. Driver up, algorithm none or empty key material. `set_key` issues exactly one
remove-key record and no add-WEP or add-key record. For a pairwise key (peer address
present and not broadcast) it is the only operation, its index field is `key_idx` with
bit 30 or-ed in, and its BSSID field is the peer address. For a group key (peer address
absent or broadcast) the record is preceded by the BSSID query, its index field is
`key_idx`, and its BSSID field is the address that query delivered (the driver's answer
when it accepts the query). For `0 <= key_idx < 2^30` bit 30 of the index field is set iff
the key is pairwise and the low 30 bits are `key_idx`. -/
theorem set_key_remove_record (K : Kernel) (s : State) (alg : wpa_alg) (addr : Option MacAddr)
    (key_idx set_tx : Int) (seq : Option (List u8)) (key : List u8)
    (hup : s.drv.g_driver_down ≠ 1) (hrm : alg = .WPA_ALG_NONE ∨ key.length = 0) :
    ∃ rkey : NDIS_802_11_REMOVE_KEY,
      remove_key_records_sent
        (issued s.calls.length
          (wpa_driver_ralink_set_key K s alg addr key_idx set_tx seq key).1) = [rkey] ∧
      add_wep_records_sent
        (issued s.calls.length
          (wpa_driver_ralink_set_key K s alg addr key_idx set_tx seq key).1) = [] ∧
      add_key_records_sent
        (issued s.calls.length
          (wpa_driver_ralink_set_key K s alg addr key_idx set_tx seq key).1) = [] ∧
      (∀ a, addr = some a → a ≠ MacAddr.broadcast →
        issued s.calls.length
          (wpa_driver_ralink_set_key K s alg addr key_idx set_tx seq key).1 =
            [.remove_key rkey] ∧
        rkey.KeyIndex = to_u32 key_idx ||| 2 ^ 30 ∧ rkey.BSSID = a) ∧
      (addr = none ∨ addr = some MacAddr.broadcast →
        issued s.calls.length
          (wpa_driver_ralink_set_key K s alg addr key_idx set_tx seq key).1 =
            [.get_ap, .remove_key rkey] ∧
        rkey.KeyIndex = to_u32 key_idx ∧
        rkey.BSSID =
          (if K.ioctl_ok s.calls.length then K.ap_addr s.calls.length else MacAddr.zero)) ∧
      (0 ≤ key_idx → key_idx < 2 ^ 30 →
        (rkey.KeyIndex.testBit 30 = true ↔ ∃ a, addr = some a ∧ a ≠ MacAddr.broadcast) ∧
        rkey.KeyIndex % 2 ^ 30 = key_idx.toNat) := by
  rw [set_key_remove_issued K s alg addr key_idx set_tx seq key hup hrm]
  have hgrp := set_key_group_eq_false_iff addr
  have hbs := get_bssid_value K { s with bAddWepKey := false } MacAddr.zero hup
  cases hg : set_key_group addr
  · -- pairwise key
    obtain ⟨a, ha, hne⟩ := hgrp.mp hg
    refine ⟨{ Length := sizeof_NDIS_802_11_REMOVE_KEY, KeyIndex := to_u32 key_idx ||| 2 ^ 30,
              BSSID := addr.getD MacAddr.zero }, ?_, ?_, ?_, ?_, ?_, ?_⟩
    · simp [remove_key_records_sent]
    · simp [add_wep_records_sent]
    · simp [add_key_records_sent]
    · intro a2 ha2 _
      refine ⟨by simp, rfl, ?_⟩
      simp [ha2]
    · intro h
      rcases h with h | h
      · rw [h] at ha; exact absurd ha (by simp)
      · rw [h] at ha
        exact absurd (Option.some.inj ha).symm hne
    · intro h0 h30
      have hk : key_idx.toNat < 2 ^ 30 := by omega
      have hu : to_u32 key_idx = key_idx.toNat := by
        unfold to_u32
        rw [Int.emod_eq_of_lt h0 (by omega)]
      have hor : key_idx.toNat ||| 2 ^ 30 = 2 ^ 30 + key_idx.toNat := by
        rw [Nat.or_comm]
        have := Nat.mul_add_lt_is_or hk 1
        simpa using this.symm
      simp only [hu, hor]
      refine ⟨?_, by omega⟩
      rw [Nat.testBit_to_div_mod]
      simp only [decide_eq_true_eq]
      exact ⟨fun _ => ⟨a, ha, hne⟩, fun _ => by omega⟩
  · -- group key
    have hnp : ¬ ∃ a, addr = some a ∧ a ≠ MacAddr.broadcast := by
      intro h
      rw [hgrp.mpr h] at hg
      exact absurd hg (by decide)
    refine ⟨{ Length := sizeof_NDIS_802_11_REMOVE_KEY, KeyIndex := to_u32 key_idx,
              BSSID := (wpa_driver_ralink_get_bssid K { s with bAddWepKey := false }
                MacAddr.zero).2.2 }, ?_, ?_, ?_, ?_, ?_, ?_⟩
    · simp [remove_key_records_sent]
    · simp [add_wep_records_sent]
    · simp [add_key_records_sent]
    · intro a ha hne
      exact absurd ⟨a, ha, hne⟩ hnp
    · intro _
      exact ⟨by simp, rfl, hbs⟩
    · intro h0 h30
      have hk : key_idx.toNat < 2 ^ 30 := by omega
      have hu : to_u32 key_idx = key_idx.toNat := by
        unfold to_u32
        rw [Int.emod_eq_of_lt h0 (by omega)]
      simp only [hu]
      refine ⟨?_, Nat.mod_eq_of_lt hk⟩
      rw [Nat.testBit_lt_two_pow hk]
      simp [hnp]

/-- Instance of C20: removal of the pairwise key with index 0 on a fresh, up driver. -/
theorem set_key_remove_record_witness :
    state_init.drv.g_driver_down ≠ 1 ∧
    ∃ rkey : NDIS_802_11_REMOVE_KEY,
      remove_key_records_sent
        (issued state_init.calls.length
          (wpa_driver_ralink_set_key kernel_ok state_init .WPA_ALG_NONE (some (mac 1)) 0 0 none
            []).1) = [rkey] ∧
      rkey.BSSID = mac 1 := by
  refine ⟨by decide, ?_⟩
  obtain ⟨rkey, h1, _, _, h4, _, _⟩ :=
    set_key_remove_record kernel_ok state_init .WPA_ALG_NONE (some (mac 1)) 0 0 none []
      (by decide) (Or.inl rfl)
  exact ⟨rkey, h1, (h4 (mac 1) rfl (by decide)).2.2⟩

/-- C21: a WEP `set_key` call with non-empty key material on an up driver issues exactly
one add-WEP record. Its length field is `12 + L`, its index field is `key_idx` plus bit 31
exactly when default-tx is requested (whatever the address, pairwise or group), its
key-length field is `L`, its key bytes are the supplied material, it is the last
operation the call issues, and the call returns the status of that operation. -/
theorem set_key_wep_record (K : Kernel) (s : State) (addr : Option MacAddr)
    (key_idx set_tx : Int) (seq : Option (List u8)) (key : List u8)
    (hup : s.drv.g_driver_down ≠ 1) (hlen : 0 < key.length)
    (hidx : 0 ≤ key_idx ∧ key_idx < 2 ^ 31) :
    ∃ wep : NDIS_802_11_WEP,
      add_wep_records_sent (issued s.calls.length
        (wpa_driver_ralink_set_key K s .WPA_ALG_WEP addr key_idx set_tx seq key).1) = [wep] ∧
      (issued s.calls.length
        (wpa_driver_ralink_set_key K s .WPA_ALG_WEP addr key_idx set_tx seq key).1).getLast? =
          some (.add_wep wep) ∧
      wep.Length = 12 + key.length ∧
      wep.KeyIndex = key_idx.toNat + (if set_tx ≠ 0 then 2 ^ 31 else 0) ∧
      (wep.KeyIndex.testBit 31 = true ↔ set_tx ≠ 0) ∧
      wep.KeyLength = key.length ∧
      wep.KeyMaterial = key ∧
      (wpa_driver_ralink_set_key K s .WPA_ALG_WEP addr key_idx set_tx seq key).2 =
        (if K.ioctl_ok
            ((wpa_driver_ralink_set_key K s .WPA_ALG_WEP addr key_idx set_tx seq key).1.calls.length
              - 1)
          then 0 else -1) := by
  have hlen0 : key.length ≠ 0 := by omega
  have hiss := set_key_add_wep_issued K s addr key_idx set_tx seq key hup hlen0
  have hres := set_key_result K s .WPA_ALG_WEP addr key_idx set_tx seq key hup
  have hu : to_u32 key_idx = key_idx.toNat := by
    unfold to_u32
    rw [Int.emod_eq_of_lt hidx.1 (by omega)]
  have hlt : key_idx.toNat < 2 ^ 31 := by omega
  have hor : key_idx.toNat ||| 0x80000000 = key_idx.toNat + 2 ^ 31 := by
    have := Nat.mul_add_lt_is_or hlt 1
    simp only [Nat.mul_one] at this
    rw [Nat.lor_comm]
    show 2 ^ 31 ||| key_idx.toNat = _
    rw [← this]; omega
  refine ⟨{ Length := 12 + key.length,
             KeyIndex := if set_tx ≠ 0 then to_u32 key_idx ||| 0x80000000 else to_u32 key_idx,
             KeyLength := key.length,
             KeyMaterial := key }, ?_, ?_, rfl, ?_, ?_, rfl, rfl, ?_⟩
  · rw [hiss]; cases set_key_group addr <;> simp [add_wep_records_sent]
  · rw [hiss]; simp
  · show (if set_tx ≠ 0 then to_u32 key_idx ||| 0x80000000 else to_u32 key_idx) = _
    rw [hu]; split_ifs
    · exact hor
    · rfl
  · show (if set_tx ≠ 0 then to_u32 key_idx ||| 0x80000000 else to_u32 key_idx).testBit 31 = true
      ↔ _
    rw [hu]
    by_cases ht : set_tx = 0
    · simp only [ht, ne_eq, not_true_eq_false, if_false, iff_false]
      rw [Nat.testBit_to_div_mod]
      have : key_idx.toNat / 2 ^ 31 = 0 := Nat.div_eq_of_lt hlt
      rw [this]; decide
    · simp only [ne_eq, ht, not_false_eq_true, if_true, iff_true]
      rw [hor, Nat.testBit_to_div_mod]
      have : (key_idx.toNat + 2 ^ 31) / 2 ^ 31 = 1 := by omega
      rw [this]; decide
  · rw [hres]
    have h1 : ¬ (wpa_alg.WPA_ALG_WEP = .WPA_ALG_NONE ∨ key.length = 0) := by
      intro h; rcases h with h | h
      · exact absurd h (by decide)
      · exact hlen0 h
    rw [if_neg h1]

/-- C21 at a concrete call: a 5-byte WEP key with index 1 as default-tx key. -/
theorem set_key_wep_record_witness :
    ∃ wep : NDIS_802_11_WEP,
      add_wep_records_sent (issued state_init.calls.length
        (wpa_driver_ralink_set_key kernel_ok state_init .WPA_ALG_WEP none 1 1 none
          [1, 2, 3, 4, 5]).1) = [wep] ∧
      (issued state_init.calls.length
        (wpa_driver_ralink_set_key kernel_ok state_init .WPA_ALG_WEP none 1 1 none
          [1, 2, 3, 4, 5]).1).getLast? = some (.add_wep wep) ∧
      wep.Length = 12 + [(1 : u8), 2, 3, 4, 5].length ∧
      wep.KeyIndex = (1 : Int).toNat + (if (1 : Int) ≠ 0 then 2 ^ 31 else 0) ∧
      (wep.KeyIndex.testBit 31 = true ↔ (1 : Int) ≠ 0) ∧
      wep.KeyLength = [(1 : u8), 2, 3, 4, 5].length ∧
      wep.KeyMaterial = [1, 2, 3, 4, 5] ∧
      (wpa_driver_ralink_set_key kernel_ok state_init .WPA_ALG_WEP none 1 1 none
          [1, 2, 3, 4, 5]).2 =
        (if kernel_ok.ioctl_ok
            ((wpa_driver_ralink_set_key kernel_ok state_init .WPA_ALG_WEP none 1 1 none
              [1, 2, 3, 4, 5]).1.calls.length - 1)
          then 0 else -1) :=
  set_key_wep_record kernel_ok state_init none 1 1 none [1, 2, 3, 4, 5] (by decide) (by decide)
    (by decide)

/-- C27: whatever the driver answers, the scan-dump fetch returns after `q` queries with
`1 ≤ q ≤ 5`. Query `k` asks with a buffer of `min (4096 * 2 ^ k) 65535` bytes. Every
query before the last was answered "buffer too small" at a size below 65535. When the last
query succeeds the result is the reported data, or no result when the reported length
exceeds the buffer; when it fails there is no result, and the failure is either not
"buffer too small" or happened at size 65535. -/
theorem giwscan_terminates (K : Kernel) (s : State) :
    ∃ (s1 : State) (r : Option (List u8)) (q : Nat),
      wpa_driver_ralink_giwscan K s = some (s1, r) ∧
      issued s.calls.length s1 =
        (List.range q).map (fun k => Request.giwscan (min (4096 * 2 ^ k) 65535)) ∧
      1 ≤ q ∧ q ≤ 5 ∧
      (∀ k, k + 1 < q →
        K.ioctl_ok (s.calls.length + k) = false ∧ K.e2big (s.calls.length + k) = true ∧
        min (4096 * 2 ^ k) 65535 < 65535) ∧
      (K.ioctl_ok (s.calls.length + (q - 1)) = true →
        r = if (K.data (s.calls.length + (q - 1))).length > min (4096 * 2 ^ (q - 1)) 65535
            then none else some (K.data (s.calls.length + (q - 1)))) ∧
      (K.ioctl_ok (s.calls.length + (q - 1)) = false →
        r = none ∧
        (K.e2big (s.calls.length + (q - 1)) = false ∨ min (4096 * 2 ^ (q - 1)) 65535 = 65535)) := by
  obtain ⟨s1, r, q, hrun, _, _, hcalls, hq1, hq5, hpre, hokl, hfail⟩ :=
    giwscan_loop_run K 4 0 6 s (by omega) (by omega)
  simp only [Nat.zero_add] at hcalls hq5 hokl hfail
  refine ⟨s1, r, q, hrun, ?_, hq1, hq5, ?_, hokl, ?_⟩
  · unfold issued; rw [hcalls]; simp
  · intro k hk
    obtain ⟨h1, h2⟩ := hpre k hk
    refine ⟨h1, h2, ?_⟩
    have hk3 : k ≤ 3 := by omega
    interval_cases k <;> decide
  · intro h
    obtain ⟨h1, h2⟩ := hfail h
    refine ⟨h1, ?_⟩
    rcases h2 with h2 | h2
    · exact Or.inl h2
    · right
      have : q = 5 := h2
      subst this
      decide

/-- C25: `add_scan_entry` appends one result whose IE buffer is `P ++ Q ++ raw`, where
`raw` is the accumulated IE buffer, `P` is the synthesized SSID element `[0, len s] ++ s`
exactly when the well-formed prefix of `raw` has no element with tag 0, and `Q` is the
synthesized rate element `[1, 1, r]` exactly when the max-rate `r` is not 0 and that prefix
has no element with tag 1 or 50. The `ie_len` field is the length of that buffer, and the
buffer is a well-formed concatenation of elements whenever `raw` is. -/
theorem add_scan_entry_ie (res : List wpa_scan_res) (data : ralink_scan_data) (l r : u8)
    (hl : l.val = data.ssid.length) (hr : data.maxrate = (r.val : Int)) :
    ∃ entry : wpa_scan_res,
      wpa_driver_ralink_add_scan_entry res data = res ++ [entry] ∧
      entry.ie =
        (if ∀ e ∈ tlv_elements data.ie, e.1 ≠ 0 then [0, l] ++ data.ssid else []) ++
        (if r ≠ 0 ∧ ∀ e ∈ tlv_elements data.ie, e.1 ≠ 1 ∧ e.1 ≠ 50 then [1, 1, r] else []) ++
        data.ie ∧
      entry.ie_len = entry.ie.length ∧
      (tlv_well_formed data.ie → tlv_well_formed entry.ie) := by
  have hspec := add_scan_entry_loop_spec data.ie data.ie.length 0 none none
  simp only [List.drop_zero, true_and] at hspec
  have hl8 : to_u8 (data.ssid.length : Int) = l := by
    apply Fin.ext
    show ((data.ssid.length : Int) % 256).toNat = l.val
    have := l.isLt
    omega
  have hr8 : to_u8 data.maxrate = r := by
    apply Fin.ext
    show (data.maxrate % 256).toNat = r.val
    have := r.isLt
    omega
  have hr0 : data.maxrate ≠ 0 ↔ r ≠ 0 := by
    rw [hr, ne_eq, ne_eq, Fin.ext_iff]
    show ¬ ((r.val : Int) = 0) ↔ ¬ (r.val = 0)
    omega
  have hP : tlv_well_formed ([0, l] ++ data.ssid) := by
    have := tlv_well_formed.cons 0 l data.ssid [] hl.symm tlv_well_formed.nil
    simpa using this
  have hQ : tlv_well_formed [1, 1, r] :=
    tlv_well_formed.cons 1 1 [r] [] rfl tlv_well_formed.nil
  refine ⟨add_scan_entry_result data, rfl, ?_, ?_, ?_⟩
  · show (if (add_scan_entry_loop data.ie data.ie.length 0 none none).1 = none then
              [to_u8 WLAN_EID_SSID, to_u8 data.ssid.length] ++ data.ssid else []) ++
          (if (add_scan_entry_loop data.ie data.ie.length 0 none none).2 = none ∧
                data.maxrate ≠ 0 then
              [to_u8 WLAN_EID_SUPP_RATES, 1, to_u8 data.maxrate] else []) ++
          data.ie = _
    rw [hl8, hr8]
    simp only [hspec.1, hspec.2, hr0, tlv_elements]
    have e0 : to_u8 (WLAN_EID_SSID : Nat) = 0 := by decide
    have e1 : to_u8 (WLAN_EID_SUPP_RATES : Nat) = 1 := by decide
    rw [e0, e1]
    simp only [and_comm]
  · show (if (add_scan_entry_loop data.ie data.ie.length 0 none none).1 = none then
              2 + data.ssid.length else 0) +
          (if (add_scan_entry_loop data.ie data.ie.length 0 none none).2 = none ∧
                data.maxrate ≠ 0 then 3 else 0) + data.ie.length =
        ((if (add_scan_entry_loop data.ie data.ie.length 0 none none).1 = none then
              [to_u8 WLAN_EID_SSID, to_u8 data.ssid.length] ++ data.ssid else []) ++
          (if (add_scan_entry_loop data.ie data.ie.length 0 none none).2 = none ∧
                data.maxrate ≠ 0 then
              [to_u8 WLAN_EID_SUPP_RATES, 1, to_u8 data.maxrate] else []) ++
          data.ie).length
    split_ifs <;> simp <;> omega
  · intro hraw
    show tlv_well_formed
        ((if (add_scan_entry_loop data.ie data.ie.length 0 none none).1 = none then
              [to_u8 WLAN_EID_SSID, to_u8 data.ssid.length] ++ data.ssid else []) ++
          (if (add_scan_entry_loop data.ie data.ie.length 0 none none).2 = none ∧
                data.maxrate ≠ 0 then
              [to_u8 WLAN_EID_SUPP_RATES, 1, to_u8 data.maxrate] else []) ++
          data.ie)
    have e0 : to_u8 (WLAN_EID_SSID : Nat) = 0 := by decide
    have e1 : to_u8 (WLAN_EID_SUPP_RATES : Nat) = 1 := by decide
    rw [hl8, hr8, e0, e1]
    apply tlv_well_formed_append _ _ _ hraw
    apply tlv_well_formed_append
    · split_ifs
      · exact hP
      · exact tlv_well_formed.nil
    · split_ifs
      · exact hQ
      · exact tlv_well_formed.nil

/-- C25 at a concrete candidate: SSID "ab", max-rate 22 and a raw buffer holding one
RSN element, so that both elements are synthesized. -/
theorem add_scan_entry_ie_witness :
    ∃ entry : wpa_scan_res,
      wpa_driver_ralink_add_scan_entry []
          { ralink_scan_data_zero with ie := [48, 2, 1, 0], ssid := [97, 98], maxrate := 22 } =
        [] ++ [entry] ∧
      entry.ie =
        (if ∀ e ∈ tlv_elements [48, 2, 1, 0], e.1 ≠ 0 then [0, 2] ++ [97, 98] else []) ++
        (if (22 : u8) ≠ 0 ∧ ∀ e ∈ tlv_elements [48, 2, 1, 0], e.1 ≠ 1 ∧ e.1 ≠ 50
          then [1, 1, 22] else []) ++
        [48, 2, 1, 0] ∧
      entry.ie_len = entry.ie.length ∧
      (tlv_well_formed [48, 2, 1, 0] → tlv_well_formed entry.ie) :=
  add_scan_entry_ie []
    { ralink_scan_data_zero with ie := [48, 2, 1, 0], ssid := [97, 98], maxrate := 22 }
    2 22 (by decide) (by decide)

/-- C26: a frequency record with exponent 0 leaves a candidate whose frequency is already
set (non-zero) unchanged, whatever its mantissa; on a candidate without frequency a
mantissa `c` with `1 ≤ c ≤ 13` sets the frequency to `2407 + 5 * c` and mantissa 14 sets
it to 2484, and nothing else of the candidate changes. -/
theorem scan_freq_exponent_zero (L : Layout) (iwe_buf : List u8) (res : ralink_scan_data)
    (he : iwe_freq_e L iwe_buf = 0) :
    (res.res.freq ≠ 0 → ralink_get_scan_freq L iwe_buf res = res) ∧
    (res.res.freq = 0 → 1 ≤ iwe_freq_m L iwe_buf → iwe_freq_m L iwe_buf ≤ 13 →
      ralink_get_scan_freq L iwe_buf res =
        { res with res := { res.res with freq := 2407 + 5 * iwe_freq_m L iwe_buf } }) ∧
    (res.res.freq = 0 → iwe_freq_m L iwe_buf = 14 →
      ralink_get_scan_freq L iwe_buf res =
        { res with res := { res.res with freq := 2484 } }) := by
  refine ⟨?_, ?_, ?_⟩
  · intro hf
    unfold ralink_get_scan_freq
    simp only [he, true_and]
    rw [if_pos hf]
  · intro hf h1 h13
    unfold ralink_get_scan_freq
    simp only [he, true_and]
    rw [if_neg (by simpa using hf), if_pos ⟨h1, h13⟩]
  · intro hf h14
    unfold ralink_get_scan_freq
    simp only [he, true_and]
    rw [if_neg (by simpa using hf), if_neg (by omega), if_pos h14]

/-- C26 at a concrete record: exponent 0 and mantissa 1 on a fresh candidate give
2412 MHz. -/
theorem scan_freq_exponent_zero_witness :
    iwe_freq_e layout32 [20, 0, 0x05, 0x8B, 1, 0, 0, 0, 0, 0, 0, 0, 0, 0, 0, 0, 0, 0, 0, 0] = 0 ∧
    (ralink_get_scan_freq layout32
      [20, 0, 0x05, 0x8B, 1, 0, 0, 0, 0, 0, 0, 0, 0, 0, 0, 0, 0, 0, 0, 0]
      ralink_scan_data_zero).res.freq = 2412 :=
  ⟨by decide, by
    rw [(scan_freq_exponent_zero layout32
      [20, 0, 0x05, 0x8B, 1, 0, 0, 0, 0, 0, 0, 0, 0, 0, 0, 0, 0, 0, 0, 0]
      ralink_scan_data_zero (by decide)).2.1 rfl (by decide) (by decide)]
    decide⟩

/-- C22 fails on a target with a 32-bit `size_t`: a 20-byte payload with version 1 and
declared count `0x80000000` is far too short for its candidates (`8 + count * 12 > 20`),
but the length test of line 281 wraps around to `20 < 8`, so `event_pmkid` emits the event
of candidate 0 and then reads candidate 1 at offset 20, outside the payload. -/
theorem event_pmkid_count_wraps :
    ([1, 0, 0, 0, 0, 0, 0, 0x80, 2, 0, 0, 0, 0, 1, 0, 0, 1, 0, 0, 0] : List u8).length = 20 ∧
    get_u32 [1, 0, 0, 0, 0, 0, 0, 0x80, 2, 0, 0, 0, 0, 1, 0, 0, 1, 0, 0, 0] 0 = 1 ∧
    8 + get_u32 [1, 0, 0, 0, 0, 0, 0, 0x80, 2, 0, 0, 0, 0, 1, 0, 0, 1, 0, 0, 0] 4 *
        ndis_layout32.sizeof_PMKID_CANDIDATE > 20 ∧
    wpa_driver_ralink_event_pmkid ndis_layout32
        [1, 0, 0, 0, 0, 0, 0, 0x80, 2, 0, 0, 0, 0, 1, 0, 0, 1, 0, 0, 0] =
      ([.EVENT_PMKID_CANDIDATE (mac 1) 0 1], some (.out_of_bounds 20 6)) := by
  decide

/-- C23: on a payload of at least 8 bytes with version 1 whose declared count `k` fits
(`8 + k * sizeof(PMKID_CANDIDATE)` is at most the payload length), `event_pmkid` emits
exactly `k` events and reads nothing outside the payload; the `i`-th event carries the six
BSSID bytes of candidate `i`, the index `i`, and a preauth value that is non-zero exactly
when bit 0 of the candidate's `Flags` is set. -/
theorem event_pmkid_valid (A : NdisLayout) (data : List u8) (k : Nat)
    (hA1 : ETH_ALEN ≤ A.sizeof_PMKID_CANDIDATE)
    (hA2 : A.Flags_offset + 4 ≤ A.sizeof_PMKID_CANDIDATE)
    (hsz : data.length < 2 ^ A.size_t_bits)
    (hlen : 8 ≤ data.length) (hver : get_u32 data 0 = 1) (hk : get_u32 data 4 = k)
    (hfit : 8 + k * A.sizeof_PMKID_CANDIDATE ≤ data.length) :
    ∃ events : List wpa_event,
      wpa_driver_ralink_event_pmkid A data = (events, none) ∧
      events.length = k ∧
      ∀ i, i < k → ∃ preauth : Nat,
        events[i]? = some (.EVENT_PMKID_CANDIDATE
          (mac_at data (8 + i * A.sizeof_PMKID_CANDIDATE)) i preauth) ∧
        (preauth ≠ 0 ↔
          (get_u32 data (8 + i * A.sizeof_PMKID_CANDIDATE + A.Flags_offset)).testBit 0 = true) := by
  have hloop := event_pmkid_loop_ok A data hA1 hA2 k 0 (by simpa using hfit)
  simp only [Nat.zero_add] at hloop
  refine ⟨(List.range k).map fun j =>
      wpa_event.EVENT_PMKID_CANDIDATE (mac_at data (8 + j * A.sizeof_PMKID_CANDIDATE)) j
        (get_u32 data (8 + j * A.sizeof_PMKID_CANDIDATE + A.Flags_offset) &&&
          NDIS_802_11_PMKID_CANDIDATE_PREAUTH_ENABLED), ?_, ?_, ?_⟩
  · unfold wpa_driver_ralink_event_pmkid
    have hmod : (8 + get_u32 data 4 * A.sizeof_PMKID_CANDIDATE) % 2 ^ A.size_t_bits
        = 8 + get_u32 data 4 * A.sizeof_PMKID_CANDIDATE := by
      apply Nat.mod_eq_of_lt
      rw [hk]
      exact lt_of_le_of_lt hfit hsz
    rw [if_neg (by omega), if_neg (by simpa using hver), hmod, hk, if_neg (by omega)]
    exact hloop
  · simp
  · intro i hi
    refine ⟨get_u32 data (8 + i * A.sizeof_PMKID_CANDIDATE + A.Flags_offset) &&&
      NDIS_802_11_PMKID_CANDIDATE_PREAUTH_ENABLED, ?_, ?_⟩
    · simp [hi]
    · show _ &&& 1 ≠ 0 ↔ _
      rw [Nat.and_one_is_mod, Nat.testBit_zero]
      simp

/-- C23 at a concrete payload: two candidates, the first with the preauth bit set. -/
theorem event_pmkid_valid_witness :
    ∃ events : List wpa_event,
      wpa_driver_ralink_event_pmkid ndis_layout32
        [1, 0, 0, 0, 2, 0, 0, 0,
         2, 0, 0, 0, 0, 1, 0, 0, 1, 0, 0, 0,
         2, 0, 0, 0, 0, 2, 0, 0, 2, 0, 0, 0] = (events, none) ∧
      events = [.EVENT_PMKID_CANDIDATE (mac 1) 0 1, .EVENT_PMKID_CANDIDATE (mac 2) 1 0] := by
  obtain ⟨events, h1, _, _⟩ := event_pmkid_valid ndis_layout32
    [1, 0, 0, 0, 2, 0, 0, 0,
     2, 0, 0, 0, 0, 1, 0, 0, 1, 0, 0, 0,
     2, 0, 0, 0, 0, 2, 0, 0, 2, 0, 0, 0] 2
    (by decide) (by decide) (by decide) (by decide) (by decide) (by decide) (by decide)
  refine ⟨events, h1, ?_⟩
  have h2 : wpa_driver_ralink_event_pmkid ndis_layout32
        [1, 0, 0, 0, 2, 0, 0, 0,
         2, 0, 0, 0, 0, 1, 0, 0, 1, 0, 0, 0,
         2, 0, 0, 0, 0, 2, 0, 0, 2, 0, 0, 0] =
      ([.EVENT_PMKID_CANDIDATE (mac 1) 0 1, .EVENT_PMKID_CANDIDATE (mac 2) 1 0], none) := by
    decide
  rw [h2] at h1
  exact (Prod.mk.inj h1).1.symm

/-- C28: the custom-event dispatch looks at the flag value of the record only. Whatever
the payload and whatever function handles text, a record with the Associated flag emits
exactly the event `EVENT_ASSOC` without data, a record with the Disassociated flag emits
exactly the event `EVENT_DISASSOC` without data, both leave the state as it is, and a
record whose flag is none of the eight known values has its payload, with the terminating
NUL appended, passed to the textual handler, whose events are the events of the record. -/
theorem custom_dispatch_by_flag
    (custom_handler : wpa_driver_ralink_data → List u8 → Except Fault (List wpa_event))
    (A : NdisLayout) (L : Layout) (K : Kernel) (s : State) (r : iw_record) :
    (iwe_data_flags L r.iwe_buf = RT_ASSOC_EVENT_FLAG →
      event_wireless_iwevcustom custom_handler A L K s r = .ok (s, [.EVENT_ASSOC])) ∧
    (iwe_data_flags L r.iwe_buf = RT_DISASSOC_EVENT_FLAG →
      event_wireless_iwevcustom custom_handler A L K s r = .ok (s, [.EVENT_DISASSOC])) ∧
    (iwe_data_flags L r.iwe_buf ∉
        [RT_ASSOC_EVENT_FLAG, RT_REQIE_EVENT_FLAG, RT_RESPIE_EVENT_FLAG,
         RT_ASSOCINFO_EVENT_FLAG, RT_DISASSOC_EVENT_FLAG, RT_PMKIDCAND_FLAG,
         RT_INTERFACE_DOWN, RT_INTERFACE_UP] →
      event_wireless_iwevcustom custom_handler A L K s r =
        (custom_handler s.drv (r.payload ++ [0])).map fun events => (s, events)) := by
  refine ⟨?_, ?_, ?_⟩
  · intro h
    unfold event_wireless_iwevcustom event_wireless_iwevcustom_step
    simp only [h, if_true]
    rfl
  · intro h
    unfold event_wireless_iwevcustom event_wireless_iwevcustom_step
    simp only [h]
    rfl
  · intro h
    simp only [List.mem_cons, List.mem_singleton, List.not_mem_nil, or_false, not_or] at h
    obtain ⟨h1, h2, h3, h4, h5, h6, h7, h8⟩ := h
    unfold event_wireless_iwevcustom event_wireless_iwevcustom_step
    simp only [h1, h2, h3, h4, h5, h6, h7, h8, if_false]

/-- C28 at a concrete record: a payload that begins with the MIC-failure text, carried
with the Associated flag, emits `EVENT_ASSOC` only. -/
theorem custom_dispatch_by_flag_witness :
    iwe_data_flags layout32
      (sample_custom_record RT_ASSOC_EVENT_FLAG
        (c_str "MLME-MICHAELMICFAILURE.indication unicast")).iwe_buf = RT_ASSOC_EVENT_FLAG ∧
    event_wireless_iwevcustom wpa_driver_ralink_event_wireless_custom ndis_layout32 layout32
        kernel_ok state_init
        (sample_custom_record RT_ASSOC_EVENT_FLAG
          (c_str "MLME-MICHAELMICFAILURE.indication unicast")) =
      .ok (state_init, [.EVENT_ASSOC]) :=
  ⟨by decide,
   (custom_dispatch_by_flag wpa_driver_ralink_event_wireless_custom ndis_layout32 layout32
      kernel_ok state_init
      (sample_custom_record RT_ASSOC_EVENT_FLAG
        (c_str "MLME-MICHAELMICFAILURE.indication unicast"))).1 (by decide)⟩

/-- C29: an Interface-Up record sets `g_driver_down` to 0, emits exactly one
interface-status event of kind "interface added" with the handle's interface name, and
issues exactly one supplicant-support operation, with mode 1 when `ap_scan` is 1 and mode
2 otherwise. The resulting state does not depend on the answer of the driver, so a failed
operation leaves the flag at 0 too, and the records that follow are dispatched from that
state. An Interface-Down record sets `g_driver_down` to 1, emits no event and issues no
operation. -/
theorem interface_up_down
    (custom_handler : wpa_driver_ralink_data → List u8 → Except Fault (List wpa_event))
    (A : NdisLayout) (L : Layout) (K : Kernel) (s : State) (r : iw_record)
    (rest : List iw_record) :
    (iwe_data_flags L r.iwe_buf = RT_INTERFACE_UP →
      event_wireless_iwevcustom custom_handler A L K s r =
        .ok ({ drv := { s.drv with g_driver_down := 0 },
               bAddWepKey := s.bAddWepKey,
               calls := s.calls ++
                 [.wpa_supplicant_support (if s.drv.ap_scan = 1 then 1 else 2)] },
             [.EVENT_INTERFACE_STATUS s.drv.ifname .EVENT_INTERFACE_ADDED]) ∧
      event_wireless_run custom_handler A L K s (r :: rest) =
        (event_wireless_run custom_handler A L K
          { drv := { s.drv with g_driver_down := 0 },
            bAddWepKey := s.bAddWepKey,
            calls := s.calls ++
              [.wpa_supplicant_support (if s.drv.ap_scan = 1 then 1 else 2)] } rest).map
          fun more =>
            (more.1, [.EVENT_INTERFACE_STATUS s.drv.ifname .EVENT_INTERFACE_ADDED] ++ more.2)) ∧
    (iwe_data_flags L r.iwe_buf = RT_INTERFACE_DOWN →
      event_wireless_iwevcustom custom_handler A L K s r =
        .ok ({ drv := { s.drv with g_driver_down := 1 },
               bAddWepKey := s.bAddWepKey,
               calls := s.calls }, [])) := by
  have hup : iwe_data_flags L r.iwe_buf = RT_INTERFACE_UP →
      event_wireless_iwevcustom custom_handler A L K s r =
        .ok ({ drv := { s.drv with g_driver_down := 0 },
               bAddWepKey := s.bAddWepKey,
               calls := s.calls ++
                 [.wpa_supplicant_support (if s.drv.ap_scan = 1 then 1 else 2)] },
             [.EVENT_INTERFACE_STATUS s.drv.ifname .EVENT_INTERFACE_ADDED]) := by
    intro h
    unfold event_wireless_iwevcustom event_wireless_iwevcustom_step
    simp only [h, ralink_set_oid_fst]
    rfl
  refine ⟨fun h => ⟨hup h, ?_⟩, ?_⟩
  · rw [event_wireless_run, hup h]
    rfl
  · intro h
    unfold event_wireless_iwevcustom event_wireless_iwevcustom_step
    simp only [h]
    rfl

/-- C29 at a concrete record: Interface-Up on a handle that is down, with a driver that
rejects every operation. -/
theorem interface_up_down_witness :
    iwe_data_flags layout32 (sample_custom_record RT_INTERFACE_UP []).iwe_buf
      = RT_INTERFACE_UP ∧
    event_wireless_iwevcustom wpa_driver_ralink_event_wireless_custom ndis_layout32 layout32
        kernel_fail (event_interface_down state_init) (sample_custom_record RT_INTERFACE_UP []) =
      .ok ({ state_init with calls := [.wpa_supplicant_support 1] },
           [.EVENT_INTERFACE_STATUS [] .EVENT_INTERFACE_ADDED]) :=
  ⟨by decide,
   ((interface_up_down wpa_driver_ralink_event_wireless_custom ndis_layout32 layout32
      kernel_fail (event_interface_down state_init) (sample_custom_record RT_INTERFACE_UP [])
      []).1 (by decide)).1⟩

/-- C30: after a Request-IE record with payload `req` and a Response-IE record with
payload `resp`, a Combined Assoc-Info record passes exactly the buffer
`req ++ resp ++ [0]` to the textual handler, and the events of the record are what that
call gives. The handle after the record has both stashed buffers released, and nothing
else changed, for every handler and whatever the handler gives: events, no event, or a
fault because it read past the buffer it was passed. -/
theorem associnfo_combined_buffer
    (custom_handler : wpa_driver_ralink_data → List u8 → Except Fault (List wpa_event))
    (A : NdisLayout) (L : Layout) (K : Kernel) (s : State) (r1 r2 r3 : iw_record)
    (h1 : iwe_data_flags L r1.iwe_buf = RT_REQIE_EVENT_FLAG)
    (hl1 : iwe_data_length L r1.iwe_buf = r1.payload.length)
    (h2 : iwe_data_flags L r2.iwe_buf = RT_RESPIE_EVENT_FLAG)
    (hl2 : iwe_data_length L r2.iwe_buf = r2.payload.length)
    (h3 : iwe_data_flags L r3.iwe_buf = RT_ASSOCINFO_EVENT_FLAG) :
    ∃ s2 : State,
      event_wireless_run custom_handler A L K s [r1, r2] = .ok (s2, []) ∧
      s2.drv.assoc_req_ies = some r1.payload ∧
      s2.drv.assoc_resp_ies = some r2.payload ∧
      (event_wireless_iwevcustom_step custom_handler A L K s2 r3).2 =
        custom_handler s2.drv (r1.payload ++ r2.payload ++ [0]) ∧
      (event_wireless_iwevcustom_step custom_handler A L K s2 r3).1 =
        { s2 with drv := { s2.drv with assoc_req_ies := none, assoc_resp_ies := none } } ∧
      (event_wireless_iwevcustom_step custom_handler A L K s2 r3).1.drv.assoc_req_ies
        = none ∧
      (event_wireless_iwevcustom_step custom_handler A L K s2 r3).1.drv.assoc_resp_ies
        = none ∧
      event_wireless_iwevcustom custom_handler A L K s2 r3 =
        (custom_handler s2.drv (r1.payload ++ r2.payload ++ [0])).map fun events =>
          ({ s2 with drv := { s2.drv with assoc_req_ies := none, assoc_resp_ies := none } },
           events) := by
  have n1 : RT_REQIE_EVENT_FLAG ≠ RT_ASSOC_EVENT_FLAG := by decide
  have n2 : RT_RESPIE_EVENT_FLAG ≠ RT_ASSOC_EVENT_FLAG := by decide
  have n3 : RT_RESPIE_EVENT_FLAG ≠ RT_REQIE_EVENT_FLAG := by decide
  have n4 : RT_ASSOCINFO_EVENT_FLAG ≠ RT_ASSOC_EVENT_FLAG := by decide
  have n5 : RT_ASSOCINFO_EVENT_FLAG ≠ RT_REQIE_EVENT_FLAG := by decide
  have n6 : RT_ASSOCINFO_EVENT_FLAG ≠ RT_RESPIE_EVENT_FLAG := by decide
  have hstep : ∀ s2 : State, s2.drv.assoc_req_ies = some r1.payload →
      s2.drv.assoc_req_ies_len = r1.payload.length →
      s2.drv.assoc_resp_ies = some r2.payload →
      s2.drv.assoc_resp_ies_len = r2.payload.length →
      event_wireless_iwevcustom_step custom_handler A L K s2 r3 =
        ({ s2 with drv := { s2.drv with assoc_req_ies := none, assoc_resp_ies := none } },
         custom_handler s2.drv (r1.payload ++ r2.payload ++ [0])) := by
    intro s2 e1 e2 e3 e4
    unfold event_wireless_iwevcustom_step
    simp only [h3, n4, n5, n6, if_true, if_false]
    rw [assoc_info_buf_stashed _ r1.payload r2.payload e1 e2 e3 e4]
    rfl
  refine ⟨{ s with drv := { s.drv with assoc_req_ies := some r1.payload,
                                       assoc_req_ies_len := r1.payload.length,
                                       assoc_resp_ies := some r2.payload,
                                       assoc_resp_ies_len := r2.payload.length } },
    ?_, rfl, rfl, ?_, ?_, ?_, ?_, ?_⟩
  · simp only [event_wireless_run, event_wireless_iwevcustom, event_wireless_iwevcustom_step,
      h1, h2, hl1, hl2, n1, n2, n3, if_true, if_false]
    rfl
  · rw [hstep _ rfl rfl rfl rfl]
  · rw [hstep _ rfl rfl rfl rfl]
  · rw [hstep _ rfl rfl rfl rfl]
  · rw [hstep _ rfl rfl rfl rfl]
  · unfold event_wireless_iwevcustom
    rw [hstep _ rfl rfl rfl rfl]

/-- C30 at concrete records, with the parser of the program: a request buffer that holds
the text `ASSOCINFO_ReqIEs=` and two more bytes, and a response buffer of 16 bytes. The
parser is passed the 36 bytes `req ++ resp ++ [0]`, recognises the text and reads past the
end of that buffer, so the record gives a fault in place of events; both stashed buffers
are released all the same. -/
theorem associnfo_combined_buffer_witness :
    ∃ s2 : State,
      event_wireless_run wpa_driver_ralink_event_wireless_custom ndis_layout32 layout32
          kernel_ok state_init
          [sample_custom_record RT_REQIE_EVENT_FLAG (c_str "ASSOCINFO_ReqIEs=" ++ [1, 2]),
           sample_custom_record RT_RESPIE_EVENT_FLAG (List.replicate 16 7)] = .ok (s2, []) ∧
      s2.drv.assoc_req_ies = some (c_str "ASSOCINFO_ReqIEs=" ++ [1, 2]) ∧
      s2.drv.assoc_resp_ies = some (List.replicate 16 7) ∧
      (event_wireless_iwevcustom_step wpa_driver_ralink_event_wireless_custom ndis_layout32
          layout32 kernel_ok s2 (sample_custom_record RT_ASSOCINFO_EVENT_FLAG [])).2 =
        wpa_driver_ralink_event_wireless_custom s2.drv
          (c_str "ASSOCINFO_ReqIEs=" ++ [1, 2] ++ List.replicate 16 7 ++ [0]) ∧
      wpa_driver_ralink_event_wireless_custom s2.drv
          (c_str "ASSOCINFO_ReqIEs=" ++ [1, 2] ++ List.replicate 16 7 ++ [0]) =
        .error (.out_of_bounds 37 1) ∧
      (event_wireless_iwevcustom_step wpa_driver_ralink_event_wireless_custom ndis_layout32
          layout32 kernel_ok s2
          (sample_custom_record RT_ASSOCINFO_EVENT_FLAG [])).1.drv.assoc_req_ies = none ∧
      (event_wireless_iwevcustom_step wpa_driver_ralink_event_wireless_custom ndis_layout32
          layout32 kernel_ok s2
          (sample_custom_record RT_ASSOCINFO_EVENT_FLAG [])).1.drv.assoc_resp_ies = none := by
  obtain ⟨s2, hrun, hreq, hresp, hev, _, hq, hp, _⟩ :=
    associnfo_combined_buffer wpa_driver_ralink_event_wireless_custom ndis_layout32 layout32
      kernel_ok state_init
      (sample_custom_record RT_REQIE_EVENT_FLAG (c_str "ASSOCINFO_ReqIEs=" ++ [1, 2]))
      (sample_custom_record RT_RESPIE_EVENT_FLAG (List.replicate 16 7))
      (sample_custom_record RT_ASSOCINFO_EVENT_FLAG [])
      (by decide) (by decide) (by decide) (by decide) (by decide)
  refine ⟨s2, hrun, hreq, hresp, hev, ?_, hq, hp⟩
  have hs2 : s2 = { state_init with drv := { state_init.drv with
      assoc_req_ies := some (c_str "ASSOCINFO_ReqIEs=" ++ [1, 2]),
      assoc_req_ies_len := 19,
      assoc_resp_ies := some (List.replicate 16 7),
      assoc_resp_ies_len := 16 } } := by
    have : (Except.ok (s2, []) : Except Fault (State × List wpa_event)) = .ok (_, []) :=
      hrun.symm.trans (rfl : event_wireless_run wpa_driver_ralink_event_wireless_custom
        ndis_layout32 layout32 kernel_ok state_init
        [sample_custom_record RT_REQIE_EVENT_FLAG (c_str "ASSOCINFO_ReqIEs=" ++ [1, 2]),
         sample_custom_record RT_RESPIE_EVENT_FLAG (List.replicate 16 7)] =
        .ok ({ state_init with drv := { state_init.drv with
          assoc_req_ies := some (c_str "ASSOCINFO_ReqIEs=" ++ [1, 2]),
          assoc_req_ies_len := 19,
          assoc_resp_ies := some (List.replicate 16 7),
          assoc_resp_ies_len := 16 } }, []))
    cases this
    rfl
  subst hs2
  rfl

/-- C31: with WPS support compiled in and the driver up, `associate` for the key-management
suite `KEY_MGMT_WPS` issues exactly six operations, in this order: the infrastructure-mode
set, the supplicant-support operation with value `0x80`, the generic IE with the bytes of
the request, authentication mode Open, encryption Disabled, and the set-SSID operation. It
issues no 802.1X, require-key or drop-unencrypted operation, and its result is the status
of the set-SSID operation. None of this depends on the cipher suites, the authentication
algorithms or the content of the IE. -/
theorem associate_wps (K : Kernel) (s : State) (params : wpa_driver_associate_params)
    (hup : s.drv.g_driver_down ≠ 1) (hw : params.key_mgmt_suite = .KEY_MGMT_WPS) :
    issued s.calls.length (wpa_driver_ralink_associate true K s params).1 =
      [Request.infrastructure_mode
        (if params.mode = IEEE80211_MODE_IBSS then .Ndis802_11IBSS
         else .Ndis802_11Infrastructure),
       Request.wpa_supplicant_support 0x80,
       Request.gen_ie (params.wpa_ie.getD []),
       Request.authentication_mode .Ndis802_11AuthModeOpen,
       Request.wep_status .Ndis802_11EncryptionDisabled,
       Request.ssid { SsidLength := params.ssid.length,
                      Ssid := params.ssid ++ List.replicate (32 - params.ssid.length) 0 }] ∧
    ieee8021x_sent (issued s.calls.length (wpa_driver_ralink_associate true K s params).1)
      = [] ∧
    require_key_sent (issued s.calls.length (wpa_driver_ralink_associate true K s params).1)
      = [] ∧
    drop_unencrypted_sent
      (issued s.calls.length (wpa_driver_ralink_associate true K s params).1) = [] ∧
    (wpa_driver_ralink_associate true K s params).2 =
      (if K.ioctl_ok (s.calls.length + 5) then 0 else -1) := by
  have hiss := associate_issued_wps K s params hup hw
  refine ⟨hiss, ?_, ?_, ?_, ?_⟩
  · rw [hiss]; rfl
  · rw [hiss]; rfl
  · rw [hiss]; rfl
  · have hlen : (wpa_driver_ralink_associate true K s params).1.calls.length
        = s.calls.length + 6 := by
      have h1 : (issued s.calls.length (wpa_driver_ralink_associate true K s params).1).length
          = 6 := by rw [hiss]; rfl
      have h2 : s.calls.length ≤ (wpa_driver_ralink_associate true K s params).1.calls.length := by
        by_contra hcon
        unfold issued at h1
        rw [List.drop_eq_nil_of_le (by omega)] at h1
        simp at h1
      unfold issued at h1
      rw [List.length_drop] at h1
      omega
    obtain ⟨s2, hs2⟩ := associate_ends_with_set_ssid true K s params hup
    have hfst : (wpa_driver_ralink_associate true K s params).1
        = { s2 with calls := s2.calls ++
              [.ssid { SsidLength := params.ssid.length,
                       Ssid := params.ssid ++ List.replicate (32 - params.ssid.length) 0 }] } := by
      rw [hs2, set_ssid_fst]
    have hs2len : s2.calls.length = s.calls.length + 5 := by
      rw [hfst] at hlen
      simp at hlen
      omega
    rw [hs2, set_ssid_snd, hs2len]

/-- C31 at a concrete request: a WPS association whose request also names CCMP ciphers,
shared-key authentication and an RSN element. -/
theorem associate_wps_witness :
    issued state_init.calls.length
        (wpa_driver_ralink_associate true kernel_ok state_init
          { ssid := [97, 98], wpa_ie := some [48, 1, 0], pairwise_suite := .CIPHER_CCMP,
            group_suite := .CIPHER_CCMP, key_mgmt_suite := .KEY_MGMT_WPS,
            auth_alg := AUTH_ALG_SHARED_KEY, mode := 0 }).1 =
      [Request.infrastructure_mode .Ndis802_11Infrastructure,
       Request.wpa_supplicant_support 0x80,
       Request.gen_ie [48, 1, 0],
       Request.authentication_mode .Ndis802_11AuthModeOpen,
       Request.wep_status .Ndis802_11EncryptionDisabled,
       Request.ssid { SsidLength := 2, Ssid := [97, 98] ++ List.replicate 30 0 }] :=
  (associate_wps kernel_ok state_init
    { ssid := [97, 98], wpa_ie := some [48, 1, 0], pairwise_suite := .CIPHER_CCMP,
      group_suite := .CIPHER_CCMP, key_mgmt_suite := .KEY_MGMT_WPS,
      auth_alg := AUTH_ALG_SHARED_KEY, mode := 0 } (by decide) rfl).1

/-- C35: a frequency record with exponent above 6 leaves the candidate unchanged; with
exponent `e` from 1 to 6 the frequency becomes the mantissa divided by `10 ^ (6 - e)`, the
quotient rounded towards zero as C rounds it; with exponent 0 on a candidate without
frequency and a mantissa outside 1..14 the frequency becomes the mantissa divided by
1000000. Nothing else of the candidate changes. -/
theorem scan_freq_exponent (L : Layout) (iwe_buf : List u8) (res : ralink_scan_data) :
    (iwe_freq_e L iwe_buf > 6 → ralink_get_scan_freq L iwe_buf res = res) ∧
    (1 ≤ iwe_freq_e L iwe_buf → iwe_freq_e L iwe_buf ≤ 6 →
      ralink_get_scan_freq L iwe_buf res =
        { res with res := { res.res with
            freq := Int.tdiv (iwe_freq_m L iwe_buf)
              (10 ^ (6 - (iwe_freq_e L iwe_buf).toNat)) } }) ∧
    (iwe_freq_e L iwe_buf = 0 → res.res.freq = 0 →
      (iwe_freq_m L iwe_buf < 1 ∨ 14 < iwe_freq_m L iwe_buf) →
      ralink_get_scan_freq L iwe_buf res =
        { res with res := { res.res with
            freq := Int.tdiv (iwe_freq_m L iwe_buf) 1000000 } }) := by
  refine ⟨?_, ?_, ?_⟩
  · intro he
    unfold ralink_get_scan_freq
    simp only
    rw [if_neg (by omega), if_neg (by omega), if_neg (by omega), if_pos he]
  · intro h1 h6
    unfold ralink_get_scan_freq
    simp only
    rw [if_neg (by omega), if_neg (by omega), if_neg (by omega), if_neg (by omega)]
    have hd : scan_freq_divi (iwe_freq_e L iwe_buf).toNat 1000000
        = 10 ^ (6 - (iwe_freq_e L iwe_buf).toNat) := by
      have hlo : 1 ≤ (iwe_freq_e L iwe_buf).toNat := by omega
      have hhi : (iwe_freq_e L iwe_buf).toNat ≤ 6 := by omega
      generalize (iwe_freq_e L iwe_buf).toNat = n at hlo hhi
      interval_cases n <;> decide
    rw [hd]
  · intro he hf hm
    unfold ralink_get_scan_freq
    simp only
    rw [if_neg (by simp [hf]), if_neg (by omega), if_neg (by omega), if_neg (by omega), he]
    rfl

/-- C35 at a concrete record: mantissa 241200000 with exponent 1 gives 2412 MHz. -/
theorem scan_freq_exponent_witness :
    (1 ≤ iwe_freq_e layout32
      [20, 0, 0x05, 0x8B, 0x80, 0x6B, 0x60, 0x0E, 1, 0, 0, 0, 0, 0, 0, 0, 0, 0, 0, 0] ∧
     iwe_freq_e layout32
      [20, 0, 0x05, 0x8B, 0x80, 0x6B, 0x60, 0x0E, 1, 0, 0, 0, 0, 0, 0, 0, 0, 0, 0, 0] ≤ 6 ∧
     iwe_freq_m layout32
      [20, 0, 0x05, 0x8B, 0x80, 0x6B, 0x60, 0x0E, 1, 0, 0, 0, 0, 0, 0, 0, 0, 0, 0, 0]
        = 241200000) ∧
    (ralink_get_scan_freq layout32
      [20, 0, 0x05, 0x8B, 0x80, 0x6B, 0x60, 0x0E, 1, 0, 0, 0, 0, 0, 0, 0, 0, 0, 0, 0]
      ralink_scan_data_zero).res.freq = 2412 :=
  ⟨by decide, by
    rw [(scan_freq_exponent layout32
      [20, 0, 0x05, 0x8B, 0x80, 0x6B, 0x60, 0x0E, 1, 0, 0, 0, 0, 0, 0, 0, 0, 0, 0, 0]
      ralink_scan_data_zero).2.1 (by decide) (by decide)]
    decide⟩

/-- C37: after every finite sequence of `add_pmkid`, `remove_pmkid` and `flush_pmkid`
calls, started on a cache whose entries have pairwise distinct BSSIDs (the empty cache in
particular), the entries of the cache have pairwise distinct BSSIDs, whatever the driver
answers and whether or not the driver is down. -/
theorem pmkid_cache_bssid_unique (K : Kernel) (ops : List pmkid_op) (s : State)
    (h : (s.drv.pmkid.map fun e => e.bssid).Nodup) :
    ((pmkid_run K s ops).drv.pmkid.map fun e => e.bssid).Nodup := by
  induction ops generalizing s with
  | nil => exact h
  | cons op rest ih =>
    unfold pmkid_run
    apply ih
    rcases pmkid_step_pmkid K s op with hs | hs
    · rw [hs]; exact h
    · rw [hs]; exact pmkid_step_list_nodup op _ h

/-- C37 at a concrete run from the empty cache: two additions of the same BSSID with
different PMKIDs, an addition of a second BSSID and a removal leave distinct BSSIDs. -/
theorem pmkid_cache_bssid_unique_witness :
    (state_init.drv.pmkid.map fun e => e.bssid).Nodup ∧
    ((pmkid_run kernel_ok state_init
        [.add (mac 1) (pmk 1), .add (mac 2) (pmk 2), .add (mac 1) (pmk 3),
         .remove (mac 1) (pmk 3)]).drv.pmkid.map fun e => e.bssid).Nodup :=
  ⟨by decide,
   pmkid_cache_bssid_unique kernel_ok
     [.add (mac 1) (pmk 1), .add (mac 2) (pmk 2), .add (mac 1) (pmk 3),
      .remove (mac 1) (pmk 3)] state_init (by decide)⟩

/-- C32: the getter of ProcessCredentials answers true exactly when `wps_cred_processing`
is not 1; a setter call whose message carries the boolean `b` stores 2 for true and 1 for
false and replies success; a getter call after it answers `b`; and a second setter call
with the same message changes nothing any more. -/
theorem process_credentials_property (conf : wpa_config) (message : DBusMessage) (b : Bool)
    (hmsg : message.boolean_arg = some (if b then 1 else 0)) :
    wpas_dbus_iface_wps_get_process_credentials true conf =
      .method_return_boolean (if conf.wps_cred_processing ≠ 1 then 1 else 0) ∧
    wpas_dbus_iface_wps_set_process_credentials message conf =
      ({ conf with wps_cred_processing := if b then 2 else 1 }, .success_reply) ∧
    wpas_dbus_iface_wps_get_process_credentials true
        (wpas_dbus_iface_wps_set_process_credentials message conf).1 =
      .method_return_boolean (if b then 1 else 0) ∧
    wpas_dbus_iface_wps_set_process_credentials message
        (wpas_dbus_iface_wps_set_process_credentials message conf).1 =
      wpas_dbus_iface_wps_set_process_credentials message conf := by
  cases b <;>
    simp [wpas_dbus_iface_wps_get_process_credentials,
      wpas_dbus_iface_wps_set_process_credentials, hmsg]

/-- C32 at a concrete call: setting true on a configuration that holds 1. -/
theorem process_credentials_property_witness :
    wpas_dbus_iface_wps_get_process_credentials true { wps_cred_processing := 1 } =
      .method_return_boolean 0 ∧
    wpas_dbus_iface_wps_get_process_credentials true
        (wpas_dbus_iface_wps_set_process_credentials { boolean_arg := some 1 }
          { wps_cred_processing := 1 }).1 =
      .method_return_boolean 1 :=
  ⟨(process_credentials_property { wps_cred_processing := 1 } { boolean_arg := some 1 } true
      rfl).1,
   (process_credentials_property { wps_cred_processing := 1 } { boolean_arg := some 1 } true
      rfl).2.2.1⟩

/-- C36 fails in all three situations it names; each line is a read outside the buffer
the textual parser was handed. On a fresh handle (recorded count 0) a record with an
unknown flag and the 17-byte payload "ASSOCINFO_ReqIEs=" reaches the parser as an 18-byte
buffer, and the parser looks for " RespIEs=" at offset 18; the first line decodes that
record from its 25 bytes on the wire (32-bit layout, WE-19), the second starts from the
decoded record. After a Request-IE record of 19
bytes that starts with that text and a Response-IE record of 1 byte, the combined buffer
has 21 bytes and the parser copies 19 bytes from offset 17. After an association whose
40-byte request buffer was released by a Combined Assoc-Info record the count 40 is still
recorded, and a later record with an unknown flag and a 43-byte payload starting with that
text makes the parser copy 40 bytes from offset 17 of a 44-byte buffer. -/
theorem associnfo_parser_reads_outside :
    wpa_driver_ralink_event_wireless ndis_layout32 layout32 kernel_ok state_init
        ([25, 0, 0x02, 0x8C, 17, 0, 0, 0] ++ c_str "ASSOCINFO_ReqIEs=") =
      .error (.out_of_bounds 18 1) ∧
    event_wireless_run wpa_driver_ralink_event_wireless_custom ndis_layout32 layout32
        kernel_ok state_init
        [sample_custom_record 0 (c_str "ASSOCINFO_ReqIEs=")] =
      .error (.out_of_bounds 18 1) ∧
    event_wireless_run wpa_driver_ralink_event_wireless_custom ndis_layout32 layout32
        kernel_ok state_init
        [sample_custom_record RT_REQIE_EVENT_FLAG (c_str "ASSOCINFO_ReqIEs=ab"),
         sample_custom_record RT_RESPIE_EVENT_FLAG (c_str "x"),
         sample_custom_record RT_ASSOCINFO_EVENT_FLAG []] =
      .error (.out_of_bounds 17 19) ∧
    event_wireless_run wpa_driver_ralink_event_wireless_custom ndis_layout32 layout32
        kernel_ok state_init
        [sample_custom_record RT_REQIE_EVENT_FLAG (List.replicate 40 97),
         sample_custom_record RT_RESPIE_EVENT_FLAG (c_str "x"),
         sample_custom_record RT_ASSOCINFO_EVENT_FLAG [],
         sample_custom_record 0 (c_str "ASSOCINFO_ReqIEs=abcdefghijklmnopqrstuvwxyz")] =
      .error (.out_of_bounds 17 40) :=
  ⟨rfl, rfl, rfl, rfl⟩

/-- C34 fails: a datagram of 48 bytes holds an `RTM_NEWLINK` message of total length 32,
a message header and an interface-info header with no attribute behind it, followed by the
header of a second message. The length of the attribute region is computed as
`h->nlmsg_len - NLMSG_ALIGN(sizeof(ifinfomsg))`, which is 16 where the claim says
`32 - 16 - 16 = 0`, so the loop visits an attribute at offset 32, the first byte after the
message, and since the bytes there read as type `IFLA_WIRELESS` with length 16, the 12
bytes at offsets 36 to 47 are passed to the event decoder. -/
theorem rtm_newlink_region_too_long :
    wpa_driver_ralink_event_receive_attrs sample_netlink_datagram 48 =
      .ok [(0, 32, [{ attr := 32, rta_len := 16, rta_type := IFLA_WIRELESS }])] ∧
    rtm_newlink_attrlen 32 = 16 ∧
    (32 : Int) - sizeof_nlmsghdr - NLMSG_ALIGN sizeof_ifinfomsg = 0 :=
  ⟨rfl, by decide, by decide⟩

/-- C33 as stated fails: the outcome of decoding a buffer need not be the outcome of
decoding its prefix that ends just before the first stopping record. In
`sample_overlong_custom` the record at offset 0 declares the length 16 and the record at
offset 16 declares the length 0, so the prefix has 16 bytes; the custom record declares a
payload of 30 bytes, which the loop tests against the end of the buffer only. Decoding the
38 bytes hands the record with its 30 payload bytes to the dispatch, decoding the 16-byte
prefix hands over nothing. In the same way the scan loop copies the 20-byte SSID of
`sample_overlong_essid` from the whole buffer and no SSID from the 16-byte prefix. It
makes no difference whether the prefix is a buffer of its own or the first 16 bytes of the
same memory. -/
theorem decode_prefix_differs :
    get_u16 sample_overlong_custom 0 = 16 ∧ get_u16 sample_overlong_custom 16 = 0 ∧
    (∃ r : iw_record,
      wpa_driver_ralink_event_wireless_decode layout32 19 sample_overlong_custom = .ok [r] ∧
      r.payload.length = 30) ∧
    wpa_driver_ralink_event_wireless_decode layout32 19 (sample_overlong_custom.take 16)
      = .ok [] ∧
    get_u16 sample_overlong_essid 0 = 16 ∧ get_u16 sample_overlong_essid 16 = 0 ∧
    (∃ r : iw_record,
      wpa_driver_ralink_get_scan_results2_decode layout32 19 sample_overlong_essid = .ok [r] ∧
      r.payload.length = 20) ∧
    (∃ r : iw_record,
      wpa_driver_ralink_get_scan_results2_decode layout32 19 (sample_overlong_essid.take 16)
        = .ok [r] ∧
      r.payload = []) ∧
    wpa_driver_ralink_event_wireless_decode_within layout32 19 sample_overlong_custom 16
      = .ok [] ∧
    (∃ r : iw_record,
      wpa_driver_ralink_get_scan_results2_decode_within layout32 19 sample_overlong_essid 16
        = .ok [r] ∧
      r.payload = []) :=
  ⟨by decide, by decide, ⟨_, rfl, rfl⟩, rfl, by decide, by decide, ⟨_, rfl, rfl⟩, ⟨_, rfl, rfl⟩,
   rfl, ⟨_, rfl, rfl⟩⟩

/-- C33, amended: on a layout whose header holds the length field (at least 2 bytes, and
no more than the structure), both decoding loops terminate for every buffer and length.
Whatever bytes lie behind the buffer, as long as there is a structure's worth of them for
the structure copy to read, the loops run to their end and return their records; and in
no case, also when a read leaves the memory object, do they use up the budget of
`len + 1` iterations. Started at a cursor where fewer bytes than a header remain, or where
the record declares a length of at most the header size, a loop returns at once with no
record. The outcome of decoding the first `len` bytes of a memory object is the outcome of
decoding its first `p` bytes, when fewer than a header's worth of the `len` bytes remain
at offset `p` or the record there declares a length of at most the header size, provided
the records in front of `p` have their payloads in front of `p` and end exactly at `p`.
And the outcome of decoding a buffer `pre ++ rest`, where `rest` is shorter than a header
or begins with such a record, is the outcome of decoding `pre` as a buffer of its own,
provided `pre` is a sequence of records that hold every byte read for them (structure copy
and payload) and end exactly at the end of `pre`. The amount by which an iteration
advances the cursor, the length field of the local copy after the structure copy, is the
length the record declares at the cursor, which the test before it found to exceed the
header size. -/
theorem decode_loops_stop (L : Layout) (we : Int)
    (hL : 2 ≤ L.IW_EV_LCP_LEN) (hS : L.IW_EV_LCP_LEN ≤ L.sizeof_iw_event) :
    (∀ data behind : List u8, L.sizeof_iw_event ≤ behind.length →
      (∃ recs : List iw_record,
        wpa_driver_ralink_event_wireless_decode_within L we (data ++ behind) data.length
          = .ok recs) ∧
      (∃ recs : List iw_record,
        wpa_driver_ralink_get_scan_results2_decode_within L we (data ++ behind) data.length
          = .ok recs)) ∧
    (∀ (mem : List u8) (len : Nat),
      wpa_driver_ralink_event_wireless_decode_within L we mem len ≠ .error .out_of_fuel ∧
      wpa_driver_ralink_get_scan_results2_decode_within L we mem len ≠ .error .out_of_fuel) ∧
    (∀ data : List u8,
      wpa_driver_ralink_event_wireless_decode L we data ≠ .error .out_of_fuel ∧
      wpa_driver_ralink_get_scan_results2_decode L we data ≠ .error .out_of_fuel) ∧
    (∀ (mem : List u8) (end_ fuel pos : Nat) (iwe_buf : List u8), end_ ≤ mem.length →
      (end_ < pos + L.IW_EV_LCP_LEN ∨ get_u16 mem pos ≤ L.IW_EV_LCP_LEN) →
      event_wireless_loop L we mem end_ (fuel + 1) pos iwe_buf = .ok [] ∧
      scan_results_loop L we mem end_ (fuel + 1) pos iwe_buf = .ok []) ∧
    (∀ (mem : List u8) (len p : Nat), p ≤ len → len ≤ mem.length →
      (len < p + L.IW_EV_LCP_LEN ∨ get_u16 mem p ≤ L.IW_EV_LCP_LEN) →
      (event_wireless_ends_at L we mem p (p + 1) 0
          (List.replicate L.sizeof_iw_event 0) = true →
        wpa_driver_ralink_event_wireless_decode_within L we mem len =
          wpa_driver_ralink_event_wireless_decode_within L we mem p) ∧
      (scan_results_ends_at L we mem p (p + 1) 0
          (List.replicate L.sizeof_iw_event 0) = true →
        wpa_driver_ralink_get_scan_results2_decode_within L we mem len =
          wpa_driver_ralink_get_scan_results2_decode_within L we mem p)) ∧
    (∀ pre rest : List u8,
      (rest.length < L.IW_EV_LCP_LEN ∨ get_u16 rest 0 ≤ L.IW_EV_LCP_LEN) →
      (event_wireless_inside L we pre (pre.length + 1) 0
          (List.replicate L.sizeof_iw_event 0) = true →
        wpa_driver_ralink_event_wireless_decode L we (pre ++ rest) =
          wpa_driver_ralink_event_wireless_decode L we pre) ∧
      (scan_results_inside L we pre (pre.length + 1) 0
          (List.replicate L.sizeof_iw_event 0) = true →
        wpa_driver_ralink_get_scan_results2_decode L we (pre ++ rest) =
          wpa_driver_ralink_get_scan_results2_decode L we pre)) ∧
    (∀ (data : List u8) (pos : Nat) (iwe_buf hdr : List u8) (we19 : Bool) (iwe2 : List u8)
        (custom : Nat),
      memread data pos L.IW_EV_LCP_LEN = .ok hdr →
      iw_copy_event L data pos (blit iwe_buf 0 hdr) we19 = .ok (iwe2, custom) →
      iwe_len (blit iwe_buf 0 hdr) = get_u16 data pos ∧ iwe_len iwe2 = get_u16 data pos) := by
  refine ⟨?_, ?_, ?_, ?_, ?_, ?_, ?_⟩
  · intro data behind hroom
    exact ⟨event_wireless_loop_returns L we (data ++ behind) data.length hL hS
        (by simp; omega) _ _ _ (by omega) (by omega),
      scan_results_loop_returns L we (data ++ behind) data.length hL hS
        (by simp; omega) _ _ _ (by omega) (by omega)⟩
  · intro mem len
    exact ⟨event_wireless_loop_terminates L we mem len hL hS _ _ _ (by omega) (by omega),
      scan_results_loop_terminates L we mem len hL hS _ _ _ (by omega) (by omega)⟩
  · intro data
    exact ⟨event_wireless_loop_terminates L we data _ hL hS _ _ _ (by omega) (by omega),
      scan_results_loop_terminates L we data _ hL hS _ _ _ (by omega) (by omega)⟩
  · intro mem end_ fuel pos iwe_buf hend h
    exact ⟨event_wireless_loop_stop L we mem end_ hL hend fuel pos iwe_buf h,
      scan_results_loop_stop L we mem end_ hL hend fuel pos iwe_buf h⟩
  · intro mem len p hp hlen hstop
    refine ⟨?_, ?_⟩
    · intro hin
      exact event_wireless_loop_front L we mem len p hL hp hlen hstop _ _ _ _ (by omega) hin
    · intro hin
      exact scan_results_loop_front L we mem len p hL hp hlen hstop _ _ _ _ (by omega) hin
  · intro pre rest hstop
    refine ⟨?_, ?_⟩
    · intro hin
      exact event_wireless_loop_append L we pre rest hL hstop _ _ _ _ (by simp) hin
    · intro hin
      exact scan_results_loop_append L we pre rest hL hstop _ _ _ _ (by simp) hin
  · intro data pos iwe_buf hdr we19 iwe2 custom hm hc
    exact ⟨iwe_len_header L data pos iwe_buf hdr hL hm,
      iwe_len_copy L data pos iwe_buf hdr we19 iwe2 custom hL hS hm hc⟩

/-- C33, amended, at concrete buffers. A custom record of 25 bytes followed by a record
that declares the length 0 decodes as the custom record alone does. The 8-byte custom
record whose structure copy reads 12 bytes from offset 4 is decoded to the end when 20
bytes lie behind it: the loop goes on past the copy, hands the record to the dispatch and
returns. And the 28 bytes that hold this record followed by zero bytes decode as their
first 8 bytes do. -/
theorem decode_loops_stop_witness :
    (2 ≤ layout32.IW_EV_LCP_LEN ∧ layout32.IW_EV_LCP_LEN ≤ layout32.sizeof_iw_event) ∧
    wpa_driver_ralink_event_wireless_decode layout32 19
        (([25, 0, 0x02, 0x8C, 17, 0, 0, 0] ++ c_str "ASSOCINFO_ReqIEs=") ++
          [0, 0, 0, 0, 1, 2, 3]) =
      wpa_driver_ralink_event_wireless_decode layout32 19
        ([25, 0, 0x02, 0x8C, 17, 0, 0, 0] ++ c_str "ASSOCINFO_ReqIEs=") ∧
    (∃ recs : List iw_record,
      wpa_driver_ralink_event_wireless_decode_within layout32 19
        ([8, 0, 0x02, 0x8C, 0, 0, 0, 0] ++ List.replicate 20 0xEE) 8 = .ok recs) ∧
    wpa_driver_ralink_event_wireless_decode_within layout32 19
        ([8, 0, 0x02, 0x8C, 0, 0, 0, 0] ++ List.replicate 20 0xEE) 8 =
      .ok [{ iwe_buf := [8, 0, 0x02, 0x8C, 0, 0, 0, 0, 0, 0, 0, 0,
                         0xEE, 0xEE, 0xEE, 0xEE, 0xEE, 0xEE, 0xEE, 0xEE],
             custom := 8, payload := [] }] ∧
    wpa_driver_ralink_event_wireless_decode_within layout32 19
        ([8, 0, 0x02, 0x8C, 0, 0, 0, 0] ++ List.replicate 20 0) 28 =
      wpa_driver_ralink_event_wireless_decode_within layout32 19
        ([8, 0, 0x02, 0x8C, 0, 0, 0, 0] ++ List.replicate 20 0) 8 :=
  ⟨by decide,
   ((decode_loops_stop layout32 19 (by decide) (by decide)).2.2.2.2.2.1
      ([25, 0, 0x02, 0x8C, 17, 0, 0, 0] ++ c_str "ASSOCINFO_ReqIEs=")
      [0, 0, 0, 0, 1, 2, 3] (Or.inr (by decide))).1 (by decide),
   ((decode_loops_stop layout32 19 (by decide) (by decide)).1
      [8, 0, 0x02, 0x8C, 0, 0, 0, 0] (List.replicate 20 0xEE) (by decide)).1,
   rfl,
   ((decode_loops_stop layout32 19 (by decide) (by decide)).2.2.2.2.1
      ([8, 0, 0x02, 0x8C, 0, 0, 0, 0] ++ List.replicate 20 0) 28 8 (by decide) (by decide)
      (Or.inr (by decide))).1 (by decide)⟩

end Ralink
